import Mathlib

/-!
# Pico-NTP-Module: calendar engine, DST rule engine and NTP client

A shallow embedding of `Pico-NTP-Module.c` / `Pico-NTP-Module.h`.

Conventions of the embedding:

* `UINT8`, `UINT16`, `UINT32`, `UINT64` values are `Nat`; `INT16`, `INT32`, `int`
  and `time_t` (a signed 64-bit integer) values are `Int`.  Where a C operation
  can leave the range of its type the wrap-around is written out
  (`% 256`, `% 65536`, `toU64`, `wrapI64`).
* Logging (`log_info`) has no effect on the session and is left out.
* `mktime` and `localtime` are C library functions.  The target has no time
  zone configured, so they are the UTC proleptic-Gregorian conversions.
-/

namespace PicoNTP

/-! ## Constants -/

/-- Modelled from the spec: `FLAG_OFF` comes from `baseline.h`, which is not part of the
sources; it is the value of an inactive flag, zero. -/
def FLAG_OFF : Nat := 0

/-- Modelled from the spec: `FLAG_ON` comes from `baseline.h`, which is not part of the
sources; it is the value of an active flag, one. -/
def FLAG_ON : Nat := 1

/-- Constant `FLAG_POLL` (`#define FLAG_POLL 0x02`). -/
def FLAG_POLL : Nat := 2

/-- Constant `MAX_DST_COUNTRIES` (`#define MAX_DST_COUNTRIES 12`). -/
def MAX_DST_COUNTRIES : Nat := 12

/-- Constant `NTP_DELTA` (`#define NTP_DELTA 2208988800`): seconds between 01-JAN-1900 and
01-JAN-1970. -/
def NTP_DELTA : Nat := 2208988800

/-- Constant `NTP_MSG_LEN` (`#define NTP_MSG_LEN 48`). -/
def NTP_MSG_LEN : Nat := 48

/-- Constant `NTP_PORT` (`#define NTP_PORT 123`). -/
def NTP_PORT : Nat := 123

/-- Constant `NTP_REFRESH` (`#define NTP_REFRESH 3600`). -/
def NTP_REFRESH : Nat := 3600

/-- Constant `NTP_RESEND_TIME` (`#define NTP_RESEND_TIME (10 * 1000)`). -/
def NTP_RESEND_TIME : Nat := 10 * 1000

/-- Constant `NTP_RETRY` (`#define NTP_RETRY 600`). -/
def NTP_RETRY : Nat := 600

/-- Constant `NTP_SCAN_FACTOR` (`#define NTP_SCAN_FACTOR 24`). -/
def NTP_SCAN_FACTOR : Nat := 24

/-- Constant `MAX_NTP_CHECKS` (`#define MAX_NTP_CHECKS 10`): number of times the driving loop
waits and checks for an answer from the callback. -/
def MAX_NTP_CHECKS : Nat := 10

/-! ## Machine integers -/

/-- Conversion of a signed value to `UINT64` (reduction modulo `2^64`). -/
def toU64 (x : Int) : Nat := (x % 18446744073709551616).toNat

/-- Two's-complement reading of an integer as a signed 64-bit value (`time_t`, `INT64`). -/
def wrapI64 (x : Int) : Int :=
  (x + 9223372036854775808) % 18446744073709551616 - 9223372036854775808

/-- Conversion of an `int` to `UINT8`. -/
def toU8 (x : Int) : Nat := (x % 256).toNat

/-- Conversion of an `int` to `UINT16`. -/
def toU16 (x : Int) : Nat := (x % 65536).toNat

/-! ## Data model -/

/-- Record `struct human_time`: a time stamp in human format. -/
structure human_time where
  FlagDst : Nat
  Hour : Nat
  Minute : Nat
  Second : Nat
  DayOfWeek : Nat
  DayOfMonth : Nat
  Month : Nat
  Year : Nat
  DayOfYear : Nat
deriving Repr, DecidableEq

/-- Record `struct tm` of the C library. -/
structure tm where
  tm_sec : Int
  tm_min : Int
  tm_hour : Int
  tm_mday : Int
  tm_mon : Int
  tm_year : Int
  tm_wday : Int
  tm_yday : Int
  tm_isdst : Int
deriving Repr, DecidableEq

/-- Record `struct struct_ntp`: the session. -/
structure struct_ntp where
  FlagSuccess : Nat
  FlagHealth : Nat
  FlagInit : Nat
  FlagSummerTime : Nat
  FlagHistory : Nat
  ScanCount : Nat
  DSTCountry : Nat
  DeltaTime : Int
  ShiftMinutes : Int
  DoYStart : Nat
  DoYEnd : Nat
  DSTStart : Nat
  DSTEnd : Nat
  TotalErrors : Nat
  ReadCycles : Nat
  PollCycles : Nat
  Latency : Int
  DNSRequestSent : Bool
  ResendAlarm : Int
  UpdateTime : Nat
  Send : Nat
  Receive : Nat
  ServerAddress : Nat
  UTCTime : Int
  LocalTime : Int
  Pcb : Nat
  HumanTime : human_time
deriving Repr, DecidableEq

/-- Record `struct dst_parameters`: one row of the daylight-saving-time table. -/
structure dst_parameters where
  StartMonth : Nat
  StartDayOfWeek : Nat
  StartDayOfMonthLow : Int
  StartDayOfMonthHigh : Int
  StartHour : Nat
  StartDayOfYear : Nat
  EndMonth : Nat
  EndDayOfWeek : Nat
  EndDayOfMonthLow : Int
  EndDayOfMonthHigh : Int
  EndHour : Nat
  EndDayOfYear : Nat
  ShiftMinutes : Nat
deriving Repr, DecidableEq

/-- A row whose members are all zero: the rows 13..24 of `DstParameters[25]`, which the
initialiser leaves out. -/
def dst_zero : dst_parameters :=
  ⟨0, 0, 0, 0, 0, 0, 0, 0, 0, 0, 0, 0, 0⟩

/-- Table `struct dst_parameters DstParameters[25]`, indexed by country code. -/
def DstParameters (country : Nat) : dst_parameters :=
  match country with
  | 0 => ⟨0, 0, 0, 0, 24, 0, 0, 0, 0, 0, 0, 0, 60⟩        -- Dummy
  | 1 => ⟨10, 0, 1, 7, 2, 0, 4, 0, 1, 7, 3, 0, 60⟩        -- Australia
  | 2 => ⟨10, 0, 1, 7, 2, 0, 4, 0, 1, 7, 2, 0, 30⟩        -- Australia-Howe
  | 3 => ⟨9, 6, 1, 7, 24, 0, 4, 6, 1, 7, 24, 0, 60⟩       -- Chile
  | 4 => ⟨3, 0, 8, 14, 0, 0, 11, 0, 1, 7, 1, 0, 60⟩       -- Cuba
  | 5 => ⟨3, 0, 25, 31, 1, 0, 10, 0, 25, 31, 1, 0, 60⟩    -- European Union
  | 6 => ⟨3, 5, 23, 29, 2, 0, 10, 0, 25, 31, 2, 0, 60⟩    -- Israel
  | 7 => ⟨3, 0, 25, 31, 0, 0, 10, 0, 25, 31, 0, 0, 60⟩    -- Lebanon
  | 8 => ⟨3, 0, 25, 31, 2, 0, 10, 0, 25, 31, 3, 0, 60⟩    -- Moldova
  | 9 => ⟨9, 0, 24, 30, 2, 0, 4, 0, 1, 7, 2, 0, 60⟩       -- New-Zealand
  | 10 => ⟨3, 0, 8, 14, 2, 0, 11, 0, 1, 7, 2, 0, 60⟩      -- North America
  | 11 => ⟨3, 6, 24, 30, 2, 0, 10, 6, 24, 30, 2, 0, 60⟩   -- Palestine
  | 12 => ⟨10, 0, 1, 7, 0, 0, 3, 0, 22, 28, 0, 0, 60⟩     -- Paraguay
  | _ => dst_zero

/-! ## CalendarMath -/

/-- Function `ntp_get_month_days`: number of days of a month of a year.  The C `switch` has no
`default`, so for a month outside 1..12 the returned variable is never assigned; the model
returns 0 there and no theorem relies on that value. -/
def ntp_get_month_days (MonthNumber TargetYear : Nat) : Nat :=
  if MonthNumber = 1 ∨ MonthNumber = 3 ∨ MonthNumber = 5 ∨ MonthNumber = 7 ∨ MonthNumber = 8
      ∨ MonthNumber = 10 ∨ MonthNumber = 12 then 31
  else if MonthNumber = 4 ∨ MonthNumber = 6 ∨ MonthNumber = 9 ∨ MonthNumber = 11 then 30
  else if MonthNumber = 2 then
    if (TargetYear % 4 = 0 ∧ TargetYear % 100 ≠ 0) ∨ TargetYear % 400 = 0 then 29 else 28
  else 0

/-- The `for (Loop1UInt8 = 1; Loop1UInt8 < Month; ++Loop1UInt8)` loop of `ntp_get_day_of_year`,
adding up the complete months; `fuel` bounds the number of iterations. -/
def ntp_get_day_of_year_loop (Month Year : Nat) : Nat → Nat → Nat → Nat
  | 0, _, TargetDayOfYear => TargetDayOfYear
  | fuel + 1, Loop1UInt8, TargetDayOfYear =>
    if Loop1UInt8 < Month then
      ntp_get_day_of_year_loop Month Year fuel (Loop1UInt8 + 1)
        ((TargetDayOfYear + ntp_get_month_days Loop1UInt8 Year) % 65536)
    else TargetDayOfYear

/-- Function `ntp_get_day_of_year`: day-of-year of a date; 0 for a month outside 1..12; a year outside
2000..2100 is replaced by 2024. -/
def ntp_get_day_of_year (DayOfMonth Month Year : Nat) : Nat :=
  if Month < 1 ∨ Month > 12 then 0
  else
    let Year := if Year < 2000 ∨ Year > 2100 then 2024 else Year
    (ntp_get_day_of_year_loop Month Year Month 1 0 + DayOfMonth) % 65536

/-- The local array `Table` of `ntp_get_day_of_week`. -/
def Table : List Nat := [0, 3, 2, 5, 0, 3, 5, 1, 4, 6, 2, 4]

/-- Function `ntp_get_day_of_week`: weekday of a date, Sunday = 0.  `Year` is a `UINT16`, so
`Year -= Month < 3` wraps at zero.  For a month outside 1..12 the C code reads outside
`Table`; the model reads 0 there and no theorem relies on that value. -/
def ntp_get_day_of_week (DayOfMonth Month Year : Nat) : Nat :=
  let Year := (Year + 65536 - (if Month < 3 then 1 else 0)) % 65536
  ((Year + Year / 4 - Year / 100 + Year / 400 + Table.getD (Month - 1) 0 + DayOfMonth) % 7) % 256

/-! ## C library: `mktime` and `localtime` in UTC -/

/-- Number of days from 1970-01-01 to the proleptic-Gregorian date `y`-`m`-`d`
(negative before 1970).  The year is counted from 1 March, so that the leap day is the
last day of the counted year. -/
def days_from_civil (y m d : Int) : Int :=
  let y1 := if m ≤ 2 then y - 1 else y
  let mp := if m ≤ 2 then m + 9 else m - 3
  365 * y1 + y1 / 4 - y1 / 100 + y1 / 400 + (153 * mp + 2) / 5 + d - 1 - 719468

/-- Leap-year test of the Gregorian calendar. -/
def isleap (y : Int) : Bool :=
  (y % 4 = 0 ∧ y % 100 ≠ 0) ∨ y % 400 = 0

/-- C library `mktime` for UTC: seconds since 1970-01-01 00:00:00 of the broken-down time.
Fields outside their usual range are carried over (a `tm_hour` of 24 is 00:00 of the next
day, a `tm_mon` outside 0..11 moves the year). -/
def mktime (t : tm) : Int :=
  let year := t.tm_year + 1900 + t.tm_mon / 12
  let month := t.tm_mon % 12 + 1
  days_from_civil year month t.tm_mday * 86400 + t.tm_hour * 3600 + t.tm_min * 60 + t.tm_sec

/-- Proleptic-Gregorian date of a day number (days since 1970-01-01), as the C library
computes it: the day number is moved to the epoch 0000-03-01 and cut into 400-year eras.
The result is `(year, month, day, yday)` with `month` in 0..11 (January = 0), `day` in 1..31
and `yday` the day of the year counted from 0. -/
def civil_from_days (days : Int) : Int × Int × Int × Int :=
  let z := days + 719468
  let era := z / 146097
  let eraday := z % 146097
  let erayear := (eraday - eraday / 1460 + eraday / 36524 - eraday / 146096) / 365
  let yearday := eraday - (365 * erayear + erayear / 4 - erayear / 100)
  let month := (5 * yearday + 2) / 153
  let day := yearday - (153 * month + 2) / 5 + 1
  let month0 := if month < 10 then month + 2 else month - 10
  let year := erayear + era * 400 + (if month0 ≤ 1 then 1 else 0)
  let yday := if yearday ≥ 306 then yearday - 306
              else yearday + 59 + (if isleap year then 1 else 0)
  (year, month0, day, yday)

/-- C library `localtime` for UTC: the broken-down time of a number of seconds since
1970-01-01 00:00:00. -/
def localtime (UnixTime : Int) : tm :=
  let days := UnixTime / 86400
  let rem := UnixTime % 86400
  let c := civil_from_days days
  { tm_sec := rem % 60
    tm_min := rem % 3600 / 60
    tm_hour := rem / 3600
    tm_mday := c.2.2.1
    tm_mon := c.2.1
    tm_year := c.1 - 1900
    tm_wday := (days + 4) % 7
    tm_yday := c.2.2.2
    tm_isdst := 0 }

/-! ## TimeCodec -/

/-- Function `ntp_convert_human_to_tm`: convert "HumanTime" to "tm_time". -/
def ntp_convert_human_to_tm (HumanTime : human_time) : tm :=
  { tm_mday := HumanTime.DayOfMonth
    tm_mon := (HumanTime.Month : Int) - 1
    tm_year := (HumanTime.Year : Int) - 1900
    tm_wday := HumanTime.DayOfWeek
    tm_yday := (HumanTime.DayOfYear : Int) - 1
    tm_hour := HumanTime.Hour
    tm_min := HumanTime.Minute
    tm_sec := HumanTime.Second
    tm_isdst := 0 }

/-- Function `ntp_convert_tm_to_unix`: convert "TmTime" to "Unix Time"; the `time_t` of
`mktime` is returned as a `UINT64`. -/
def ntp_convert_tm_to_unix (TmTime : tm) : Nat :=
  toU64 (mktime TmTime)

/-- Function `ntp_convert_human_to_unix`: convert "HumanTime" to "Unix Time". -/
def ntp_convert_human_to_unix (HumanTime : human_time) : Nat :=
  ntp_convert_tm_to_unix (ntp_convert_human_to_tm HumanTime)

/-- Function `ntp_convert_unix_time`: convert Unix time to tm time and human time.  Returns the
`tm` written through `TmTime` and the session with its `HumanTime` replaced. -/
def ntp_convert_unix_time (UnixTime : Int) (StructNTP : struct_ntp) : tm × struct_ntp :=
  let TempTime := localtime UnixTime
  let TmTime : tm :=
    { tm_hour := TempTime.tm_hour
      tm_min := TempTime.tm_min
      tm_sec := TempTime.tm_sec
      tm_mday := TempTime.tm_mday
      tm_mon := TempTime.tm_mon
      tm_year := TempTime.tm_year
      tm_wday := TempTime.tm_wday
      tm_yday := TempTime.tm_yday
      tm_isdst := TempTime.tm_isdst }
  (TmTime,
   { StructNTP with
     HumanTime :=
       { Hour := toU8 TmTime.tm_hour
         Minute := toU8 TmTime.tm_min
         Second := toU8 TmTime.tm_sec
         DayOfMonth := toU8 TmTime.tm_mday
         Month := toU8 (TmTime.tm_mon + 1)
         Year := toU16 (TmTime.tm_year + 1900)
         DayOfWeek := toU8 TmTime.tm_wday
         DayOfYear := toU16 TmTime.tm_yday
         FlagDst := toU8 TmTime.tm_isdst } })

/-! ## DstRuleEngine -/

/-- The scan loop of `ntp_dst_settings`:
`for (Loop1UInt8 = Low; Loop1UInt8 <= High; ++Loop1UInt8)` leaving by `break` on the first
day whose weekday is `DayOfWeek`.  `some d` is the exit by `break` with `Loop1UInt8 = d`;
`none` is the exit with `Loop1UInt8 > High`.  `High` is an `int8_t`, the loop variable a
`UINT8`; `fuel` bounds the number of iterations. -/
def dst_scan (DayOfWeek Month Year : Nat) (High : Int) : Nat → Nat → Option Nat
  | 0, _ => none
  | fuel + 1, Loop1UInt8 =>
    if (Loop1UInt8 : Int) ≤ High then
      if ntp_get_day_of_week Loop1UInt8 Month Year = DayOfWeek then some Loop1UInt8
      else dst_scan DayOfWeek Month Year High fuel ((Loop1UInt8 + 1) % 256)
    else none

/-- The scan for the day-of-month on which daylight saving time starts. -/
def dst_scan_start (p : dst_parameters) (Year : Nat) : Option Nat :=
  dst_scan p.StartDayOfWeek p.StartMonth Year p.StartDayOfMonthHigh 256 (toU8 p.StartDayOfMonthLow)

/-- The scan for the day-of-month on which daylight saving time ends. -/
def dst_scan_end (p : dst_parameters) (Year : Nat) : Option Nat :=
  dst_scan p.EndDayOfWeek p.EndMonth Year p.EndDayOfMonthHigh 256 (toU8 p.EndDayOfMonthLow)

/-- The part of `ntp_dst_settings` after both scans have found their day: UTC instants of
the two transitions, local time and daylight-saving status.  The successive assignments to
the members of `StructNTP` are written as successive local values and stored at the end. -/
def ntp_dst_settings_complete (p : dst_parameters) (StartDoM EndDoM : Nat)
    (StructNTP : struct_ntp) : struct_ntp :=
  let FlagNorth := if p.StartMonth < p.EndMonth then FLAG_ON else FLAG_OFF
  -- Find and set UTC time corresponding to local DST start time.
  let HumanTime : human_time :=
    { FlagDst := FLAG_OFF
      DayOfWeek := p.StartDayOfWeek
      DayOfMonth := StartDoM
      DayOfYear := ntp_get_day_of_year StartDoM p.StartMonth StructNTP.HumanTime.Year
      Month := p.StartMonth
      Year := StructNTP.HumanTime.Year
      Hour := p.StartHour
      Minute := 0
      Second := 0 }
  let DoYStart := HumanTime.DayOfYear
  let DSTStart := ntp_convert_human_to_unix HumanTime
  let DSTStart := toU64 ((DSTStart : Int) - StructNTP.DeltaTime * 60)
  -- Find and set UTC time corresponding to local DST end time.
  let HumanTime : human_time :=
    { FlagDst := FLAG_OFF
      DayOfWeek := p.EndDayOfWeek
      DayOfMonth := EndDoM
      DayOfYear := ntp_get_day_of_year EndDoM p.EndMonth StructNTP.HumanTime.Year
      Month := p.EndMonth
      Year := StructNTP.HumanTime.Year
      Hour := p.EndHour
      Minute := 0
      Second := 0 }
  let DoYEnd := HumanTime.DayOfYear
  let DSTEnd := ntp_convert_human_to_unix HumanTime
  let DSTEnd := toU64 ((DSTEnd : Int) - StructNTP.DeltaTime * 60)
  let DSTEnd := toU64 ((DSTEnd : Int) - StructNTP.ShiftMinutes * 60)
  -- Update local time from UTC time in StructNTP.
  let LocalTime := wrapI64 (StructNTP.UTCTime + StructNTP.DeltaTime * 60)
  -- Check if DST is currently On or Off (a `time_t` against a `UINT64`: compared as `UINT64`).
  let FlagSummerTime :=
    if FlagNorth = FLAG_ON then
      if toU64 StructNTP.UTCTime > DSTStart ∧ toU64 StructNTP.UTCTime < DSTEnd
      then FLAG_ON else FLAG_OFF
    else
      if toU64 StructNTP.UTCTime > DSTEnd ∧ toU64 StructNTP.UTCTime < DSTStart
      then FLAG_OFF else FLAG_ON
  let LocalTime :=
    if FlagSummerTime ≠ 0 then wrapI64 (LocalTime + StructNTP.ShiftMinutes * 60) else LocalTime
  { StructNTP with
    DoYStart := DoYStart
    DoYEnd := DoYEnd
    DSTStart := DSTStart
    DSTEnd := DSTEnd
    LocalTime := LocalTime
    FlagSummerTime := FlagSummerTime }

/-- Function `ntp_dst_settings`: set parameters required for daylight saving time automatic
handling. -/
def ntp_dst_settings (StructNTP : struct_ntp) : struct_ntp :=
  if StructNTP.DSTCountry = 0 then { StructNTP with FlagSummerTime := FLAG_OFF }
  else if StructNTP.DSTCountry > MAX_DST_COUNTRIES then
    { StructNTP with FlagSummerTime := FLAG_OFF }
  else
    let p := DstParameters StructNTP.DSTCountry
    let Year := StructNTP.HumanTime.Year
    match dst_scan_start p Year with
    | none => { StructNTP with ShiftMinutes := p.ShiftMinutes, FlagSummerTime := FLAG_OFF }
    | some StartDoM =>
      match dst_scan_end p Year with
      | none =>
        { StructNTP with
          ShiftMinutes := p.ShiftMinutes
          DoYStart := ntp_get_day_of_year StartDoM p.StartMonth Year
          FlagSummerTime := FLAG_OFF }
      | some EndDoM =>
        ntp_dst_settings_complete p StartDoM EndDoM
          { StructNTP with
            ShiftMinutes := p.ShiftMinutes
            DoYStart := ntp_get_day_of_year StartDoM p.StartMonth Year
            DoYEnd := ntp_get_day_of_year EndDoM p.EndMonth Year }

/-! ## NtpClient -/

/-- Calls into the host (Pico SDK and lwIP) made by the client. -/
inductive HostCall where
  | cancel_alarm (AlarmId : Int)
  | add_alarm_in_ms (Milliseconds : Nat)
  | dns_gethostbyname (HostName : String)
  | udp_sendto (Address Port : Nat) (Payload : List Nat)
  | udp_new_ip_type
  | udp_recv (Pcb : Nat)
deriving Repr, DecidableEq

/-- Pico SDK `make_timeout_time_ms`: the absolute time (microseconds since boot) that lies
`ms` milliseconds after `now`. -/
def make_timeout_time_ms (now ms : Nat) : Nat := now + ms * 1000

/-- The success branch of `ntp_result`, entered when `ResultStatus == 0` and `UnixTime` is not
`NULL`. -/
def ntp_result_success (UnixTime : Int) (StructNTP : struct_ntp) : struct_ntp :=
  let StructNTP := { StructNTP with UTCTime := UnixTime, FlagSuccess := FLAG_ON }
  -- Proceed with first conversion of UTC time to determine current year.
  let StructNTP := (ntp_convert_unix_time StructNTP.UTCTime StructNTP).2
  -- Compute all DST parameters for current year.
  let StructNTP := ntp_dst_settings StructNTP
  -- Add DeltaTime to UTC time to get UTC equivalent of local time.
  let LocalTime := wrapI64 (UnixTime + StructNTP.DeltaTime * 60)
  let LocalTime :=
    wrapI64 (LocalTime + (StructNTP.FlagSummerTime : Int) * (StructNTP.ShiftMinutes * 60))
  -- Convert UTC found to human time.
  (ntp_convert_unix_time LocalTime { StructNTP with LocalTime := LocalTime }).2

/-- The failure branch of `ntp_result`. -/
def ntp_result_failure (now : Nat) (StructNTP : struct_ntp) : struct_ntp :=
  { StructNTP with
    FlagSuccess := FLAG_OFF
    FlagHistory := FLAG_OFF
    UpdateTime := make_timeout_time_ms now (NTP_RETRY * 1000) }

/-- Function `ntp_result`: called with results of operation.  `UnixTime` is `none` for a `NULL`
pointer; `now` is the reading of the microsecond timer.  Returns the session and the host
calls made. -/
def ntp_result (now : Nat) (ResultStatus : Int) (UnixTime : Option Int)
    (StructNTP : struct_ntp) : struct_ntp × List HostCall :=
  let StructNTP :=
    match UnixTime with
    | some UnixTime =>
      if ResultStatus = 0 then ntp_result_success UnixTime StructNTP
      else ntp_result_failure now StructNTP
    | none => ntp_result_failure now StructNTP
  if StructNTP.ResendAlarm > 0 then
    ({ StructNTP with ResendAlarm := 0, DNSRequestSent := false },
     [HostCall.cancel_alarm StructNTP.ResendAlarm])
  else
    ({ StructNTP with DNSRequestSent := false }, [])

/-- Constant `NTP_SERVER` (`#define NTP_SERVER "pool.ntp.org"`). -/
def NTP_SERVER : String := "pool.ntp.org"

/-- Constant `ERR_OK` of lwIP: no error. -/
def ERR_OK : Int := 0

/-- Constant `ERR_INPROGRESS` of lwIP: the operation is in progress, the answer comes through
the callback. -/
def ERR_INPROGRESS : Int := -5

/-- Two's-complement reading of an integer as a signed 32-bit value (`INT32`). -/
def wrapI32 (x : Int) : Int := (x + 2147483648) % 4294967296 - 2147483648

/-- Function `ntp_request`: make an NTP request.  A datagram of `NTP_MSG_LEN` bytes, the first
`0x1B` and the others zero, is sent to the server address at `NTP_PORT`, and the reading
`send_time` of the 32-bit microsecond timer is kept in `Send`. -/
def ntp_request (send_time : Nat) (StructNTP : struct_ntp) : struct_ntp × List HostCall :=
  ({ StructNTP with Send := send_time % 4294967296 },
   [HostCall.udp_sendto StructNTP.ServerAddress NTP_PORT
      (0x1B :: List.replicate (NTP_MSG_LEN - 1) 0)])

/-- What the host supplies during one call of `ntp_get_time`: the reading `now` of the
microsecond timer used by `make_timeout_time_ms`, the handle `AlarmId` returned by
`add_alarm_in_ms`, the code `ReturnCode` returned by `dns_gethostbyname`, the address
`CachedAddress` that `dns_gethostbyname` writes to `ServerAddress` when it returns `ERR_OK`,
the reading `send_time` of the 32-bit timer in `ntp_request`, and the reading `now_result`
of the microsecond timer in `ntp_result`. -/
structure get_time_host where
  now : Nat
  AlarmId : Int
  ReturnCode : Int
  CachedAddress : Nat
  send_time : Nat
  now_result : Nat
deriving Repr, DecidableEq

/-- The poll branch of `ntp_get_time`. -/
def ntp_get_time_poll (now : Nat) (StructNTP : struct_ntp) : struct_ntp :=
  { StructNTP with
    UpdateTime := make_timeout_time_ms now (NTP_REFRESH * 1000)
    FlagSuccess := FLAG_POLL
    PollCycles := (StructNTP.PollCycles + 1) % 4294967296
    ScanCount := (StructNTP.ScanCount + 1) % 256 }

/-- The read cycle of `ntp_get_time` up to and including `DNSRequestSent = true`: the
assignments to the session made around the calls of `add_alarm_in_ms` and
`dns_gethostbyname`. -/
def ntp_get_time_read (h : get_time_host) (StructNTP : struct_ntp) : struct_ntp :=
  { StructNTP with
    UpdateTime := make_timeout_time_ms h.now (NTP_REFRESH * 1000)
    ReadCycles := (StructNTP.ReadCycles + 1) % 4294967296
    ScanCount := 1
    ResendAlarm := h.AlarmId
    ServerAddress := if h.ReturnCode = ERR_OK then h.CachedAddress else StructNTP.ServerAddress
    DNSRequestSent := true }

/-- Function `ntp_get_time`: retrieve current UTC time from NTP server.  Returns the session and
the host calls made.  `is_nil_time` is the test for an `UpdateTime` of zero. -/
def ntp_get_time (h : get_time_host) (StructNTP : struct_ntp) : struct_ntp × List HostCall :=
  if StructNTP.FlagHealth ≠ 0 ∧ StructNTP.ScanCount < NTP_SCAN_FACTOR
      ∧ ¬ StructNTP.UpdateTime = 0 then
    (ntp_get_time_poll h.now StructNTP, [])
  else
    let Read := ntp_get_time_read h StructNTP
    let Calls := [HostCall.add_alarm_in_ms NTP_RESEND_TIME, HostCall.dns_gethostbyname NTP_SERVER]
    if h.ReturnCode = 0 then
      ((ntp_request h.send_time Read).1, Calls ++ (ntp_request h.send_time Read).2)
    else if h.ReturnCode = ERR_INPROGRESS then
      ((ntp_result h.now_result (-1) none Read).1,
       Calls ++ (ntp_result h.now_result (-1) none Read).2)
    else (Read, Calls)

/-- Function `pbuf_get_at` of lwIP: the byte (`u8_t`) at `offset` of the buffer, 0 past its
end. -/
def pbuf_get_at (p : List Nat) (offset : Nat) : Nat := p.getD offset 0 % 256

/-- The test of `ntp_recv` on a received datagram: source address, source port, total
length, mode and stratum. -/
def ntp_recv_valid (p : List Nat) (IPAddress port : Nat) (StructNTP : struct_ntp) : Prop :=
  IPAddress = StructNTP.ServerAddress ∧ port = NTP_PORT ∧ p.length = NTP_MSG_LEN
    ∧ pbuf_get_at p 0 &&& 0x7 = 0x04 ∧ pbuf_get_at p 1 ≠ 0

instance (p : List Nat) (IPAddress port : Nat) (StructNTP : struct_ntp) :
    Decidable (ntp_recv_valid p IPAddress port StructNTP) :=
  inferInstanceAs (Decidable (IPAddress = StructNTP.ServerAddress ∧ port = NTP_PORT
    ∧ p.length = NTP_MSG_LEN ∧ pbuf_get_at p 0 &&& 0x7 = 0x04 ∧ pbuf_get_at p 1 ≠ 0))

/-- The Unix time that `ntp_recv` computes from an accepted datagram: the four bytes copied
from offset 40 by `pbuf_copy_partial` are put together as a `UINT64`, `NTP_DELTA` is
subtracted in `UINT64`, and the result is stored in a `time_t`. -/
def ntp_recv_unix_time (p : List Nat) : Int :=
  let SecondBuffer0 := pbuf_get_at p 40
  let SecondBuffer1 := pbuf_get_at p 41
  let SecondBuffer2 := pbuf_get_at p 42
  let SecondBuffer3 := pbuf_get_at p 43
  let SecondsSince1900 :=
    SecondBuffer0 <<< 24 ||| SecondBuffer1 <<< 16 ||| SecondBuffer2 <<< 8 ||| SecondBuffer3
  let SecondsSince1970 := toU64 ((SecondsSince1900 : Int) - (NTP_DELTA : Int))
  wrapI64 SecondsSince1970

/-- Function `ntp_recv`: NTP data received.  `p` is the payload of the datagram (its length is
`tot_len`), `IPAddress` and `port` its source, `recv_time` the reading of the 32-bit
microsecond timer and `now_result` the reading of the microsecond timer in `ntp_result`. -/
def ntp_recv (recv_time now_result : Nat) (p : List Nat) (IPAddress port : Nat)
    (StructNTP : struct_ntp) : struct_ntp × List HostCall :=
  let Receive := recv_time % 4294967296
  if ntp_recv_valid p IPAddress port StructNTP then
    ntp_result now_result 0 (some (ntp_recv_unix_time p))
      { StructNTP with
        Receive := Receive
        Latency := wrapI32 ((Receive : Int) - (StructNTP.Send : Int)) }
  else
    ntp_result now_result (-1) none { StructNTP with Receive := Receive }

/-- Function `ntp_dns_found`: call back with a DNS result.  `ipaddr` is `none` for the null
pointer; `send_time` and `now_result` are the timer readings in `ntp_request` and
`ntp_result`. -/
def ntp_dns_found (send_time now_result : Nat) (ipaddr : Option Nat) (StructNTP : struct_ntp) :
    struct_ntp × List HostCall :=
  match ipaddr with
  | some a => ntp_request send_time { StructNTP with ServerAddress := a }
  | none => ntp_result now_result (-1) none StructNTP

/-- Function `ntp_failed_handler`: NTP request failed.  `StructNTP` is the object that the
`ExtraArgument` of the alarm call-back points to; the second component is the value returned
to the alarm pool, 0 (the alarm is not rescheduled). -/
def ntp_failed_handler (now_result : Nat) (StructNTP : struct_ntp) :
    (struct_ntp × List HostCall) × Int :=
  (ntp_result now_result (-1) none StructNTP, 0)

/-- What the `void *` user data given to a host registration designates: the session (the
pointer `StructNTP`), or the parameter `StructNTP` of `ntp_get_time` itself (`&StructNTP`), a
location in the stack frame of a call that has returned when the call-back runs. -/
inductive user_data where
  | StructNTP
  | address_of_StructNTP
deriving Repr, DecidableEq

/-- The user data that `ntp_get_time` gives to `add_alarm_in_ms`:
`add_alarm_in_ms(NTP_RESEND_TIME, ntp_failed_handler, &StructNTP, true)`. -/
def ntp_get_time_alarm_user_data : user_data := user_data.address_of_StructNTP

/-- The user data that `ntp_get_time` gives to `dns_gethostbyname`:
`dns_gethostbyname(NTP_SERVER, &StructNTP->ServerAddress, ntp_dns_found, StructNTP)`. -/
def ntp_get_time_dns_user_data : user_data := user_data.StructNTP

/-- The memory a call-back works on: the session, and what lies at the address of the former
parameter of `ntp_get_time`, read as a `struct struct_ntp`.  The two are taken not to
overlap. -/
structure callback_memory where
  Session : struct_ntp
  Parameter : struct_ntp
deriving Repr, DecidableEq

/-- The alarm pool calling `ntp_failed_handler` with the user data registered with the alarm:
the handler works on the object that the user data designates. -/
def alarm_fired (now_result : Nat) (ExtraArgument : user_data) (m : callback_memory) :
    (callback_memory × List HostCall) × Int :=
  match ExtraArgument with
  | user_data.StructNTP =>
    (({ m with Session := (ntp_failed_handler now_result m.Session).1.1 },
      (ntp_failed_handler now_result m.Session).1.2),
     (ntp_failed_handler now_result m.Session).2)
  | user_data.address_of_StructNTP =>
    (({ m with Parameter := (ntp_failed_handler now_result m.Parameter).1.1 },
      (ntp_failed_handler now_result m.Parameter).1.2),
     (ntp_failed_handler now_result m.Parameter).2)

/-- Function `ntp_init`: initialize NTP connection.  `Pcb` is the value returned by
`udp_new_ip_type`, 0 when the allocation failed.  Returns the session, the host calls and
the return code. -/
def ntp_init (Pcb : Nat) (StructNTP : struct_ntp) : (struct_ntp × List HostCall) × Nat :=
  let UTCTime := wrapI64 (StructNTP.LocalTime - StructNTP.DeltaTime * 60)
  if Pcb = 0 then
    (({ StructNTP with
        FlagSuccess := FLAG_OFF
        FlagHealth := FLAG_OFF
        FlagHistory := FLAG_OFF
        FlagInit := FLAG_OFF
        FlagSummerTime := FLAG_OFF
        ScanCount := 0
        TotalErrors := 0
        ReadCycles := 0
        PollCycles := 0
        UpdateTime := 0
        UTCTime := UTCTime
        Pcb := Pcb },
      [HostCall.udp_new_ip_type]), 1)
  else
    (({ StructNTP with
        FlagSuccess := FLAG_OFF
        FlagHealth := FLAG_OFF
        FlagHistory := FLAG_OFF
        FlagInit := FLAG_ON
        FlagSummerTime := FLAG_OFF
        ScanCount := 0
        TotalErrors := 0
        ReadCycles := 0
        PollCycles := 0
        UpdateTime := 0
        UTCTime := UTCTime
        Pcb := Pcb },
      [HostCall.udp_new_ip_type, HostCall.udp_recv Pcb]), 0)

/-! ## Driving loop (`Pico-NTP-Example.c`) -/

/-- The test made by `main` after a cycle: when `FlagSuccess` is `FLAG_ON` the driving loop
sets `FlagHealth` to `FLAG_ON` and copies `FlagSuccess` to `FlagHistory`. -/
def main_on_success (StructNTP : struct_ntp) : struct_ntp :=
  if StructNTP.FlagSuccess = FLAG_ON then
    { StructNTP with FlagHealth := FLAG_ON, FlagHistory := StructNTP.FlagSuccess }
  else StructNTP

/-- The handling by `main` of a failed update request, the block run when
`Loop1UInt16 >= MAX_NTP_CHECKS`: the error count is increased only if the health flag was
on, the history takes the value of `FlagSuccess`, the health flag is switched off and the
update time is made nil. -/
def main_on_failure (StructNTP : struct_ntp) : struct_ntp :=
  { StructNTP with
    TotalErrors :=
      if StructNTP.FlagHealth = FLAG_ON then (StructNTP.TotalErrors + 1) % 4294967296
      else StructNTP.TotalErrors
    FlagHistory := StructNTP.FlagSuccess
    FlagHealth := FLAG_OFF
    UpdateTime := 0 }

/-- The test made by `main` after the loop of checks, whose counter is `Loop1UInt16`. -/
def main_after_checks (Loop1UInt16 : Nat) (StructNTP : struct_ntp) : struct_ntp :=
  if Loop1UInt16 ≥ MAX_NTP_CHECKS then main_on_failure StructNTP else StructNTP

/-! ## Reference notions used in the statements -/

/-- The day `d` is the first day of month in `Low .. High` whose weekday, in month `Month` of
year `Year`, is `DayOfWeek`. -/
def IsFirstMatch (Low High : Int) (DayOfWeek Month Year d : Nat) : Prop :=
  Low ≤ (d : Int) ∧ (d : Int) ≤ High ∧ ntp_get_day_of_week d Month Year = DayOfWeek
    ∧ ∀ k : Nat, Low ≤ (k : Int) → k < d → ntp_get_day_of_week k Month Year ≠ DayOfWeek

/-- The UTC instant held by a `UINT64` member such as `DSTStart`: its two's-complement
reading as a `time_t`.  It is the stored number itself whenever that is below `2^63`, which
is the case for every instant from 1970 on; an instant before 1970 is negative and is stored
as `2^64` plus the instant. -/
def as_time_t (x : Nat) : Int := wrapI64 x

/-- A civil time given by its six calendar fields (the weekday, day-of-year and DST members,
which `mktime` does not read, are zero). -/
def civil_time (Year Month DayOfMonth Hour Minute Second : Nat) : human_time :=
  { FlagDst := 0, Hour := Hour, Minute := Minute, Second := Second, DayOfWeek := 0
    DayOfMonth := DayOfMonth, Month := Month, Year := Year, DayOfYear := 0 }

/-- The session of `Pico-NTP-Example.c` before the first cycle: North America
(`DST_COUNTRY 10`), `DELTA_TIME -300`, every other member zero, with the given session year
and UTC time. -/
def example_session (Year : Nat) (UTCTime : Int) : struct_ntp :=
  { FlagSuccess := 0, FlagHealth := 0, FlagInit := 0, FlagSummerTime := 0, FlagHistory := 0
    ScanCount := 0, DSTCountry := 10, DeltaTime := -300, ShiftMinutes := 0, DoYStart := 0
    DoYEnd := 0, DSTStart := 0, DSTEnd := 0, TotalErrors := 0, ReadCycles := 0, PollCycles := 0
    Latency := 0, DNSRequestSent := false, ResendAlarm := 0, UpdateTime := 0, Send := 0
    Receive := 0, ServerAddress := 0, UTCTime := UTCTime, LocalTime := 0, Pcb := 0
    HumanTime := civil_time Year 1 1 0 0 0 }

/-- Reference weekday of the date `y`-`m`-`d`, Sunday = 0: the number of days since the
Sunday 1969-12-28, modulo 7. -/
def true_weekday (d m y : Nat) : Int :=
  (days_from_civil y m d - days_from_civil 1969 12 28) % 7

/-- A session for a southern-hemisphere rule: the example session with Australia
(`DSTCountry = 1`) and `DeltaTime = 600`. -/
def example_session_south (Year : Nat) (UTCTime : Int) : struct_ntp :=
  { example_session Year UTCTime with DSTCountry := 1, DeltaTime := 600 }

/-- Host values for a call of `ntp_get_time` in which the name resolution is answered from
the cache (`ERR_OK`) with the address 16909060: timer at 5 s, alarm handle 7. -/
def example_host_cached : get_time_host :=
  { now := 5000000, AlarmId := 7, ReturnCode := 0, CachedAddress := 16909060
    send_time := 5000100, now_result := 5000200 }

/-- Host values for a call of `ntp_get_time` in which the name resolution is pending
(`ERR_INPROGRESS`): timer at 5 s, alarm handle 7. -/
def example_host_pending : get_time_host :=
  { now := 5000000, AlarmId := 7, ReturnCode := -5, CachedAddress := 0
    send_time := 5000100, now_result := 5000200 }

/-- A healthy session in the course of its poll cycles: the last call was a poll
(`FlagSuccess = FLAG_POLL`), an update time is scheduled, one read cycle has been made, and
the scan count is the given one. -/
def example_session_healthy (ScanCount : Nat) : struct_ntp :=
  { example_session 2025 1751328000 with
    FlagSuccess := 2, FlagHealth := 1, ScanCount := ScanCount, UpdateTime := 1000000
    PollCycles := 3, ReadCycles := 1 }

/-- A reply datagram of 48 bytes from the server: first byte `0x1C` (version 3, mode 4), the
given stratum, and the seconds field `0xEC0DA380 = 3960316800` at offset 40, which is
2025-07-01 00:00:00 UTC (Unix time 1751328000). -/
def example_reply (Stratum : Nat) : List Nat :=
  [0x1C, Stratum] ++ List.replicate 38 0 ++ [0xEC, 0x0D, 0xA3, 0x80] ++ List.replicate 4 0

/-- The operations of the client that work on the session, each with the values that the host
supplies to it. -/
inductive client_operation where
  | get_time (h : get_time_host)
  | dns_found (send_time now_result : Nat) (ipaddr : Option Nat)
  | recv (recv_time now_result : Nat) (p : List Nat) (IPAddress port : Nat)
  | result (now : Nat) (ResultStatus : Int) (UnixTime : Option Int)
  | request (send_time : Nat)
  | failed_handler (now_result : Nat)
  | dst_settings
  | convert_unix_time (UnixTime : Int)

/-- The session after an operation of the client. -/
def client_step (op : client_operation) (s : struct_ntp) : struct_ntp :=
  match op with
  | client_operation.get_time h => (ntp_get_time h s).1
  | client_operation.dns_found send_time now_result ipaddr =>
    (ntp_dns_found send_time now_result ipaddr s).1
  | client_operation.recv recv_time now_result p IPAddress port =>
    (ntp_recv recv_time now_result p IPAddress port s).1
  | client_operation.result now ResultStatus UnixTime => (ntp_result now ResultStatus UnixTime s).1
  | client_operation.request send_time => (ntp_request send_time s).1
  | client_operation.failed_handler now_result => (ntp_failed_handler now_result s).1.1
  | client_operation.dst_settings => ntp_dst_settings s
  | client_operation.convert_unix_time UnixTime => (ntp_convert_unix_time UnixTime s).2

/-- The session after a sequence of operations of the client. -/
def client_steps (ops : List client_operation) (s : struct_ntp) : struct_ntp :=
  ops.foldl (fun e op => client_step op e) s

/-- A run of consecutive failed cycles with no success in between: in each cycle the client
makes any operations and the driving loop then handles the failure. -/
def failed_cycles (cycles : List (List client_operation)) (s : struct_ntp) : struct_ntp :=
  cycles.foldl (fun e ops => main_on_failure (client_steps ops e)) s

/-- A callback memory: the session is the healthy example session after a read cycle (the
resend alarm 7 armed, the update time at 3605 s), and what lies at the address of the former
parameter of `ntp_get_time` is another object. -/
def example_memory : callback_memory :=
  { Session := { example_session_healthy 1 with ResendAlarm := 7, UpdateTime := 3605000000 }
    Parameter := { example_session 1970 0 with ResendAlarm := 99 } }


/-- The calendar date that follows the date `Year`-`Month`-`DayOfMonth`, as
(year, month, day of month): the next day of the month, or the first day of the next month
after the last day of a month, or 1 January of the next year after 31 December. -/
def next_day (Year Month DayOfMonth : Nat) : Nat × Nat × Nat :=
  if DayOfMonth < ntp_get_month_days Month Year then (Year, Month, DayOfMonth + 1)
  else if Month < 12 then (Year, Month + 1, 1)
  else (Year + 1, 1, 1)

/-- The calendar date (year, month, day of month) that falls `k` days after a date. -/
def days_later : Nat → Nat × Nat × Nat → Nat × Nat × Nat
  | 0, D => D
  | k + 1, D => days_later k (next_day D.1 D.2.1 D.2.2)

/-- A valid date (year, month, day of month): month in 1..12 and day in 1..length of the
month. -/
def valid_date (D : Nat × Nat × Nat) : Prop :=
  (1 ≤ D.2.1 ∧ D.2.1 ≤ 12) ∧ (1 ≤ D.2.2 ∧ D.2.2 ≤ ntp_get_month_days D.2.1 D.1)

instance (D : Nat × Nat × Nat) : Decidable (valid_date D) :=
  inferInstanceAs (Decidable ((1 ≤ D.2.1 ∧ D.2.1 ≤ 12)
    ∧ (1 ≤ D.2.2 ∧ D.2.2 ≤ ntp_get_month_days D.2.1 D.1)))

/-- Number of the days `1 .. d` of the month `Month` of `Year` whose weekday is
`DayOfWeek`. -/
def weekday_count (DayOfWeek Month Year d : Nat) : Nat :=
  ((List.range' 1 d).filter (fun k => ntp_get_day_of_week k Month Year = DayOfWeek)).length

/-- The day `d` is the `n`-th day of the month `Month` of `Year` whose weekday is
`DayOfWeek` (the `n`-th occurrence of that weekday in the month). -/
def IsNthWeekday (n DayOfWeek Month Year d : Nat) : Prop :=
  1 ≤ d ∧ d ≤ ntp_get_month_days Month Year ∧ ntp_get_day_of_week d Month Year = DayOfWeek
    ∧ weekday_count DayOfWeek Month Year d = n

/-- The day `d` is the last day of the month `Month` of `Year` whose weekday is
`DayOfWeek`. -/
def IsLastWeekday (DayOfWeek Month Year d : Nat) : Prop :=
  1 ≤ d ∧ d ≤ ntp_get_month_days Month Year ∧ ntp_get_day_of_week d Month Year = DayOfWeek
    ∧ ∀ k : Nat, d < k → k ≤ ntp_get_month_days Month Year →
        ntp_get_day_of_week k Month Year ≠ DayOfWeek

/-- The day `d` is the only day of month in `Low .. High` whose weekday, in month `Month` of
year `Year`, is `DayOfWeek`. -/
def IsUniqueMatch (Low High : Int) (DayOfWeek Month Year d : Nat) : Prop :=
  Low ≤ (d : Int) ∧ (d : Int) ≤ High ∧ ntp_get_day_of_week d Month Year = DayOfWeek
    ∧ ∀ k : Nat, Low ≤ (k : Int) → (k : Int) ≤ High →
        ntp_get_day_of_week k Month Year = DayOfWeek → k = d

/-- The test of `ntp_get_time` for a poll cycle: the health flag is on, the scan count is below
`NTP_SCAN_FACTOR` and an update time is set. -/
def ntp_get_time_is_poll (StructNTP : struct_ntp) : Prop :=
  StructNTP.FlagHealth ≠ 0 ∧ StructNTP.ScanCount < NTP_SCAN_FACTOR ∧ ¬ StructNTP.UpdateTime = 0

instance (StructNTP : struct_ntp) : Decidable (ntp_get_time_is_poll StructNTP) :=
  inferInstanceAs (Decidable (StructNTP.FlagHealth ≠ 0 ∧ StructNTP.ScanCount < NTP_SCAN_FACTOR
    ∧ ¬ StructNTP.UpdateTime = 0))

/-- The events that change a session: an operation of the client, or the handling by the
driving loop of a success (`main_on_success`) or of a failure (`main_on_failure`). -/
inductive session_event where
  | client (op : client_operation)
  | main_success
  | main_failure

/-- The session after an event. -/
def session_step (e : session_event) (s : struct_ntp) : struct_ntp :=
  match e with
  | session_event.client op => client_step op s
  | session_event.main_success => main_on_success s
  | session_event.main_failure => main_on_failure s

/-- The session after a sequence of events. -/
def session_steps (es : List session_event) (s : struct_ntp) : struct_ntp :=
  es.foldl (fun e ev => session_step ev e) s

/-- Whether every call of `ntp_get_time` in the sequence of events, run from the session `s`,
takes the poll cycle. -/
def polls_only : List session_event → struct_ntp → Bool
  | [], _ => true
  | session_event.client (client_operation.get_time h) :: es, s =>
    decide (ntp_get_time_is_poll s) && polls_only es (ntp_get_time h s).1
  | e :: es, s => polls_only es (session_step e s)

/-- Number of calls of `ntp_get_time` in a sequence of events. -/
def get_time_calls : List session_event → Nat
  | [] => 0
  | session_event.client (client_operation.get_time _) :: es => get_time_calls es + 1
  | _ :: es => get_time_calls es

/-- A session for the rule of the European Union: the example session with `DSTCountry = 5`
and `DeltaTime = 60` (Central European Time). -/
def example_session_europe (Year : Nat) (UTCTime : Int) : struct_ntp :=
  { example_session Year UTCTime with DSTCountry := 5, DeltaTime := 60 }

/-- A run of events from `ntp_init`: a first read cycle answered from the cache, the reply of
the server received and accepted, and the success handled by the driving loop. -/
def example_first_cycle : List session_event :=
  [session_event.client (client_operation.get_time example_host_cached),
   session_event.client (client_operation.recv 5030000 5030100 (example_reply 2) 16909060 123),
   session_event.main_success]

/-- The session of the example after `ntp_init` and the first cycle. -/
def example_session_synced : struct_ntp :=
  session_steps example_first_cycle (ntp_init 1 (example_session 1970 0)).1.1
/-! ## Theorems -/

/-! ### Machine integers -/

theorem toU64_of_nonneg (x : Int) (h0 : 0 ≤ x) (h1 : x < 18446744073709551616) :
    (toU64 x : Int) = x := by
  unfold toU64
  omega

theorem toU64_lt (x : Int) : toU64 x < 18446744073709551616 := by
  unfold toU64
  omega

theorem wrapI64_of_range (x : Int) (h0 : -9223372036854775808 ≤ x)
    (h1 : x < 9223372036854775808) : wrapI64 x = x := by
  unfold wrapI64
  omega

/-! ### CalendarMath -/

theorem ntp_get_month_days_le (m y : Nat) : ntp_get_month_days m y ≤ 31 := by
  unfold ntp_get_month_days
  split_ifs <;> omega

theorem ntp_get_month_days_le_2024 (m y : Nat) :
    ntp_get_month_days m y ≤ ntp_get_month_days m 2024 := by
  unfold ntp_get_month_days
  split_ifs <;> omega

/-- The month loop of `ntp_get_day_of_year` adds the lengths of the months `i .. Month - 1`. -/
theorem ntp_get_day_of_year_loop_eq (Month Year : Nat) :
    ∀ fuel i acc, i ≤ Month → Month ≤ i + fuel → acc + 31 * (Month - i) < 65536 →
      ntp_get_day_of_year_loop Month Year fuel i acc
        = acc + ∑ j in Finset.Ico i Month, ntp_get_month_days j Year := by
  intro fuel
  induction fuel with
  | zero =>
    intro i acc h1 h2 _
    have : i = Month := by omega
    subst this
    simp [ntp_get_day_of_year_loop]
  | succ n ih =>
    intro i acc h1 h2 h3
    unfold ntp_get_day_of_year_loop
    by_cases hlt : i < Month
    · have hmd := ntp_get_month_days_le i Year
      have hmod : (acc + ntp_get_month_days i Year) % 65536 = acc + ntp_get_month_days i Year := by
        apply Nat.mod_eq_of_lt
        omega
      rw [if_pos hlt, hmod, ih (i + 1) _ (by omega) (by omega) (by omega),
        Finset.sum_eq_sum_Ico_succ_bot hlt]
      omega
    · have : i = Month := by omega
      subst this
      simp

theorem sum_month_days_le (Year : Nat) (Month : Nat) :
    ∑ j in Finset.Ico 1 Month, ntp_get_month_days j Year ≤ 31 * (Month - 1) := by
  calc ∑ j in Finset.Ico 1 Month, ntp_get_month_days j Year
      ≤ ∑ _j in Finset.Ico 1 Month, 31 := Finset.sum_le_sum (fun j _ => ntp_get_month_days_le j Year)
    _ = 31 * (Month - 1) := by simp [mul_comm]

/-- Value of `ntp_get_day_of_year` for a month in 1..12 and a year in 2000..2100. -/
theorem ntp_get_day_of_year_eq (d m y : Nat) (hd : d < 256) (hm : 1 ≤ m ∧ m ≤ 12)
    (hy : 2000 ≤ y ∧ y ≤ 2100) :
    ntp_get_day_of_year d m y = d + ∑ j in Finset.Ico 1 m, ntp_get_month_days j y := by
  unfold ntp_get_day_of_year
  have h1 : ¬ (m < 1 ∨ m > 12) := by omega
  have h2 : ¬ (y < 2000 ∨ y > 2100) := by omega
  simp only [h1, h2, if_false]
  rw [ntp_get_day_of_year_loop_eq m y m 1 0 (by omega) (by omega) (by omega)]
  have := sum_month_days_le y m
  rw [Nat.mod_eq_of_lt (by omega)]
  omega
/-- Sakamoto's sum of `ntp_get_day_of_week`, with the year already decremented for January
and February. -/
theorem ntp_get_day_of_week_unfold (d m y : Nat) (hy : 1 ≤ y ∧ y < 65536) :
    ntp_get_day_of_week d m y
      = ((if m < 3 then y - 1 else y) + (if m < 3 then y - 1 else y) / 4
          - (if m < 3 then y - 1 else y) / 100 + (if m < 3 then y - 1 else y) / 400
          + Table.getD (m - 1) 0 + d) % 7 := by
  unfold ntp_get_day_of_week
  have h : (y + 65536 - (if m < 3 then 1 else 0)) % 65536 = (if m < 3 then y - 1 else y) := by
    split_ifs <;> omega
  simp only [h]
  omega

theorem ntp_get_day_of_week_lt (d m y : Nat) : ntp_get_day_of_week d m y < 7 := by
  unfold ntp_get_day_of_week
  dsimp only
  omega

/-- Adding `k` days inside a month advances the weekday by `k` modulo 7. -/
theorem ntp_get_day_of_week_add (d k m y : Nat) :
    ntp_get_day_of_week (d + k) m y = (ntp_get_day_of_week d m y + k) % 7 := by
  unfold ntp_get_day_of_week
  dsimp only
  omega

theorem days_from_civil_1969_12_28 : days_from_civil 1969 12 28 = -4 := by decide

/-- The day number of a date with month in 1..12, by the March-based year `Y`. -/
theorem days_from_civil_nat (y m d : Nat) (hm : 1 ≤ m ∧ m ≤ 12) (hy : 1 ≤ y) :
    days_from_civil y m d
      = 365 * (((if m < 3 then y - 1 else y : Nat)) : Int)
        + (((if m < 3 then y - 1 else y : Nat)) : Int) / 4
        - (((if m < 3 then y - 1 else y : Nat)) : Int) / 100
        + (((if m < 3 then y - 1 else y : Nat)) : Int) / 400
        + ((([306, 337, 0, 31, 61, 92, 122, 153, 184, 214, 245, 275] : List Nat).getD (m - 1) 0 : Nat) : Int)
        + d - 719469 := by
  obtain ⟨hm1, hm2⟩ := hm
  obtain ⟨y, rfl⟩ : ∃ k, y = k + 1 := ⟨y - 1, by omega⟩
  unfold days_from_civil
  interval_cases m <;> simp <;> ring

/-- The weekday computed by `ntp_get_day_of_week` is the reference weekday. -/
theorem ntp_get_day_of_week_eq_true_weekday (d m y : Nat) (hy : 1 ≤ y ∧ y < 65536)
    (hm : 1 ≤ m ∧ m ≤ 12) : (ntp_get_day_of_week d m y : Int) = true_weekday d m y := by
  unfold true_weekday
  rw [ntp_get_day_of_week_unfold d m y hy, days_from_civil_nat y m d hm hy.1,
    days_from_civil_1969_12_28]
  obtain ⟨hm1, hm2⟩ := hm
  generalize (if m < 3 then y - 1 else y) = Y
  interval_cases m <;> simp only [Table, List.getD_cons_succ, List.getD_cons_zero] <;> norm_num
    <;> omega
/-- The day number advances by one from each valid date to the next one: inside a month, from
the last day of a month to the first day of the next month, and from 31 December to 1 January
of the next year.  Together with `days_from_civil 1970 1 1 = 0` this characterises the day
number. -/
theorem days_from_civil_next_day (y m d : Nat) (hy : 1 ≤ y) (hm : 1 ≤ m ∧ m ≤ 12)
    (hd : 1 ≤ d ∧ d ≤ ntp_get_month_days m y) :
    (d < ntp_get_month_days m y →
        days_from_civil y m ((d + 1 : Nat) : Int) = days_from_civil y m d + 1)
    ∧ (d = ntp_get_month_days m y → m < 12 →
        days_from_civil y ((m + 1 : Nat) : Int) 1 = days_from_civil y m d + 1)
    ∧ (d = ntp_get_month_days m y → m = 12 →
        days_from_civil ((y + 1 : Nat) : Int) 1 1 = days_from_civil y m d + 1) := by
  obtain ⟨hm1, hm2⟩ := hm
  refine ⟨fun _ => ?_, fun hlast hlt => ?_, fun hlast heq => ?_⟩
  · rw [days_from_civil_nat y m (d + 1) ⟨hm1, hm2⟩ hy, days_from_civil_nat y m d ⟨hm1, hm2⟩ hy]
    push_cast
    ring
  · have h1 := days_from_civil_nat y (m + 1) 1 ⟨by omega, by omega⟩ hy
    have h2 := days_from_civil_nat y m d ⟨hm1, hm2⟩ hy
    simp only [Nat.cast_one] at h1
    rw [h1, h2, hlast]
    unfold ntp_get_month_days
    interval_cases m <;> simp <;> (try split_ifs) <;> omega
  · have h1 := days_from_civil_nat (y + 1) 1 1 ⟨by omega, by omega⟩ (by omega)
    have h2 := days_from_civil_nat y m d ⟨hm1, hm2⟩ hy
    simp only [Nat.cast_one] at h1
    rw [h1, h2, hlast, heq]
    simp [ntp_get_month_days]
    omega

theorem days_from_civil_epoch : days_from_civil 1970 1 1 = 0 := by decide
/-- Closed form of the number of days in the months before month `m` of year `y`. -/
theorem sum_month_days_eq (y m : Nat) (hm : 1 ≤ m ∧ m ≤ 12) :
    ∑ j in Finset.Ico 1 m, ntp_get_month_days j y
      = ([0, 31, 59, 90, 120, 151, 181, 212, 243, 273, 304, 334] : List Nat).getD (m - 1) 0
        + (if 2 < m ∧ ((y % 4 = 0 ∧ y % 100 ≠ 0) ∨ y % 400 = 0) then 1 else 0) := by
  obtain ⟨hm1, hm2⟩ := hm
  interval_cases m <;> simp [Finset.sum_Ico_succ_top, ntp_get_month_days] <;> split_ifs <;> rfl

/-- C3: `ntp_get_month_days` follows the Gregorian table: 31 days for the months 1, 3, 5, 7,
8, 10 and 12, 30 days for the months 4, 6, 9 and 11, and for February 29 days exactly in a
leap year (divisible by 4 and not by 100, or divisible by 400) and 28 days otherwise; in
particular February has 29 days in 2024 and 2000 and 28 days in 2025 and 2100. -/
theorem ntp_get_month_days_gregorian (year : Nat) :
    ntp_get_month_days 1 year = 31 ∧ ntp_get_month_days 3 year = 31
    ∧ ntp_get_month_days 5 year = 31 ∧ ntp_get_month_days 7 year = 31
    ∧ ntp_get_month_days 8 year = 31 ∧ ntp_get_month_days 10 year = 31
    ∧ ntp_get_month_days 12 year = 31
    ∧ ntp_get_month_days 4 year = 30 ∧ ntp_get_month_days 6 year = 30
    ∧ ntp_get_month_days 9 year = 30 ∧ ntp_get_month_days 11 year = 30
    ∧ ntp_get_month_days 2 year
        = (if (year % 4 = 0 ∧ year % 100 ≠ 0) ∨ year % 400 = 0 then 29 else 28)
    ∧ (ntp_get_month_days 2 year = 29 ↔ ((year % 4 = 0 ∧ year % 100 ≠ 0) ∨ year % 400 = 0))
    ∧ ntp_get_month_days 2 2024 = 29 ∧ ntp_get_month_days 2 2025 = 28
    ∧ ntp_get_month_days 2 2000 = 29 ∧ ntp_get_month_days 2 2100 = 28 := by
  refine ⟨by simp [ntp_get_month_days], by simp [ntp_get_month_days],
    by simp [ntp_get_month_days], by simp [ntp_get_month_days], by simp [ntp_get_month_days],
    by simp [ntp_get_month_days], by simp [ntp_get_month_days], by simp [ntp_get_month_days],
    by simp [ntp_get_month_days], by simp [ntp_get_month_days], by simp [ntp_get_month_days],
    by simp [ntp_get_month_days], ?_, by decide, by decide, by decide, by decide⟩
  unfold ntp_get_month_days
  simp only [show ¬ ((2 : Nat) = 1 ∨ (2 : Nat) = 3 ∨ (2 : Nat) = 5 ∨ (2 : Nat) = 7 ∨ (2 : Nat) = 8
    ∨ (2 : Nat) = 10 ∨ (2 : Nat) = 12) by decide,
    show ¬ ((2 : Nat) = 4 ∨ (2 : Nat) = 6 ∨ (2 : Nat) = 9 ∨ (2 : Nat) = 11) by decide, if_false,
    if_true]
  split_ifs with h
  · exact ⟨fun _ => h, fun _ => rfl⟩
  · exact ⟨fun h29 => absurd h29 (by decide), fun h' => absurd h' h⟩

/-- A year outside 2000..2100 is replaced by 2024 in `ntp_get_day_of_year`. -/
theorem ntp_get_day_of_year_clamp (d m y : Nat) (hy : y < 2000 ∨ y > 2100) :
    ntp_get_day_of_year d m y = ntp_get_day_of_year d m 2024 := by
  unfold ntp_get_day_of_year
  simp only [hy, if_true, show ¬ ((2024 : Nat) < 2000 ∨ (2024 : Nat) > 2100) by decide, if_false]

/-- For a valid date of a year in 2000..2100 the day of the year lies in 1..366. -/
theorem ntp_get_day_of_year_range (d m y : Nat) (hm : 1 ≤ m ∧ m ≤ 12)
    (hy : 2000 ≤ y ∧ y ≤ 2100) (hd : 1 ≤ d ∧ d ≤ ntp_get_month_days m y) :
    1 ≤ ntp_get_day_of_year d m y ∧ ntp_get_day_of_year d m y ≤ 366 := by
  have hd31 := ntp_get_month_days_le m y
  rw [ntp_get_day_of_year_eq d m y (by omega) hm hy, sum_month_days_eq y m hm]
  obtain ⟨hm1, hm2⟩ := hm
  obtain ⟨hd1, hd2⟩ := hd
  unfold ntp_get_month_days at hd2
  interval_cases m <;> simp at hd2 ⊢ <;> (try split_ifs at hd2 ⊢) <;> omega

/-- C4: `ntp_get_day_of_year`: for a month in 1..12 and a year in 2000..2100 the result is the
day plus the lengths of the months before it; for a month outside 1..12 the result is 0
whatever the day and the year; for a valid date (of any year) the result lies in 1..366. -/
theorem ntp_get_day_of_year_spec (day month year : Nat) (hday : day < 256) :
    (1 ≤ month ∧ month ≤ 12 → 2000 ≤ year ∧ year ≤ 2100 →
        ntp_get_day_of_year day month year
          = day + ∑ i in Finset.Ico 1 month, ntp_get_month_days i year)
    ∧ (month < 1 ∨ 12 < month → ntp_get_day_of_year day month year = 0)
    ∧ (1 ≤ month ∧ month ≤ 12 → 1 ≤ day ∧ day ≤ ntp_get_month_days month year →
        1 ≤ ntp_get_day_of_year day month year ∧ ntp_get_day_of_year day month year ≤ 366) := by
  refine ⟨fun hm hy => ntp_get_day_of_year_eq day month year hday hm hy, fun hm => ?_,
    fun hm hd => ?_⟩
  · unfold ntp_get_day_of_year
    rw [if_pos (by omega)]
  · by_cases hy : 2000 ≤ year ∧ year ≤ 2100
    · exact ntp_get_day_of_year_range day month year hm hy hd
    · rw [ntp_get_day_of_year_clamp day month year (by omega)]
      exact ntp_get_day_of_year_range day month 2024 hm (by decide)
        ⟨hd.1, le_trans hd.2 (ntp_get_month_days_le_2024 month year)⟩

/-- Witness for C4 on 9 March 2025 (day 68 of the year) and on month 13. -/
theorem ntp_get_day_of_year_spec_witness :
    (9 : Nat) < 256 ∧ ntp_get_day_of_year 9 3 2025 = 9 + ∑ i in Finset.Ico 1 3, ntp_get_month_days i 2025
    ∧ ntp_get_day_of_year 9 3 2025 = 68
    ∧ ntp_get_day_of_year 9 13 2025 = 0
    ∧ (1 ≤ ntp_get_day_of_year 9 3 2025 ∧ ntp_get_day_of_year 9 3 2025 ≤ 366) :=
  ⟨by decide,
   (ntp_get_day_of_year_spec 9 3 2025 (by decide)).1 (by decide) (by decide),
   by decide,
   (ntp_get_day_of_year_spec 9 13 2025 (by decide)).2.1 (by decide),
   (ntp_get_day_of_year_spec 9 3 2025 (by decide)).2.2 (by decide) (by decide)⟩

/-- C2: `ntp_get_day_of_week` is Gregorian-correct: for every valid date with year in
2000..2100 the result is in 0..6 and is the reference weekday (days since the Sunday
1969-12-28, modulo 7); the 17 May 2025 is a Saturday (6). -/
theorem ntp_get_day_of_week_gregorian (day month year : Nat) (hy : 2000 ≤ year ∧ year ≤ 2100)
    (hm : 1 ≤ month ∧ month ≤ 12) (_hd : 1 ≤ day ∧ day ≤ ntp_get_month_days month year) :
    ntp_get_day_of_week day month year ≤ 6
    ∧ (ntp_get_day_of_week day month year : Int) = true_weekday day month year
    ∧ ntp_get_day_of_week 17 5 2025 = 6 := by
  refine ⟨?_, ntp_get_day_of_week_eq_true_weekday day month year ⟨by omega, by omega⟩ hm,
    by decide⟩
  have := ntp_get_day_of_week_lt day month year
  omega

/-- Witness for C2 on 17 May 2025. -/
theorem ntp_get_day_of_week_gregorian_witness :
    (2000 ≤ 2025 ∧ 2025 ≤ 2100) ∧ (1 ≤ 5 ∧ 5 ≤ 12) ∧ (1 ≤ 17 ∧ 17 ≤ ntp_get_month_days 5 2025)
    ∧ ntp_get_day_of_week 17 5 2025 ≤ 6
    ∧ (ntp_get_day_of_week 17 5 2025 : Int) = true_weekday 17 5 2025
    ∧ ntp_get_day_of_week 17 5 2025 = 6 :=
  ⟨by decide, by decide, by decide,
   ntp_get_day_of_week_gregorian 17 5 2025 (by decide) (by decide) (by decide)⟩
/-! ### C library conversions: `civil_from_days` inverts `days_from_civil` -/

/-- Recovery of the year inside a 400-year era from the day inside the era.  The year is
`4 * a + s` (from 1 March), `c` its century, `doy` the day inside the year (from 1 March);
day 365 exists only when the next calendar year is a leap year. -/
theorem era_year_aux (a s c doy E : Int) (ha : 25 * c ≤ a ∧ a ≤ 25 * c + 24)
    (hs : 0 ≤ s ∧ s ≤ 3) (hc : 0 ≤ c ∧ c ≤ 3)
    (hcs : 100 * c ≤ 4 * a + s ∧ 4 * a + s ≤ 100 * c + 99) (hdoy : 0 ≤ doy)
    (hd : doy ≤ 364 ∨ (doy = 365 ∧ s = 3 ∧ (4 * a + s + 1 ≠ 100 * (c + 1) ∨ c = 3)))
    (hE : E = 1461 * a + 365 * s - c + doy) :
    (E - E / 1460 + E / 36524 - E / 146096) / 365 = 4 * a + s := by
  have hp : E / 1460 = a ∨ (E / 1460 = a + 1 ∧ 1 ≤ doy) := by omega
  have hp2 : doy = 365 → E / 1460 = a + 1 := by omega
  have hf : E / 36524 - E / 146096 = c := by
    have h1 : 36524 * c ≤ E := by omega
    have h2 : E < 36524 * (c + 1) ∨ (E = 146096 ∧ c = 3) := by omega
    rcases h2 with h2 | ⟨h2, h3⟩
    · have : E / 146096 = 0 := by omega
      omega
    · subst h2 h3
      norm_num
  have hN : E - E / 1460 + E / 36524 - E / 146096
      = 365 * (4 * a + s) + (a + doy - E / 1460) := by
    omega
  rw [hN]
  omega

/-- Recovery of the year inside the era, for a year `n` in 0..399 counted from 1 March. -/
theorem era_year (n doy E : Int) (hn : 0 ≤ n ∧ n ≤ 399) (hdoy : 0 ≤ doy)
    (hd : doy ≤ 364
      ∨ (doy = 365 ∧ (((n + 1) % 4 = 0 ∧ (n + 1) % 100 ≠ 0) ∨ (n + 1) % 400 = 0)))
    (hE : E = 365 * n + n / 4 - n / 100 + doy) :
    (E - E / 1460 + E / 36524 - E / 146096) / 365 = n ∧ 0 ≤ E ∧ E ≤ 146096 := by
  have h := era_year_aux (n / 4) (n % 4) (n / 100) doy E (by omega) (by omega) (by omega)
    (by omega) hdoy (by omega) (by omega)
  refine ⟨?_, by omega, by omega⟩
  rw [h]
  omega

/-- The date computed by `civil_from_days`, for a day number given by its era `e`, its year
`n` inside the era and its day `doy` inside the year (both counted from 1 March). -/
theorem civil_from_days_eq (days e n doy : Int) (hn : 0 ≤ n ∧ n ≤ 399) (hdoy : 0 ≤ doy)
    (hd : doy ≤ 364
      ∨ (doy = 365 ∧ (((n + 1) % 4 = 0 ∧ (n + 1) % 100 ≠ 0) ∨ (n + 1) % 400 = 0)))
    (hz : days + 719468 = 146097 * e + (365 * n + n / 4 - n / 100 + doy)) :
    civil_from_days days
      = (n + e * 400
            + (if (if (5 * doy + 2) / 153 < 10 then (5 * doy + 2) / 153 + 2
                   else (5 * doy + 2) / 153 - 10) ≤ 1 then 1 else 0),
         (if (5 * doy + 2) / 153 < 10 then (5 * doy + 2) / 153 + 2
          else (5 * doy + 2) / 153 - 10),
         doy - (153 * ((5 * doy + 2) / 153) + 2) / 5 + 1,
         (if doy ≥ 306 then doy - 306
          else doy + 59
            + (if isleap (n + e * 400
                + (if (if (5 * doy + 2) / 153 < 10 then (5 * doy + 2) / 153 + 2
                       else (5 * doy + 2) / 153 - 10) ≤ 1 then 1 else 0)) then 1 else 0))) := by
  obtain ⟨h3, hE0, hE1⟩ := era_year n doy (365 * n + n / 4 - n / 100 + doy) hn hdoy hd rfl
  have h1 : (days + 719468) / 146097 = e := by omega
  have h2 : (days + 719468) % 146097 = 365 * n + n / 4 - n / 100 + doy := by omega
  have h4 : 365 * n + n / 4 - n / 100 + doy - (365 * n + n / 4 - n / 100) = doy := by omega
  unfold civil_from_days
  simp only [h1, h2, h3, h4]
theorem isleap_natCast (y : Nat) :
    isleap (y : Int) = decide ((y % 4 = 0 ∧ y % 100 ≠ 0) ∨ y % 400 = 0) := by
  unfold isleap
  congr 1
  apply propext
  omega

/-- Round trip on dates: `civil_from_days` recovers year, month and day of every valid date
from its day number, and the day of the year counted from 0. -/
theorem civil_from_days_days_from_civil (y m d : Nat) (hy : 1 ≤ y) (hm : 1 ≤ m ∧ m ≤ 12)
    (hd : 1 ≤ d ∧ d ≤ ntp_get_month_days m y) :
    civil_from_days (days_from_civil y m d)
      = ((y : Int), (m : Int) - 1, (d : Int),
          ((∑ j in Finset.Ico 1 m, ntp_get_month_days j y : Nat) : Int) + d - 1) := by
  obtain ⟨hm1, hm2⟩ := hm
  obtain ⟨hd1, hd2⟩ := hd
  rw [sum_month_days_eq y m ⟨hm1, hm2⟩]
  have hdfc := days_from_civil_nat y m d ⟨hm1, hm2⟩ hy
  obtain ⟨Y, hY⟩ : ∃ Y : Nat, Y = (if m < 3 then y - 1 else y) := ⟨_, rfl⟩
  obtain ⟨off, hoff⟩ : ∃ off : Nat,
      off = ([306, 337, 0, 31, 61, 92, 122, 153, 184, 214, 245, 275] : List Nat).getD (m - 1) 0 :=
    ⟨_, rfl⟩
  rw [← hY, ← hoff] at hdfc
  have hn : 0 ≤ (Y : Int) % 400 ∧ (Y : Int) % 400 ≤ 399 := by omega
  have hq4 : (Y : Int) / 4 = 100 * ((Y : Int) / 400) + (Y : Int) % 400 / 4 := by omega
  have hq100 : (Y : Int) / 100 = 4 * ((Y : Int) / 400) + (Y : Int) % 400 / 100 := by omega
  have hz : days_from_civil y m d + 719468
      = 146097 * ((Y : Int) / 400) + (365 * ((Y : Int) % 400) + (Y : Int) % 400 / 4
          - (Y : Int) % 400 / 100 + ((off : Int) + d - 1)) := by
    rw [hdfc]
    omega
  have hvalid : (off : Int) + d - 1 ≤ 364
      ∨ ((off : Int) + d - 1 = 365
          ∧ ((((Y : Int) % 400 + 1) % 4 = 0 ∧ ((Y : Int) % 400 + 1) % 100 ≠ 0)
            ∨ ((Y : Int) % 400 + 1) % 400 = 0)) := by
    unfold ntp_get_month_days at hd2
    interval_cases m <;> simp at hY hoff hd2 <;> (try split_ifs at hd2) <;> omega
  have hd31 : d ≤ 31 := le_trans hd2 (ntp_get_month_days_le m y)
  have hmq : (5 * ((off : Int) + d - 1) + 2) / 153 = (((m + 9) % 12 : Nat) : Int) := by
    unfold ntp_get_month_days at hd2
    interval_cases m <;> simp at hoff hd2 ⊢ <;> omega
  have hday : (off : Int) + d - 1 - (153 * (((m + 9) % 12 : Nat) : Int) + 2) / 5 + 1 = d := by
    interval_cases m <;> simp at hoff ⊢ <;> omega
  have hmon0 : (if (((m + 9) % 12 : Nat) : Int) < 10 then (((m + 9) % 12 : Nat) : Int) + 2
      else (((m + 9) % 12 : Nat) : Int) - 10) = (m : Int) - 1 := by
    interval_cases m <;> simp
  have hyear : (Y : Int) % 400 + (Y : Int) / 400 * 400 + (if (m : Int) - 1 ≤ 1 then 1 else 0)
      = (y : Int) := by
    interval_cases m <;> simp at hY ⊢ <;> omega
  have hyday : (if (off : Int) + d - 1 ≥ 306 then (off : Int) + d - 1 - 306
      else (off : Int) + d - 1 + 59 + (if isleap (y : Int) then 1 else 0))
      = ((([0, 31, 59, 90, 120, 151, 181, 212, 243, 273, 304, 334] : List Nat).getD (m - 1) 0
          + (if 2 < m ∧ ((y % 4 = 0 ∧ y % 100 ≠ 0) ∨ y % 400 = 0) then 1 else 0) : Nat) : Int)
        + d - 1 := by
    rw [isleap_natCast]
    by_cases hl : (y % 4 = 0 ∧ y % 100 ≠ 0) ∨ y % 400 = 0
    · interval_cases m <;> simp [hl] at hoff ⊢ <;> omega
    · interval_cases m <;> simp [hl] at hoff ⊢ <;> omega
  rw [civil_from_days_eq _ ((Y : Int) / 400) ((Y : Int) % 400) ((off : Int) + d - 1) hn
    (by omega) hvalid hz]
  simp only [hmq, hday, hmon0, hyear, hyday]
/-! ### TimeCodec -/

/-- Value of `mktime` on the `tm` built by `ntp_convert_human_to_tm`, for a month in 1..12. -/
theorem mktime_human (t : human_time) (hm : 1 ≤ t.Month ∧ t.Month ≤ 12) :
    mktime (ntp_convert_human_to_tm t)
      = days_from_civil t.Year t.Month t.DayOfMonth * 86400 + t.Hour * 3600 + t.Minute * 60
        + t.Second := by
  unfold mktime ntp_convert_human_to_tm
  have h1 : ((t.Month : Int) - 1) / 12 = 0 := by omega
  have h2 : ((t.Month : Int) - 1) % 12 + 1 = t.Month := by omega
  simp only [h1, h2]
  have h3 : (t.Year : Int) - 1900 + 1900 + 0 = t.Year := by omega
  rw [h3]

/-- The broken-down time of a valid civil time: `localtime` inverts `mktime`. -/
theorem localtime_civil (y m d h mi s : Nat) (hy : 1 ≤ y) (hm : 1 ≤ m ∧ m ≤ 12)
    (hd : 1 ≤ d ∧ d ≤ ntp_get_month_days m y) (hh : h ≤ 23) (hmi : mi ≤ 59) (hs : s ≤ 59) :
    localtime (days_from_civil y m d * 86400 + h * 3600 + mi * 60 + s)
      = { tm_sec := s
          tm_min := mi
          tm_hour := h
          tm_mday := d
          tm_mon := (m : Int) - 1
          tm_year := (y : Int) - 1900
          tm_wday := (days_from_civil y m d + 4) % 7
          tm_yday := ((∑ j in Finset.Ico 1 m, ntp_get_month_days j y : Nat) : Int) + d - 1
          tm_isdst := 0 } := by
  have h1 : (days_from_civil y m d * 86400 + h * 3600 + mi * 60 + s) / 86400
      = days_from_civil y m d := by omega
  have h2 : (days_from_civil y m d * 86400 + h * 3600 + mi * 60 + s) % 86400
      = (h : Int) * 3600 + mi * 60 + s := by omega
  unfold localtime
  simp only [h1, h2, civil_from_days_days_from_civil y m d hy hm hd]
  have h3 : ((h : Int) * 3600 + mi * 60 + s) % 60 = s := by omega
  have h4 : ((h : Int) * 3600 + mi * 60 + s) % 3600 / 60 = mi := by omega
  have h5 : ((h : Int) * 3600 + mi * 60 + s) / 3600 = h := by omega
  rw [h3, h4, h5]

/-- Range of the day number for the years 1970..65535. -/
theorem days_from_civil_range (y m d : Nat) (hy : 1970 ≤ y ∧ y < 65536) (hm : 1 ≤ m ∧ m ≤ 12)
    (hd : 1 ≤ d ∧ d ≤ 255) :
    0 ≤ days_from_civil y m d ∧ days_from_civil y m d < 23300000 := by
  rw [days_from_civil_nat y m d hm (by omega)]
  obtain ⟨hm1, hm2⟩ := hm
  interval_cases m <;> simp <;> omega

/-- C1: round trip civil -> Unix -> civil.  For every civil time with year in 2000..2100,
month in 1..12, day in 1..`ntp_get_month_days`, hour in 0..23, minute and second in 0..59,
`ntp_convert_unix_time` applied to the result of `ntp_convert_human_to_unix` gives a
`HumanTime` with the same hour, minute, second, day of month, month and year (`mktime` and
`localtime` being the UTC proleptic-Gregorian conversions). -/
theorem ntp_convert_roundtrip (t : human_time) (StructNTP : struct_ntp)
    (hy : 2000 ≤ t.Year ∧ t.Year ≤ 2100) (hm : 1 ≤ t.Month ∧ t.Month ≤ 12)
    (hd : 1 ≤ t.DayOfMonth ∧ t.DayOfMonth ≤ ntp_get_month_days t.Month t.Year)
    (hh : t.Hour ≤ 23) (hmi : t.Minute ≤ 59) (hs : t.Second ≤ 59) :
    (ntp_convert_unix_time (wrapI64 (ntp_convert_human_to_unix t)) StructNTP).2.HumanTime.Hour
        = t.Hour
    ∧ (ntp_convert_unix_time (wrapI64 (ntp_convert_human_to_unix t)) StructNTP).2.HumanTime.Minute
        = t.Minute
    ∧ (ntp_convert_unix_time (wrapI64 (ntp_convert_human_to_unix t)) StructNTP).2.HumanTime.Second
        = t.Second
    ∧ (ntp_convert_unix_time (wrapI64 (ntp_convert_human_to_unix t)) StructNTP).2.HumanTime.DayOfMonth
        = t.DayOfMonth
    ∧ (ntp_convert_unix_time (wrapI64 (ntp_convert_human_to_unix t)) StructNTP).2.HumanTime.Month
        = t.Month
    ∧ (ntp_convert_unix_time (wrapI64 (ntp_convert_human_to_unix t)) StructNTP).2.HumanTime.Year
        = t.Year := by
  have hd31 := ntp_get_month_days_le t.Month t.Year
  have hr := days_from_civil_range t.Year t.Month t.DayOfMonth ⟨by omega, by omega⟩ hm
    ⟨hd.1, by omega⟩
  have hmk := mktime_human t hm
  have hu : wrapI64 (ntp_convert_human_to_unix t)
      = days_from_civil t.Year t.Month t.DayOfMonth * 86400 + t.Hour * 3600 + t.Minute * 60
        + t.Second := by
    unfold ntp_convert_human_to_unix ntp_convert_tm_to_unix
    rw [toU64_of_nonneg _ (by omega) (by omega), wrapI64_of_range _ (by omega) (by omega), hmk]
  unfold ntp_convert_unix_time
  simp only [hu, localtime_civil t.Year t.Month t.DayOfMonth t.Hour t.Minute t.Second (by omega)
    hm hd hh hmi hs]
  unfold toU8 toU16
  refine ⟨by omega, by omega, by omega, by omega, by omega, by omega⟩
/-- Witness for C1 on 9 March 2025, 07:30:15. -/
theorem ntp_convert_roundtrip_witness :
    (ntp_convert_unix_time (wrapI64 (ntp_convert_human_to_unix (civil_time 2025 3 9 7 30 15)))
        (example_session 2025 0)).2.HumanTime.Hour = 7
    ∧ (ntp_convert_unix_time (wrapI64 (ntp_convert_human_to_unix (civil_time 2025 3 9 7 30 15)))
        (example_session 2025 0)).2.HumanTime.Minute = 30
    ∧ (ntp_convert_unix_time (wrapI64 (ntp_convert_human_to_unix (civil_time 2025 3 9 7 30 15)))
        (example_session 2025 0)).2.HumanTime.Second = 15
    ∧ (ntp_convert_unix_time (wrapI64 (ntp_convert_human_to_unix (civil_time 2025 3 9 7 30 15)))
        (example_session 2025 0)).2.HumanTime.DayOfMonth = 9
    ∧ (ntp_convert_unix_time (wrapI64 (ntp_convert_human_to_unix (civil_time 2025 3 9 7 30 15)))
        (example_session 2025 0)).2.HumanTime.Month = 3
    ∧ (ntp_convert_unix_time (wrapI64 (ntp_convert_human_to_unix (civil_time 2025 3 9 7 30 15)))
        (example_session 2025 0)).2.HumanTime.Year = 2025 :=
  ntp_convert_roundtrip (civil_time 2025 3 9 7 30 15) (example_session 2025 0)
    (by decide) (by decide) (by decide) (by decide) (by decide) (by decide)

/-! ### DstRuleEngine: the scan -/

/-- A scan that leaves by `break` leaves on the first matching day. -/
theorem dst_scan_some (dow month year : Nat) (High : Int) (hH : High ≤ 127) :
    ∀ (fuel i d : Nat), dst_scan dow month year High fuel i = some d →
      i ≤ d ∧ (d : Int) ≤ High ∧ ntp_get_day_of_week d month year = dow
        ∧ ∀ k : Nat, i ≤ k → k < d → ntp_get_day_of_week k month year ≠ dow := by
  intro fuel
  induction fuel with
  | zero =>
    intro i d h
    simp [dst_scan] at h
  | succ n ih =>
    intro i d h
    unfold dst_scan at h
    by_cases hle : (i : Int) ≤ High
    · rw [if_pos hle] at h
      by_cases hw : ntp_get_day_of_week i month year = dow
      · rw [if_pos hw] at h
        have hd : i = d := by simpa using h
        subst hd
        exact ⟨le_refl _, hle, hw, fun k h1 h2 => absurd h1 (by omega)⟩
      · rw [if_neg hw] at h
        have hi : (i + 1) % 256 = i + 1 := by omega
        rw [hi] at h
        obtain ⟨h1, h2, h3, h4⟩ := ih (i + 1) d h
        refine ⟨by omega, h2, h3, fun k hk1 hk2 => ?_⟩
        by_cases hki : k = i
        · subst hki
          exact hw
        · exact h4 k (by omega) hk2
    · rw [if_neg hle] at h
      simp at h

/-- A scan that runs past `High` has found no matching day. -/
theorem dst_scan_none (dow month year : Nat) (High : Int) (hH : High ≤ 127) :
    ∀ (fuel i : Nat), (High + 1 - (i : Int)).toNat ≤ fuel →
      dst_scan dow month year High fuel i = none →
      ∀ k : Nat, i ≤ k → (k : Int) ≤ High → ntp_get_day_of_week k month year ≠ dow := by
  intro fuel
  induction fuel with
  | zero =>
    intro i hf _ k hk1 hk2
    omega
  | succ n ih =>
    intro i hf h k hk1 hk2
    unfold dst_scan at h
    have hle : (i : Int) ≤ High := by omega
    rw [if_pos hle] at h
    by_cases hw : ntp_get_day_of_week i month year = dow
    · rw [if_pos hw] at h
      simp at h
    · rw [if_neg hw] at h
      have hi : (i + 1) % 256 = i + 1 := by omega
      rw [hi] at h
      by_cases hki : k = i
      · subst hki
        exact hw
      · exact ih (i + 1) (by omega) h k (by omega) hk2

/-- Seven consecutive days of a month contain every weekday. -/
theorem exists_weekday (low dow month year : Nat) (hdow : dow < 7) :
    ∃ k, k < 7 ∧ ntp_get_day_of_week (low + k) month year = dow := by
  have hlt := ntp_get_day_of_week_lt low month year
  refine ⟨(dow + 7 - ntp_get_day_of_week low month year) % 7, by omega, ?_⟩
  rw [ntp_get_day_of_week_add]
  omega

/-- A scan over seven consecutive days `low .. low + 6` finds the first matching day. -/
theorem dst_scan_week (dow month year low : Nat) (hdow : dow < 7) (hlow : low + 6 ≤ 127) :
    ∃ d, dst_scan dow month year ((low + 6 : Nat) : Int) 256 low = some d
      ∧ IsFirstMatch (low : Int) ((low + 6 : Nat) : Int) dow month year d := by
  cases hres : dst_scan dow month year ((low + 6 : Nat) : Int) 256 low with
  | none =>
    obtain ⟨k, hk, hw⟩ := exists_weekday low dow month year hdow
    exact absurd hw (dst_scan_none dow month year ((low + 6 : Nat) : Int) (by omega) 256 low
      (by omega) hres (low + k) (by omega) (by omega))
  | some d =>
    obtain ⟨h1, h2, h3, h4⟩ :=
      dst_scan_some dow month year ((low + 6 : Nat) : Int) (by omega) 256 low d hres
    exact ⟨d, rfl, by omega, h2, h3, fun k hk1 hk2 => h4 k (by omega) hk2⟩
/-! ### DstRuleEngine: the rule table -/

/-- Shape of the rows 1..12 of `DstParameters`: both day ranges are seven consecutive days
inside 1..31, the weekdays are in 0..6, the months in 3..11, the hours at most 24 and the
shift 30 or 60 minutes. -/
theorem DstParameters_shape (c : Nat) (hc : 1 ≤ c ∧ c ≤ 12) :
    (DstParameters c).StartDayOfMonthLow = (((DstParameters c).StartDayOfMonthLow.toNat : Nat) : Int)
    ∧ (DstParameters c).StartDayOfMonthHigh
        = (((DstParameters c).StartDayOfMonthLow.toNat + 6 : Nat) : Int)
    ∧ 1 ≤ (DstParameters c).StartDayOfMonthLow.toNat
    ∧ (DstParameters c).StartDayOfMonthLow.toNat + 6 ≤ 31
    ∧ (DstParameters c).StartDayOfWeek < 7
    ∧ (DstParameters c).EndDayOfMonthLow = (((DstParameters c).EndDayOfMonthLow.toNat : Nat) : Int)
    ∧ (DstParameters c).EndDayOfMonthHigh
        = (((DstParameters c).EndDayOfMonthLow.toNat + 6 : Nat) : Int)
    ∧ 1 ≤ (DstParameters c).EndDayOfMonthLow.toNat
    ∧ (DstParameters c).EndDayOfMonthLow.toNat + 6 ≤ 31
    ∧ (DstParameters c).EndDayOfWeek < 7
    ∧ (3 ≤ (DstParameters c).StartMonth ∧ (DstParameters c).StartMonth ≤ 11)
    ∧ (3 ≤ (DstParameters c).EndMonth ∧ (DstParameters c).EndMonth ≤ 11)
    ∧ (DstParameters c).StartHour ≤ 24 ∧ (DstParameters c).EndHour ≤ 24
    ∧ (30 ≤ (DstParameters c).ShiftMinutes ∧ (DstParameters c).ShiftMinutes ≤ 60) := by
  obtain ⟨h1, h2⟩ := hc
  interval_cases c <;> decide

/-- For the rows 1..12 the start scan finds the first matching day of its range. -/
theorem dst_scan_start_table (c Year : Nat) (hc : 1 ≤ c ∧ c ≤ 12) :
    ∃ d, dst_scan_start (DstParameters c) Year = some d
      ∧ IsFirstMatch (DstParameters c).StartDayOfMonthLow (DstParameters c).StartDayOfMonthHigh
          (DstParameters c).StartDayOfWeek (DstParameters c).StartMonth Year d := by
  obtain ⟨h1, h2, h3, h4, h5, -⟩ := DstParameters_shape c hc
  unfold dst_scan_start
  have hlow : toU8 (DstParameters c).StartDayOfMonthLow
      = (DstParameters c).StartDayOfMonthLow.toNat := by
    unfold toU8
    omega
  rw [hlow, h2]
  obtain ⟨d, hd1, hd2⟩ := dst_scan_week (DstParameters c).StartDayOfWeek
    (DstParameters c).StartMonth Year (DstParameters c).StartDayOfMonthLow.toNat h5 (by omega)
  refine ⟨d, hd1, ?_⟩
  rw [h1]
  simpa using hd2

/-- For the rows 1..12 the end scan finds the first matching day of its range. -/
theorem dst_scan_end_table (c Year : Nat) (hc : 1 ≤ c ∧ c ≤ 12) :
    ∃ d, dst_scan_end (DstParameters c) Year = some d
      ∧ IsFirstMatch (DstParameters c).EndDayOfMonthLow (DstParameters c).EndDayOfMonthHigh
          (DstParameters c).EndDayOfWeek (DstParameters c).EndMonth Year d := by
  obtain ⟨-, -, -, -, -, h1, h2, h3, h4, h5, -⟩ := DstParameters_shape c hc
  unfold dst_scan_end
  have hlow : toU8 (DstParameters c).EndDayOfMonthLow
      = (DstParameters c).EndDayOfMonthLow.toNat := by
    unfold toU8
    omega
  rw [hlow, h2]
  obtain ⟨d, hd1, hd2⟩ := dst_scan_week (DstParameters c).EndDayOfWeek
    (DstParameters c).EndMonth Year (DstParameters c).EndDayOfMonthLow.toNat h5 (by omega)
  refine ⟨d, hd1, ?_⟩
  rw [h1]
  simpa using hd2

/-- On the path where both scans find their day, `ntp_dst_settings` is
`ntp_dst_settings_complete` on the session in which the shift and the two day-of-year values
have been stored. -/
theorem ntp_dst_settings_eq_complete (s : struct_ntp)
    (hc : 1 ≤ s.DSTCountry ∧ s.DSTCountry ≤ 12) (StartDoM EndDoM : Nat)
    (h1 : dst_scan_start (DstParameters s.DSTCountry) s.HumanTime.Year = some StartDoM)
    (h2 : dst_scan_end (DstParameters s.DSTCountry) s.HumanTime.Year = some EndDoM) :
    ntp_dst_settings s
      = ntp_dst_settings_complete (DstParameters s.DSTCountry) StartDoM EndDoM
          { s with
            ShiftMinutes := (DstParameters s.DSTCountry).ShiftMinutes
            DoYStart := ntp_get_day_of_year StartDoM (DstParameters s.DSTCountry).StartMonth
              s.HumanTime.Year
            DoYEnd := ntp_get_day_of_year EndDoM (DstParameters s.DSTCountry).EndMonth
              s.HumanTime.Year } := by
  unfold ntp_dst_settings
  have hc0 : ¬ s.DSTCountry = 0 := by omega
  have hc1 : ¬ s.DSTCountry > MAX_DST_COUNTRIES := by
    unfold MAX_DST_COUNTRIES
    omega
  simp only [hc0, hc1, if_false, h1, h2]

/-- C5: transition-day scan in `ntp_dst_settings`.  For every country code in 1..12 and every
session year, the start day chosen is the smallest day of month in
`StartDayOfMonthLow .. StartDayOfMonthHigh` whose weekday in `StartMonth` is `StartDayOfWeek`,
the end day is the smallest day in `EndDayOfMonthLow .. EndDayOfMonthHigh` whose weekday in
`EndMonth` is `EndDayOfWeek`, and on completion `DoYStart` and `DoYEnd` are
`ntp_get_day_of_year` of those two dates. -/
theorem ntp_dst_settings_scan (s : struct_ntp) (hc : 1 ≤ s.DSTCountry ∧ s.DSTCountry ≤ 12) :
    ∃ StartDoM EndDoM : Nat,
      dst_scan_start (DstParameters s.DSTCountry) s.HumanTime.Year = some StartDoM
      ∧ dst_scan_end (DstParameters s.DSTCountry) s.HumanTime.Year = some EndDoM
      ∧ IsFirstMatch (DstParameters s.DSTCountry).StartDayOfMonthLow
          (DstParameters s.DSTCountry).StartDayOfMonthHigh
          (DstParameters s.DSTCountry).StartDayOfWeek (DstParameters s.DSTCountry).StartMonth
          s.HumanTime.Year StartDoM
      ∧ IsFirstMatch (DstParameters s.DSTCountry).EndDayOfMonthLow
          (DstParameters s.DSTCountry).EndDayOfMonthHigh
          (DstParameters s.DSTCountry).EndDayOfWeek (DstParameters s.DSTCountry).EndMonth
          s.HumanTime.Year EndDoM
      ∧ (ntp_dst_settings s).DoYStart
          = ntp_get_day_of_year StartDoM (DstParameters s.DSTCountry).StartMonth s.HumanTime.Year
      ∧ (ntp_dst_settings s).DoYEnd
          = ntp_get_day_of_year EndDoM (DstParameters s.DSTCountry).EndMonth s.HumanTime.Year := by
  obtain ⟨sd, hs1, hs2⟩ := dst_scan_start_table s.DSTCountry s.HumanTime.Year hc
  obtain ⟨ed, he1, he2⟩ := dst_scan_end_table s.DSTCountry s.HumanTime.Year hc
  refine ⟨sd, ed, hs1, he1, hs2, he2, ?_, ?_⟩
  · rw [ntp_dst_settings_eq_complete s hc sd ed hs1 he1]
    rfl
  · rw [ntp_dst_settings_eq_complete s hc sd ed hs1 he1]
    rfl

/-- Witness for C5 on the example session (North America) in 2025: the start day is 9 March
and the end day 2 November. -/
theorem ntp_dst_settings_scan_witness :
    (1 ≤ (example_session 2025 0).DSTCountry ∧ (example_session 2025 0).DSTCountry ≤ 12)
    ∧ dst_scan_start (DstParameters 10) 2025 = some 9
    ∧ dst_scan_end (DstParameters 10) 2025 = some 2
    ∧ ∃ StartDoM EndDoM : Nat,
      dst_scan_start (DstParameters (example_session 2025 0).DSTCountry)
          (example_session 2025 0).HumanTime.Year = some StartDoM
      ∧ dst_scan_end (DstParameters (example_session 2025 0).DSTCountry)
          (example_session 2025 0).HumanTime.Year = some EndDoM
      ∧ IsFirstMatch (DstParameters (example_session 2025 0).DSTCountry).StartDayOfMonthLow
          (DstParameters (example_session 2025 0).DSTCountry).StartDayOfMonthHigh
          (DstParameters (example_session 2025 0).DSTCountry).StartDayOfWeek
          (DstParameters (example_session 2025 0).DSTCountry).StartMonth
          (example_session 2025 0).HumanTime.Year StartDoM
      ∧ IsFirstMatch (DstParameters (example_session 2025 0).DSTCountry).EndDayOfMonthLow
          (DstParameters (example_session 2025 0).DSTCountry).EndDayOfMonthHigh
          (DstParameters (example_session 2025 0).DSTCountry).EndDayOfWeek
          (DstParameters (example_session 2025 0).DSTCountry).EndMonth
          (example_session 2025 0).HumanTime.Year EndDoM
      ∧ (ntp_dst_settings (example_session 2025 0)).DoYStart
          = ntp_get_day_of_year StartDoM
              (DstParameters (example_session 2025 0).DSTCountry).StartMonth
              (example_session 2025 0).HumanTime.Year
      ∧ (ntp_dst_settings (example_session 2025 0)).DoYEnd
          = ntp_get_day_of_year EndDoM
              (DstParameters (example_session 2025 0).DSTCountry).EndMonth
              (example_session 2025 0).HumanTime.Year :=
  ⟨by decide, by decide, by decide, ntp_dst_settings_scan (example_session 2025 0) (by decide)⟩
/-! ### DstRuleEngine: UTC instants of the transitions -/

theorem toU64_sub_toU64 (a b : Int) : toU64 ((toU64 a : Int) - b) = toU64 (a - b) := by
  unfold toU64
  omega

theorem as_time_t_toU64 (x : Int) (h0 : -9223372036854775808 ≤ x)
    (h1 : x < 9223372036854775808) : as_time_t (toU64 x) = x := by
  unfold as_time_t wrapI64 toU64
  omega

/-- The members of `human_time` that `mktime` does not read do not change the Unix time. -/
theorem ntp_convert_human_to_unix_civil (h : human_time) :
    ntp_convert_human_to_unix h
      = ntp_convert_human_to_unix
          (civil_time h.Year h.Month h.DayOfMonth h.Hour h.Minute h.Second) := rfl

/-- The Unix time of a transition of the rule table: month in 3..11, day in 1..31, hour at
most 24, minute and second 0.  It is positive from 1970 on and negative before. -/
theorem mktime_transition (Y m d hour : Nat) (hm : 3 ≤ m ∧ m ≤ 11) (hd : 1 ≤ d ∧ d ≤ 31)
    (hh : hour ≤ 24) (hY : Y < 65536) :
    mktime (ntp_convert_human_to_tm (civil_time Y m d hour 0 0))
        = days_from_civil Y m d * 86400 + hour * 3600
    ∧ -62200000000 ≤ mktime (ntp_convert_human_to_tm (civil_time Y m d hour 0 0))
    ∧ mktime (ntp_convert_human_to_tm (civil_time Y m d hour 0 0)) ≤ 2020000000000
    ∧ (1970 ≤ Y → 5097600 ≤ mktime (ntp_convert_human_to_tm (civil_time Y m d hour 0 0)))
    ∧ (Y ≤ 1969 → mktime (ntp_convert_human_to_tm (civil_time Y m d hour 0 0)) ≤ -2592000) := by
  have hmk := mktime_human (civil_time Y m d hour 0 0) ⟨by simp [civil_time]; omega,
    by simp [civil_time]; omega⟩
  simp only [civil_time] at hmk ⊢
  rw [hmk]
  have hdfc : days_from_civil Y m d
      = 365 * (Y : Int) + (Y : Int) / 4 - (Y : Int) / 100 + (Y : Int) / 400
        + ((([306, 337, 0, 31, 61, 92, 122, 153, 184, 214, 245, 275] : List Nat).getD (m - 1) 0
            : Nat) : Int) + d - 719469 := by
    obtain ⟨hm1, hm2⟩ := hm
    unfold days_from_civil
    interval_cases m <;> simp <;> ring
  have hoff : (([306, 337, 0, 31, 61, 92, 122, 153, 184, 214, 245, 275] : List Nat).getD (m - 1) 0)
      ≤ 245 := by
    obtain ⟨hm1, hm2⟩ := hm
    interval_cases m <;> decide
  rw [hdfc]
  refine ⟨by push_cast; ring, by push_cast; omega, by push_cast; omega,
    fun h => by push_cast; omega, fun h => by push_cast; omega⟩
theorem toU64_sub_sub_toU64 (a b c : Int) :
    toU64 ((toU64 a : Int) - b - c) = toU64 (a - b - c) := by
  unfold toU64
  omega

/-- The members written by `ntp_dst_settings` on the path where both scans find their day. -/
theorem ntp_dst_settings_fields (s : struct_ntp) (hc : 1 ≤ s.DSTCountry ∧ s.DSTCountry ≤ 12)
    (StartDoM EndDoM : Nat)
    (h1 : dst_scan_start (DstParameters s.DSTCountry) s.HumanTime.Year = some StartDoM)
    (h2 : dst_scan_end (DstParameters s.DSTCountry) s.HumanTime.Year = some EndDoM) :
    (ntp_dst_settings s).DSTStart
        = toU64 (mktime (ntp_convert_human_to_tm (civil_time s.HumanTime.Year
            (DstParameters s.DSTCountry).StartMonth StartDoM
            (DstParameters s.DSTCountry).StartHour 0 0)) - s.DeltaTime * 60)
    ∧ (ntp_dst_settings s).DSTEnd
        = toU64 (mktime (ntp_convert_human_to_tm (civil_time s.HumanTime.Year
            (DstParameters s.DSTCountry).EndMonth EndDoM
            (DstParameters s.DSTCountry).EndHour 0 0)) - s.DeltaTime * 60
            - ((DstParameters s.DSTCountry).ShiftMinutes : Int) * 60)
    ∧ (ntp_dst_settings s).ShiftMinutes = (DstParameters s.DSTCountry).ShiftMinutes
    ∧ (ntp_dst_settings s).UTCTime = s.UTCTime
    ∧ (ntp_dst_settings s).DeltaTime = s.DeltaTime
    ∧ (ntp_dst_settings s).FlagSummerTime
        = (if (DstParameters s.DSTCountry).StartMonth < (DstParameters s.DSTCountry).EndMonth then
            (if toU64 s.UTCTime > (ntp_dst_settings s).DSTStart
                ∧ toU64 s.UTCTime < (ntp_dst_settings s).DSTEnd then FLAG_ON else FLAG_OFF)
          else
            (if toU64 s.UTCTime > (ntp_dst_settings s).DSTEnd
                ∧ toU64 s.UTCTime < (ntp_dst_settings s).DSTStart then FLAG_OFF else FLAG_ON))
    ∧ (ntp_dst_settings s).LocalTime
        = (if (ntp_dst_settings s).FlagSummerTime ≠ 0 then
            wrapI64 (wrapI64 (s.UTCTime + s.DeltaTime * 60)
              + ((DstParameters s.DSTCountry).ShiftMinutes : Int) * 60)
          else wrapI64 (s.UTCTime + s.DeltaTime * 60)) := by
  rw [ntp_dst_settings_eq_complete s hc StartDoM EndDoM h1 h2]
  refine ⟨?_, ?_, rfl, rfl, rfl, ?_, rfl⟩
  · show toU64 (((toU64 _ : Nat) : Int) - _) = _
    rw [toU64_sub_toU64]
    rfl
  · show toU64 (((toU64 (((toU64 _ : Nat) : Int) - _) : Nat) : Int) - _) = _
    rw [toU64_sub_toU64, toU64_sub_sub_toU64]
    rfl
  · by_cases hn : (DstParameters s.DSTCountry).StartMonth < (DstParameters s.DSTCountry).EndMonth
    · simp [ntp_dst_settings_complete, hn, FLAG_ON, FLAG_OFF]
    · simp [ntp_dst_settings_complete, hn, FLAG_ON, FLAG_OFF]
/-- The days found by the scans of the rows 1..12 lie in 1..31. -/
theorem dst_scan_table_range (c Year StartDoM EndDoM : Nat) (hc : 1 ≤ c ∧ c ≤ 12)
    (h1 : dst_scan_start (DstParameters c) Year = some StartDoM)
    (h2 : dst_scan_end (DstParameters c) Year = some EndDoM) :
    (1 ≤ StartDoM ∧ StartDoM ≤ 31) ∧ (1 ≤ EndDoM ∧ EndDoM ≤ 31) := by
  obtain ⟨a1, a2, a3, a4, -, b1, b2, b3, b4, -⟩ := DstParameters_shape c hc
  obtain ⟨d, hd1, hd2, hd3, -⟩ := dst_scan_start_table c Year hc
  obtain ⟨e, he1, he2, he3, -⟩ := dst_scan_end_table c Year hc
  rw [h1] at hd1
  rw [h2] at he1
  have hd : StartDoM = d := by simpa using hd1
  have he : EndDoM = e := by simpa using he1
  subst hd he
  omega

/-- The two transition instants computed by `ntp_dst_settings`: `DSTStart` and `DSTEnd` hold
the integers `S` and `E` reduced modulo `2^64`; both are at least 0 when the session year is
1970 or later and both are negative when it is 1969 or earlier. -/
theorem dst_transition_instants (s : struct_ntp)
    (hc : 1 ≤ s.DSTCountry ∧ s.DSTCountry ≤ 12)
    (hdelta : -32768 ≤ s.DeltaTime ∧ s.DeltaTime ≤ 32767) (hyear : s.HumanTime.Year < 65536)
    (StartDoM EndDoM : Nat)
    (h1 : dst_scan_start (DstParameters s.DSTCountry) s.HumanTime.Year = some StartDoM)
    (h2 : dst_scan_end (DstParameters s.DSTCountry) s.HumanTime.Year = some EndDoM) :
    ∃ S E : Int,
      S = mktime (ntp_convert_human_to_tm (civil_time s.HumanTime.Year
            (DstParameters s.DSTCountry).StartMonth StartDoM
            (DstParameters s.DSTCountry).StartHour 0 0)) - s.DeltaTime * 60
      ∧ E = mktime (ntp_convert_human_to_tm (civil_time s.HumanTime.Year
            (DstParameters s.DSTCountry).EndMonth EndDoM
            (DstParameters s.DSTCountry).EndHour 0 0)) - s.DeltaTime * 60
            - ((DstParameters s.DSTCountry).ShiftMinutes : Int) * 60
      ∧ (ntp_dst_settings s).DSTStart = toU64 S ∧ (ntp_dst_settings s).DSTEnd = toU64 E
      ∧ (-62300000000 ≤ S ∧ S ≤ 2030000000000) ∧ (-62300000000 ≤ E ∧ E ≤ 2030000000000)
      ∧ (1970 ≤ s.HumanTime.Year → 3000000 ≤ S ∧ 3000000 ≤ E)
      ∧ (s.HumanTime.Year ≤ 1969 → S ≤ -600000 ∧ E ≤ -600000) := by
  obtain ⟨f1, f2, -⟩ := ntp_dst_settings_fields s hc StartDoM EndDoM h1 h2
  obtain ⟨-, -, -, -, -, -, -, -, -, -, hsm, hem, hsh, heh, hshift⟩ :=
    DstParameters_shape s.DSTCountry hc
  obtain ⟨hsd, hed⟩ := dst_scan_table_range s.DSTCountry s.HumanTime.Year StartDoM EndDoM hc h1 h2
  obtain ⟨-, s1, s2, s3, s4⟩ := mktime_transition s.HumanTime.Year
    (DstParameters s.DSTCountry).StartMonth StartDoM (DstParameters s.DSTCountry).StartHour
    hsm hsd hsh hyear
  obtain ⟨-, e1, e2, e3, e4⟩ := mktime_transition s.HumanTime.Year
    (DstParameters s.DSTCountry).EndMonth EndDoM (DstParameters s.DSTCountry).EndHour
    hem hed heh hyear
  refine ⟨_, _, rfl, rfl, f1, f2, ⟨by omega, by omega⟩, ⟨by omega, by omega⟩,
    fun h => ⟨by have := s3 h; omega, by have := e3 h; omega⟩,
    fun h => ⟨by have := s4 h; omega, by have := e4 h; omega⟩⟩

/-- Subtraction in `UINT64` is subtraction of the integers when the minuend and the result
have the same sign as instants. -/
theorem toU64_sub_same_sign (M S d : Int) (hS : S = M - d)
    (hM : -9223372036854775808 ≤ M ∧ M < 9223372036854775808)
    (hS' : -9223372036854775808 ≤ S ∧ S < 9223372036854775808)
    (hsign : (0 ≤ M ∧ 0 ≤ S) ∨ (M < 0 ∧ S < 0)) :
    (toU64 S : Int) = (toU64 M : Int) - d := by
  unfold toU64
  omega

/-- C6: UTC instants of the transitions.  When `ntp_dst_settings` completes for a country
code in 1..12, `DSTStart` is the Unix time of (year, `StartMonth`, start day, `StartHour`:00:00)
minus `DeltaTime * 60`, and `DSTEnd` is the Unix time of (year, `EndMonth`, end day,
`EndHour`:00:00) minus `DeltaTime * 60` minus `ShiftMinutes * 60` with the shift of the rule:
only the end instant is moved earlier by the shift.  The equations hold for the numbers
stored in the `UINT64` members, for every `UINT16` session year and `INT16` `DeltaTime`; the
instants the members hold (`as_time_t`) are the `mktime` values minus the same terms. -/
theorem ntp_dst_settings_instants (s : struct_ntp) (hc : 1 ≤ s.DSTCountry ∧ s.DSTCountry ≤ 12)
    (hdelta : -32768 ≤ s.DeltaTime ∧ s.DeltaTime ≤ 32767) (hyear : s.HumanTime.Year < 65536)
    (StartDoM EndDoM : Nat)
    (h1 : dst_scan_start (DstParameters s.DSTCountry) s.HumanTime.Year = some StartDoM)
    (h2 : dst_scan_end (DstParameters s.DSTCountry) s.HumanTime.Year = some EndDoM) :
    (((ntp_dst_settings s).DSTStart : Int)
        = (ntp_convert_human_to_unix (civil_time s.HumanTime.Year
            (DstParameters s.DSTCountry).StartMonth StartDoM
            (DstParameters s.DSTCountry).StartHour 0 0) : Int) - s.DeltaTime * 60
      ∧ ((ntp_dst_settings s).DSTEnd : Int)
        = (ntp_convert_human_to_unix (civil_time s.HumanTime.Year
            (DstParameters s.DSTCountry).EndMonth EndDoM
            (DstParameters s.DSTCountry).EndHour 0 0) : Int) - s.DeltaTime * 60
            - ((DstParameters s.DSTCountry).ShiftMinutes : Int) * 60)
    ∧ (ntp_dst_settings s).ShiftMinutes = (DstParameters s.DSTCountry).ShiftMinutes
    ∧ (as_time_t (ntp_dst_settings s).DSTStart
        = mktime (ntp_convert_human_to_tm (civil_time s.HumanTime.Year
            (DstParameters s.DSTCountry).StartMonth StartDoM
            (DstParameters s.DSTCountry).StartHour 0 0)) - s.DeltaTime * 60
      ∧ as_time_t (ntp_dst_settings s).DSTEnd
        = mktime (ntp_convert_human_to_tm (civil_time s.HumanTime.Year
            (DstParameters s.DSTCountry).EndMonth EndDoM
            (DstParameters s.DSTCountry).EndHour 0 0)) - s.DeltaTime * 60
            - ((DstParameters s.DSTCountry).ShiftMinutes : Int) * 60) := by
  obtain ⟨S, E, hS, hE, f1, f2, bS, bE, hpos, hneg⟩ :=
    dst_transition_instants s hc hdelta hyear StartDoM EndDoM h1 h2
  obtain ⟨-, -, f3, -⟩ := ntp_dst_settings_fields s hc StartDoM EndDoM h1 h2
  obtain ⟨-, -, -, -, -, -, -, -, -, -, hsm, hem, hsh, heh, hshift⟩ :=
    DstParameters_shape s.DSTCountry hc
  obtain ⟨hsd, hed⟩ := dst_scan_table_range s.DSTCountry s.HumanTime.Year StartDoM EndDoM hc h1 h2
  obtain ⟨-, s1, s2, s3, s4⟩ := mktime_transition s.HumanTime.Year
    (DstParameters s.DSTCountry).StartMonth StartDoM (DstParameters s.DSTCountry).StartHour
    hsm hsd hsh hyear
  obtain ⟨-, e1, e2, e3, e4⟩ := mktime_transition s.HumanTime.Year
    (DstParameters s.DSTCountry).EndMonth EndDoM (DstParameters s.DSTCountry).EndHour
    hem hed heh hyear
  have hsignS : (0 ≤ mktime (ntp_convert_human_to_tm (civil_time s.HumanTime.Year
      (DstParameters s.DSTCountry).StartMonth StartDoM
      (DstParameters s.DSTCountry).StartHour 0 0)) ∧ 0 ≤ S)
      ∨ (mktime (ntp_convert_human_to_tm (civil_time s.HumanTime.Year
      (DstParameters s.DSTCountry).StartMonth StartDoM
      (DstParameters s.DSTCountry).StartHour 0 0)) < 0 ∧ S < 0) := by
    by_cases hy : 1970 ≤ s.HumanTime.Year
    · have a := s3 hy
      have b := (hpos hy).1
      exact Or.inl ⟨by omega, by omega⟩
    · have a := s4 (by omega)
      have b := (hneg (by omega)).1
      exact Or.inr ⟨by omega, by omega⟩
  have hsignE : (0 ≤ mktime (ntp_convert_human_to_tm (civil_time s.HumanTime.Year
      (DstParameters s.DSTCountry).EndMonth EndDoM
      (DstParameters s.DSTCountry).EndHour 0 0)) ∧ 0 ≤ E)
      ∨ (mktime (ntp_convert_human_to_tm (civil_time s.HumanTime.Year
      (DstParameters s.DSTCountry).EndMonth EndDoM
      (DstParameters s.DSTCountry).EndHour 0 0)) < 0 ∧ E < 0) := by
    by_cases hy : 1970 ≤ s.HumanTime.Year
    · have a := e3 hy
      have b := (hpos hy).2
      exact Or.inl ⟨by omega, by omega⟩
    · have a := e4 (by omega)
      have b := (hneg (by omega)).2
      exact Or.inr ⟨by omega, by omega⟩
  unfold ntp_convert_human_to_unix ntp_convert_tm_to_unix
  rw [f1, f2]
  refine ⟨⟨?_, ?_⟩, f3, ⟨?_, ?_⟩⟩
  · exact toU64_sub_same_sign _ S _ hS (by omega) (by omega) hsignS
  · rw [sub_sub] at hE ⊢
    exact toU64_sub_same_sign _ E _ hE (by omega) (by omega) hsignE
  · rw [as_time_t_toU64 S (by omega) (by omega), hS]
  · rw [as_time_t_toU64 E (by omega) (by omega), hE]

/-- Witness for C6 on the example session (North America, `DeltaTime = -300`) in 2025: the
start instant is 2025-03-09 07:00:00 UTC and the end instant 2025-11-02 06:00:00 UTC. -/
theorem ntp_dst_settings_instants_witness :
    (dst_scan_start (DstParameters 10) 2025 = some 9 ∧ dst_scan_end (DstParameters 10) 2025 = some 2)
    ∧ ((ntp_dst_settings (example_session 2025 0)).DSTStart : Int)
        = (ntp_convert_human_to_unix (civil_time 2025 3 9 2 0 0) : Int) - (-300) * 60
    ∧ ((ntp_dst_settings (example_session 2025 0)).DSTEnd : Int)
        = (ntp_convert_human_to_unix (civil_time 2025 11 2 2 0 0) : Int) - (-300) * 60 - 60 * 60
    ∧ (ntp_dst_settings (example_session 2025 0)).DSTStart = 1741503600
    ∧ (ntp_dst_settings (example_session 2025 0)).DSTEnd = 1762063200 :=
  ⟨⟨by decide, by decide⟩,
   (ntp_dst_settings_instants (example_session 2025 0) (by decide) (by decide) (by decide) 9 2
      (by decide) (by decide)).1.1,
   (ntp_dst_settings_instants (example_session 2025 0) (by decide) (by decide) (by decide) 9 2
      (by decide) (by decide)).1.2,
   by decide, by decide⟩

/-- The status test of `ntp_dst_settings`, on the integers `S`, `E` of which `DSTStart` and
`DSTEnd` hold the reduction modulo `2^64`, when `S` and `E` have the same sign. -/
theorem status_compare (S E now : Int) (hS : -4611686018427387904 ≤ S ∧ S ≤ 4611686018427387904)
    (hE : -4611686018427387904 ≤ E ∧ E ≤ 4611686018427387904)
    (hnow : -9223372036854775808 ≤ now ∧ now < 9223372036854775808)
    (hsign : (0 ≤ S ∧ 0 ≤ E) ∨ (S < 0 ∧ E < 0)) :
    ((toU64 now > toU64 S ∧ toU64 now < toU64 E) ↔ (S < now ∧ now < E))
    ∧ ((toU64 now > toU64 E ∧ toU64 now < toU64 S) ↔ (E < now ∧ now < S)) := by
  unfold toU64
  constructor <;> constructor <;> intro h <;> omega

/-- C7: DST status test.  When `ntp_dst_settings` completes for a country code in 1..12 with
now = `UTCTime`: for a rule with `StartMonth < EndMonth` (north style) `FlagSummerTime` is ON
iff `DSTStart < now < DSTEnd`, otherwise (south style) it is ON iff not
`DSTEnd < now < DSTStart`; the comparisons are strict, so at now = `DSTStart` or
now = `DSTEnd` a north rule is inactive and a south rule is active.  For a session year of
1970 or later this is stated on the numbers stored in `DSTStart` and `DSTEnd`; for every
session year it holds for the instants the two members hold (`as_time_t`), which are the
stored numbers from 1970 on. -/
theorem ntp_dst_settings_status (s : struct_ntp) (hc : 1 ≤ s.DSTCountry ∧ s.DSTCountry ≤ 12)
    (hdelta : -32768 ≤ s.DeltaTime ∧ s.DeltaTime ≤ 32767) (hyear : s.HumanTime.Year < 65536)
    (hnow : -9223372036854775808 ≤ s.UTCTime ∧ s.UTCTime < 9223372036854775808) :
    (1970 ≤ s.HumanTime.Year →
      ((DstParameters s.DSTCountry).StartMonth < (DstParameters s.DSTCountry).EndMonth →
        ((ntp_dst_settings s).FlagSummerTime = FLAG_ON
          ↔ ((ntp_dst_settings s).DSTStart : Int) < s.UTCTime
            ∧ s.UTCTime < ((ntp_dst_settings s).DSTEnd : Int)))
      ∧ (¬ (DstParameters s.DSTCountry).StartMonth < (DstParameters s.DSTCountry).EndMonth →
        ((ntp_dst_settings s).FlagSummerTime = FLAG_ON
          ↔ ¬ (((ntp_dst_settings s).DSTEnd : Int) < s.UTCTime
            ∧ s.UTCTime < ((ntp_dst_settings s).DSTStart : Int)))))
    ∧ ((DstParameters s.DSTCountry).StartMonth < (DstParameters s.DSTCountry).EndMonth →
        ((ntp_dst_settings s).FlagSummerTime = FLAG_ON
          ↔ as_time_t (ntp_dst_settings s).DSTStart < s.UTCTime
            ∧ s.UTCTime < as_time_t (ntp_dst_settings s).DSTEnd))
    ∧ (¬ (DstParameters s.DSTCountry).StartMonth < (DstParameters s.DSTCountry).EndMonth →
        ((ntp_dst_settings s).FlagSummerTime = FLAG_ON
          ↔ ¬ (as_time_t (ntp_dst_settings s).DSTEnd < s.UTCTime
            ∧ s.UTCTime < as_time_t (ntp_dst_settings s).DSTStart)))
    ∧ ((ntp_dst_settings s).FlagSummerTime = FLAG_ON
        ∨ (ntp_dst_settings s).FlagSummerTime = FLAG_OFF)
    ∧ (s.UTCTime = as_time_t (ntp_dst_settings s).DSTStart
          ∨ s.UTCTime = as_time_t (ntp_dst_settings s).DSTEnd →
        ((DstParameters s.DSTCountry).StartMonth < (DstParameters s.DSTCountry).EndMonth →
          (ntp_dst_settings s).FlagSummerTime = FLAG_OFF)
        ∧ (¬ (DstParameters s.DSTCountry).StartMonth < (DstParameters s.DSTCountry).EndMonth →
          (ntp_dst_settings s).FlagSummerTime = FLAG_ON))
    ∧ (1970 ≤ s.HumanTime.Year →
        as_time_t (ntp_dst_settings s).DSTStart = (ntp_dst_settings s).DSTStart
        ∧ as_time_t (ntp_dst_settings s).DSTEnd = (ntp_dst_settings s).DSTEnd) := by
  obtain ⟨sd, h1, -⟩ := dst_scan_start_table s.DSTCountry s.HumanTime.Year hc
  obtain ⟨ed, h2, -⟩ := dst_scan_end_table s.DSTCountry s.HumanTime.Year hc
  obtain ⟨S, E, -, -, f1, f2, bS, bE, hpos, hneg⟩ :=
    dst_transition_instants s hc hdelta hyear sd ed h1 h2
  obtain ⟨-, -, -, -, -, f6, -⟩ := ntp_dst_settings_fields s hc sd ed h1 h2
  have hsign : (0 ≤ S ∧ 0 ≤ E) ∨ (S < 0 ∧ E < 0) := by
    by_cases hy : 1970 ≤ s.HumanTime.Year
    · have := hpos hy
      omega
    · have := hneg (by omega)
      omega
  obtain ⟨c1, c2⟩ := status_compare S E s.UTCTime (by omega) (by omega) hnow hsign
  rw [f1, f2] at f6
  rw [f6, f1, f2, as_time_t_toU64 S (by omega) (by omega),
    as_time_t_toU64 E (by omega) (by omega)]
  have hflag : FLAG_ON ≠ FLAG_OFF := by decide
  have hnorth : (DstParameters s.DSTCountry).StartMonth < (DstParameters s.DSTCountry).EndMonth →
      ((if toU64 s.UTCTime > toU64 S ∧ toU64 s.UTCTime < toU64 E then FLAG_ON else FLAG_OFF)
          = FLAG_ON ↔ S < s.UTCTime ∧ s.UTCTime < E) := by
    intro _
    rw [← c1]
    split_ifs with h
    · exact ⟨fun _ => h, fun _ => rfl⟩
    · exact ⟨fun h' => absurd h'.symm hflag, fun h' => absurd h' h⟩
  have hsouth : ((if toU64 s.UTCTime > toU64 E ∧ toU64 s.UTCTime < toU64 S then FLAG_OFF
        else FLAG_ON) = FLAG_ON ↔ ¬ (E < s.UTCTime ∧ s.UTCTime < S)) := by
    rw [← c2]
    split_ifs with h
    · exact ⟨fun h' => absurd h'.symm hflag, fun h' => absurd h h'⟩
    · exact ⟨fun _ => h, fun _ => rfl⟩
  refine ⟨fun hy => ?_, fun hn => ?_, fun hn => ?_, ?_, fun hb => ⟨fun hn => ?_, fun hn => ?_⟩,
    fun hy => ?_⟩
  · have hp := hpos hy
    rw [toU64_of_nonneg S (by omega) (by omega), toU64_of_nonneg E (by omega) (by omega)]
    refine ⟨fun hn => ?_, fun hn => ?_⟩
    · rw [if_pos hn]
      exact hnorth hn
    · rw [if_neg hn]
      exact hsouth
  · rw [if_pos hn]
    exact hnorth hn
  · rw [if_neg hn]
    exact hsouth
  · split_ifs <;> simp
  · rw [if_pos hn, if_neg]
    rw [c1]
    omega
  · rw [if_neg hn, if_neg]
    rw [c2]
    omega
  · have := hpos hy
    rw [toU64_of_nonneg S (by omega) (by omega), toU64_of_nonneg E (by omega) (by omega)]
    exact ⟨rfl, rfl⟩

/-- Witness for C7 on the example session (North America, a north-style rule) on
2025-07-01 00:00:00 UTC. -/
theorem ntp_dst_settings_status_witness :
    ((DstParameters (example_session 2025 1751328000).DSTCountry).StartMonth
        < (DstParameters (example_session 2025 1751328000).DSTCountry).EndMonth)
    ∧ ((ntp_dst_settings (example_session 2025 1751328000)).FlagSummerTime = FLAG_ON
        ↔ ((ntp_dst_settings (example_session 2025 1751328000)).DSTStart : Int)
            < (example_session 2025 1751328000).UTCTime
          ∧ (example_session 2025 1751328000).UTCTime
            < ((ntp_dst_settings (example_session 2025 1751328000)).DSTEnd : Int)) :=
  ⟨by decide,
   ((ntp_dst_settings_status (example_session 2025 1751328000) (by decide) (by decide)
      (by decide) (by decide)).1 (by decide)).1 (by decide)⟩

/-- C8: North-America rule (country code 10) in 2025 with `DeltaTime = -300`.  The start day
is 9 March, the second Sunday of March, at 02:00 local standard time: `DoYStart = 68` and
`DSTStart = 1741503600` (2025-03-09 07:00:00 UTC).  The end day is 2 November, the first
Sunday of November, at 02:00 local summer time: `DSTEnd = 1762063200` (2025-11-02 06:00:00
UTC).  `FlagSummerTime` is ON for every UTC instant of 2025-07-01 and OFF for every UTC
instant of 2025-01-01. -/
theorem north_america_2025 (s : struct_ntp) (hc : s.DSTCountry = 10)
    (hdelta : s.DeltaTime = -300) (hyear : s.HumanTime.Year = 2025) :
    (dst_scan_start (DstParameters 10) 2025 = some 9
      ∧ (DstParameters 10).StartMonth = 3 ∧ (DstParameters 10).StartHour = 2
      ∧ ntp_get_day_of_week 2 3 2025 = 0 ∧ ntp_get_day_of_week 9 3 2025 = 0)
    ∧ (ntp_dst_settings s).DoYStart = 68
    ∧ (ntp_dst_settings s).DSTStart = 1741503600
    ∧ mktime (ntp_convert_human_to_tm (civil_time 2025 3 9 7 0 0)) = 1741503600
    ∧ (dst_scan_end (DstParameters 10) 2025 = some 2
      ∧ (DstParameters 10).EndMonth = 11 ∧ (DstParameters 10).EndHour = 2
      ∧ ntp_get_day_of_week 2 11 2025 = 0)
    ∧ (ntp_dst_settings s).DSTEnd = 1762063200
    ∧ mktime (ntp_convert_human_to_tm (civil_time 2025 11 2 6 0 0)) = 1762063200
    ∧ (mktime (ntp_convert_human_to_tm (civil_time 2025 7 1 0 0 0)) ≤ s.UTCTime
        ∧ s.UTCTime < mktime (ntp_convert_human_to_tm (civil_time 2025 7 2 0 0 0)) →
        (ntp_dst_settings s).FlagSummerTime = FLAG_ON)
    ∧ (mktime (ntp_convert_human_to_tm (civil_time 2025 1 1 0 0 0)) ≤ s.UTCTime
        ∧ s.UTCTime < mktime (ntp_convert_human_to_tm (civil_time 2025 1 2 0 0 0)) →
        (ntp_dst_settings s).FlagSummerTime = FLAG_OFF) := by
  have h1 : dst_scan_start (DstParameters s.DSTCountry) s.HumanTime.Year = some 9 := by
    rw [hc, hyear]
    decide
  have h2 : dst_scan_end (DstParameters s.DSTCountry) s.HumanTime.Year = some 2 := by
    rw [hc, hyear]
    decide
  obtain ⟨f1, f2, -, -, -, f6, -⟩ := ntp_dst_settings_fields s (by omega) 9 2 h1 h2
  have g1 : (ntp_dst_settings s).DoYStart = 68 := by
    rw [ntp_dst_settings_eq_complete s (by omega) 9 2 h1 h2]
    show ntp_get_day_of_year 9 (DstParameters s.DSTCountry).StartMonth s.HumanTime.Year = 68
    rw [hc, hyear]
    decide
  rw [hc, hyear, hdelta] at f1 f2
  have e1 : toU64 (mktime (ntp_convert_human_to_tm (civil_time 2025 (DstParameters 10).StartMonth 9
      (DstParameters 10).StartHour 0 0)) - -300 * 60) = 1741503600 := by decide
  have e2 : toU64 (mktime (ntp_convert_human_to_tm (civil_time 2025 (DstParameters 10).EndMonth 2
      (DstParameters 10).EndHour 0 0)) - -300 * 60 - ((DstParameters 10).ShiftMinutes : Int) * 60)
      = 1762063200 := by decide
  rw [e1] at f1
  rw [e2] at f2
  have m1 : mktime (ntp_convert_human_to_tm (civil_time 2025 7 1 0 0 0)) = 1751328000 := by decide
  have m2 : mktime (ntp_convert_human_to_tm (civil_time 2025 7 2 0 0 0)) = 1751414400 := by decide
  have m3 : mktime (ntp_convert_human_to_tm (civil_time 2025 1 1 0 0 0)) = 1735689600 := by decide
  have m4 : mktime (ntp_convert_human_to_tm (civil_time 2025 1 2 0 0 0)) = 1735776000 := by decide
  have hn : (DstParameters s.DSTCountry).StartMonth < (DstParameters s.DSTCountry).EndMonth := by
    rw [hc]
    decide
  rw [if_pos hn, f1, f2] at f6
  refine ⟨by decide, g1, f1, by decide, by decide, f2, by decide, fun h => ?_, fun h => ?_⟩
  · rw [m1, m2] at h
    rw [f6, if_pos]
    unfold toU64
    omega
  · rw [m3, m4] at h
    rw [f6, if_neg]
    unfold toU64
    omega

/-- Witness for C8 on the example session at 2025-07-01 00:00:00 UTC. -/
theorem north_america_2025_witness :
    (ntp_dst_settings (example_session 2025 1751328000)).DoYStart = 68
    ∧ (ntp_dst_settings (example_session 2025 1751328000)).DSTStart = 1741503600
    ∧ (ntp_dst_settings (example_session 2025 1751328000)).DSTEnd = 1762063200
    ∧ (ntp_dst_settings (example_session 2025 1751328000)).FlagSummerTime = FLAG_ON
    ∧ (ntp_dst_settings (example_session 2025 1735689600)).FlagSummerTime = FLAG_OFF :=
  ⟨(north_america_2025 (example_session 2025 1751328000) rfl rfl rfl).2.1,
   (north_america_2025 (example_session 2025 1751328000) rfl rfl rfl).2.2.1,
   (north_america_2025 (example_session 2025 1751328000) rfl rfl rfl).2.2.2.2.2.1,
   (north_america_2025 (example_session 2025 1751328000) rfl rfl rfl).2.2.2.2.2.2.2.1
     (by decide),
   (north_america_2025 (example_session 2025 1735689600) rfl rfl rfl).2.2.2.2.2.2.2.2
     (by decide)⟩
/-- Day number of a date with month in 3..12: the year is not shifted. -/
theorem days_from_civil_from_march (Y m d : Nat) (hm : 3 ≤ m ∧ m ≤ 12) :
    days_from_civil Y m d
      = 365 * (Y : Int) + (Y : Int) / 4 - (Y : Int) / 100 + (Y : Int) / 400
        + ((([306, 337, 0, 31, 61, 92, 122, 153, 184, 214, 245, 275] : List Nat).getD (m - 1) 0
            : Nat) : Int) + d - 719469 := by
  obtain ⟨hm1, hm2⟩ := hm
  unfold days_from_civil
  interval_cases m <;> simp <;> ring

/-- The southern-hemisphere rows of the table (start month after end month) are the codes
1, 2, 3, 9 and 12; they start in September or October and end in March or April. -/
theorem DstParameters_south (c : Nat) (hc : 1 ≤ c ∧ c ≤ 12) :
    ((DstParameters c).StartMonth > (DstParameters c).EndMonth
      ↔ c = 1 ∨ c = 2 ∨ c = 3 ∨ c = 9 ∨ c = 12)
    ∧ ((DstParameters c).StartMonth > (DstParameters c).EndMonth →
        (9 ≤ (DstParameters c).StartMonth ∧ (DstParameters c).StartMonth ≤ 10)
        ∧ (3 ≤ (DstParameters c).EndMonth ∧ (DstParameters c).EndMonth ≤ 4)) := by
  obtain ⟨h1, h2⟩ := hc
  interval_cases c <;> decide

/-- The arithmetic of the status test for a southern rule: start in September or October, end
in March or April, `DeltaTime` in -720..840.  `K` is the day number of the last day of
February of the session year. -/
theorem south_status_arith (K : Int) (sd ed sh eh shift offS offE : Nat) (delta now S E : Int)
    (hdelta : -720 ≤ delta ∧ delta ≤ 840)
    (hsd : 1 ≤ sd ∧ sd ≤ 31) (hed : 1 ≤ ed ∧ ed ≤ 31) (hsh : sh ≤ 24) (heh : eh ≤ 24)
    (hshift : shift ≤ 60) (hoffS : offS = 184 ∨ offS = 214) (hoffE : offE = 0 ∨ offE = 31)
    (hS : S = (K + (offS : Int) + sd) * 86400 + (sh : Int) * 3600 - delta * 60)
    (hE : E = (K + (offE : Int) + ed) * 86400 + (eh : Int) * 3600 - delta * 60
            - (shift : Int) * 60) :
    ((K + 275 + 1) * 86400 ≤ now → S ≤ now)
    ∧ ((K + 92 + 1) * 86400 ≤ now ∧ now < (K + 122 + 1) * 86400 → E < now ∧ now < S) := by
  constructor
  · intro h
    rcases hoffS with ho | ho <;> subst ho <;> omega
  · intro h
    rcases hoffS with ho | ho <;> rcases hoffE with ho' | ho' <;> subst ho <;> subst ho' <;> omega

/-- Day numbers of the first days of June, July and December of year `Y` and of January of
year `Y + 1`, relative to `K`, the day number of the last day of February of `Y`. -/
theorem days_from_civil_month_starts (Y : Nat) :
    days_from_civil Y 6 1
        = 365 * (Y : Int) + (Y : Int) / 4 - (Y : Int) / 100 + (Y : Int) / 400 - 719469 + 92 + 1
    ∧ days_from_civil Y 7 1
        = 365 * (Y : Int) + (Y : Int) / 4 - (Y : Int) / 100 + (Y : Int) / 400 - 719469 + 122 + 1
    ∧ days_from_civil Y 12 1
        = 365 * (Y : Int) + (Y : Int) / 4 - (Y : Int) / 100 + (Y : Int) / 400 - 719469 + 275 + 1
    ∧ days_from_civil (Y + 1 : Nat) 1 1
        = 365 * (Y : Int) + (Y : Int) / 4 - (Y : Int) / 100 + (Y : Int) / 400 - 719469 + 306 + 1 := by
  unfold days_from_civil
  refine ⟨?_, ?_, ?_, ?_⟩ <;> simp <;> ring

/-- C9: southern-hemisphere rules.  For every table rule with `StartMonth > EndMonth` (codes
1, 2, 3, 9, 12), every session year `Y` in 2000..2100 and every `DeltaTime` in -720..840
minutes, `ntp_dst_settings` sets `FlagSummerTime` ON when `UTCTime` is an instant of December
of `Y` and OFF when `UTCTime` is an instant of June of `Y`. -/
theorem southern_rules_status (s : struct_ntp)
    (hc : s.DSTCountry = 1 ∨ s.DSTCountry = 2 ∨ s.DSTCountry = 3 ∨ s.DSTCountry = 9
      ∨ s.DSTCountry = 12)
    (hyear : 2000 ≤ s.HumanTime.Year ∧ s.HumanTime.Year ≤ 2100)
    (hdelta : -720 ≤ s.DeltaTime ∧ s.DeltaTime ≤ 840) :
    (DstParameters s.DSTCountry).StartMonth > (DstParameters s.DSTCountry).EndMonth
    ∧ (days_from_civil s.HumanTime.Year 12 1 * 86400 ≤ s.UTCTime
        ∧ s.UTCTime < days_from_civil (s.HumanTime.Year + 1 : Nat) 1 1 * 86400 →
        (ntp_dst_settings s).FlagSummerTime = FLAG_ON)
    ∧ (days_from_civil s.HumanTime.Year 6 1 * 86400 ≤ s.UTCTime
        ∧ s.UTCTime < days_from_civil s.HumanTime.Year 7 1 * 86400 →
        (ntp_dst_settings s).FlagSummerTime = FLAG_OFF) := by
  have hc12 : 1 ≤ s.DSTCountry ∧ s.DSTCountry ≤ 12 := by omega
  obtain ⟨hs1, hs2⟩ := DstParameters_south s.DSTCountry hc12
  have hsouth := hs1.mpr hc
  obtain ⟨⟨hsm1, hsm2⟩, ⟨hem1, hem2⟩⟩ := hs2 hsouth
  obtain ⟨-, -, -, -, -, -, -, -, -, -, -, -, hsh, heh, -, hshift⟩ :=
    DstParameters_shape s.DSTCountry hc12
  obtain ⟨sd, h1, -⟩ := dst_scan_start_table s.DSTCountry s.HumanTime.Year hc12
  obtain ⟨ed, h2, -⟩ := dst_scan_end_table s.DSTCountry s.HumanTime.Year hc12
  obtain ⟨hsd, hed⟩ := dst_scan_table_range s.DSTCountry s.HumanTime.Year sd ed hc12 h1 h2
  have hdelta16 : -32768 ≤ s.DeltaTime ∧ s.DeltaTime ≤ 32767 := ⟨by omega, by omega⟩
  have hyear16 : s.HumanTime.Year < 65536 := by omega
  have hyear70 : 1970 ≤ s.HumanTime.Year := by omega
  obtain ⟨S, E, hS, hE, f1, f2, bS, bE, hpos, -⟩ :=
    dst_transition_instants s hc12 hdelta16 hyear16 sd ed h1 h2
  obtain ⟨hpS, hpE⟩ := hpos hyear70
  obtain ⟨-, -, -, -, -, f6, -⟩ := ntp_dst_settings_fields s hc12 sd ed h1 h2
  have hsm : 3 ≤ (DstParameters s.DSTCountry).StartMonth
      ∧ (DstParameters s.DSTCountry).StartMonth ≤ 11 := ⟨by omega, by omega⟩
  have hem : 3 ≤ (DstParameters s.DSTCountry).EndMonth
      ∧ (DstParameters s.DSTCountry).EndMonth ≤ 11 := ⟨by omega, by omega⟩
  obtain ⟨ms, -⟩ := mktime_transition s.HumanTime.Year (DstParameters s.DSTCountry).StartMonth sd
    (DstParameters s.DSTCountry).StartHour hsm hsd hsh hyear16
  obtain ⟨me, -⟩ := mktime_transition s.HumanTime.Year (DstParameters s.DSTCountry).EndMonth ed
    (DstParameters s.DSTCountry).EndHour hem hed heh hyear16
  rw [ms, days_from_civil_from_march _ _ _ ⟨hsm.1, by omega⟩] at hS
  rw [me, days_from_civil_from_march _ _ _ ⟨hem.1, by omega⟩] at hE
  have hoffs : (([306, 337, 0, 31, 61, 92, 122, 153, 184, 214, 245, 275] : List Nat).getD
      ((DstParameters s.DSTCountry).StartMonth - 1) 0 = 184
      ∨ ([306, 337, 0, 31, 61, 92, 122, 153, 184, 214, 245, 275] : List Nat).getD
      ((DstParameters s.DSTCountry).StartMonth - 1) 0 = 214) := by
    generalize (DstParameters s.DSTCountry).StartMonth = m at hsm1 hsm2
    interval_cases m <;> decide
  have hoffe : (([306, 337, 0, 31, 61, 92, 122, 153, 184, 214, 245, 275] : List Nat).getD
      ((DstParameters s.DSTCountry).EndMonth - 1) 0 = 0
      ∨ ([306, 337, 0, 31, 61, 92, 122, 153, 184, 214, 245, 275] : List Nat).getD
      ((DstParameters s.DSTCountry).EndMonth - 1) 0 = 31) := by
    generalize (DstParameters s.DSTCountry).EndMonth = m at hem1 hem2
    interval_cases m <;> decide
  obtain ⟨e6, e7, e12, e1⟩ := days_from_civil_month_starts s.HumanTime.Year
  rw [if_neg (Nat.lt_asymm hsouth), f1, f2] at f6
  rw [e6, e7, e12, e1, f6]
  obtain ⟨a1, a2⟩ := south_status_arith
    (365 * (s.HumanTime.Year : Int) + (s.HumanTime.Year : Int) / 4
      - (s.HumanTime.Year : Int) / 100 + (s.HumanTime.Year : Int) / 400 - 719469) sd ed
    (DstParameters s.DSTCountry).StartHour (DstParameters s.DSTCountry).EndHour
    (DstParameters s.DSTCountry).ShiftMinutes _ _ s.DeltaTime s.UTCTime S E hdelta hsd hed
    hsh heh hshift hoffs hoffe (by rw [hS]; ring) (by rw [hE]; ring)
  have hKr : 10000 ≤ 365 * (s.HumanTime.Year : Int) + (s.HumanTime.Year : Int) / 4
      - (s.HumanTime.Year : Int) / 100 + (s.HumanTime.Year : Int) / 400 - 719469
      ∧ 365 * (s.HumanTime.Year : Int) + (s.HumanTime.Year : Int) / 4
      - (s.HumanTime.Year : Int) / 100 + (s.HumanTime.Year : Int) / 400 - 719469 ≤ 50000 := by
    clear hS hE f6 a1 a2 e6 e7 e12 e1 ms me
    omega
  generalize 365 * (s.HumanTime.Year : Int) + (s.HumanTime.Year : Int) / 4
      - (s.HumanTime.Year : Int) / 100 + (s.HumanTime.Year : Int) / 400 - 719469 = K at *
  generalize s.UTCTime = now at *
  clear hS hE f6 ms me f1 f2 hoffs hoffe e6 e7 e12 e1 hsm hem hsh heh hshift hs1 hs2
    hsm1 hsm2 hem1 hem2 h1 h2 hpos
  refine ⟨hsouth, fun h => ?_, fun h => ?_⟩
  · have hb := a1 h.1
    obtain ⟨-, c2⟩ := status_compare S E now (by omega) (by omega) (by omega) (Or.inl (by omega))
    rw [if_neg]
    rw [c2]
    omega
  · have hb := a2 h
    obtain ⟨-, c2⟩ := status_compare S E now (by omega) (by omega) (by omega) (Or.inl (by omega))
    rw [if_pos]
    rw [c2]
    exact hb
/-- Witness for C9 on Australia with `DeltaTime = 600` in 2025: ON on 2025-12-17 and OFF on
2025-06-15 (UTC). -/
theorem southern_rules_status_witness :
    (ntp_dst_settings (example_session_south 2025 1766000000)).FlagSummerTime = FLAG_ON
    ∧ (ntp_dst_settings (example_session_south 2025 1750000000)).FlagSummerTime = FLAG_OFF :=
  ⟨(southern_rules_status (example_session_south 2025 1766000000) (by decide) (by decide)
      (by decide)).2.1 (by decide),
   (southern_rules_status (example_session_south 2025 1750000000) (by decide) (by decide)
      (by decide)).2.2 (by decide)⟩

/-! ### Local time -/

/-- For a country code 0 or above `MAX_DST_COUNTRIES`, `ntp_dst_settings` only switches
`FlagSummerTime` off. -/
theorem ntp_dst_settings_disabled (s : struct_ntp)
    (hc : s.DSTCountry = 0 ∨ s.DSTCountry > MAX_DST_COUNTRIES) :
    ntp_dst_settings s = { s with FlagSummerTime := FLAG_OFF } := by
  unfold ntp_dst_settings
  rcases hc with h | h
  · rw [if_pos h]
  · have h0 : ¬ s.DSTCountry = 0 := by
      unfold MAX_DST_COUNTRIES at h
      omega
    rw [if_neg h0, if_pos h]

/-- Members left by `ntp_dst_settings` for every session: `DeltaTime` is unchanged,
`FlagSummerTime` is `FLAG_ON` or `FLAG_OFF`, and when it is `FLAG_ON` the country code is in
1..12 and `ShiftMinutes` is the shift of its rule. -/
theorem ntp_dst_settings_generic (s : struct_ntp) :
    (ntp_dst_settings s).DeltaTime = s.DeltaTime
    ∧ ((ntp_dst_settings s).FlagSummerTime = FLAG_ON
        ∨ (ntp_dst_settings s).FlagSummerTime = FLAG_OFF)
    ∧ ((ntp_dst_settings s).FlagSummerTime = FLAG_ON →
        (1 ≤ s.DSTCountry ∧ s.DSTCountry ≤ 12)
        ∧ (ntp_dst_settings s).ShiftMinutes = (DstParameters s.DSTCountry).ShiftMinutes) := by
  by_cases hc : s.DSTCountry = 0 ∨ s.DSTCountry > MAX_DST_COUNTRIES
  · rw [ntp_dst_settings_disabled s hc]
    exact ⟨rfl, Or.inr rfl, fun h => absurd h (by decide : ¬ FLAG_OFF = FLAG_ON)⟩
  · have hc12 : 1 ≤ s.DSTCountry ∧ s.DSTCountry ≤ 12 := by
      unfold MAX_DST_COUNTRIES at hc
      omega
    obtain ⟨sd, h1, -⟩ := dst_scan_start_table s.DSTCountry s.HumanTime.Year hc12
    obtain ⟨ed, h2, -⟩ := dst_scan_end_table s.DSTCountry s.HumanTime.Year hc12
    obtain ⟨-, -, f3, -, f5, f6, -⟩ := ntp_dst_settings_fields s hc12 sd ed h1 h2
    refine ⟨f5, ?_, fun _ => ⟨hc12, f3⟩⟩
    rw [f6]
    split_ifs <;> simp

/-- C10: local time derivation.  For every country code (0, 1..12 or unsupported) and every
timestamp `ts`, after a successful `ntp_result(0, ts)` the session has
`LocalTime = ts + DeltaTime * 60 + (ShiftMinutes * 60 if FlagSummerTime is ON, else 0)`, where
`FlagSummerTime` is the status computed by `ntp_dst_settings` in that same call; and the
`LocalTime` written by `ntp_dst_settings` itself on its complete path obeys the same formula
with `ts = UTCTime`.  `DeltaTime` is an `INT16`; the timestamp is any `time_t` at least 2000000 seconds away
from the two ends of the 64-bit range, so that the `time_t` additions do not overflow. -/
theorem local_time_derivation (s : struct_ntp) (now : Nat) (ts : Int)
    (hdelta : -32768 ≤ s.DeltaTime ∧ s.DeltaTime ≤ 32767)
    (hts : -9223372036852000000 ≤ ts ∧ ts ≤ 9223372036852000000) :
    (ntp_result now 0 (some ts) s).1.LocalTime
        = ts + s.DeltaTime * 60
          + (if (ntp_result now 0 (some ts) s).1.FlagSummerTime = FLAG_ON
             then (ntp_result now 0 (some ts) s).1.ShiftMinutes * 60 else 0)
    ∧ (ntp_result now 0 (some ts) s).1.FlagSummerTime
        = (ntp_dst_settings
            (ntp_convert_unix_time ts { s with UTCTime := ts, FlagSuccess := FLAG_ON }).2).FlagSummerTime
    ∧ ((ntp_result now 0 (some ts) s).1.FlagSummerTime = FLAG_ON
        ∨ (ntp_result now 0 (some ts) s).1.FlagSummerTime = FLAG_OFF)
    ∧ (1 ≤ s.DSTCountry ∧ s.DSTCountry ≤ 12 →
        (ntp_result now 0 (some ts) s).1.ShiftMinutes = (DstParameters s.DSTCountry).ShiftMinutes)
    ∧ (1 ≤ s.DSTCountry ∧ s.DSTCountry ≤ 12 →
        -9223372036852000000 ≤ s.UTCTime ∧ s.UTCTime ≤ 9223372036852000000 →
        (ntp_dst_settings s).LocalTime
          = s.UTCTime + s.DeltaTime * 60
            + (if (ntp_dst_settings s).FlagSummerTime = FLAG_ON
               then (ntp_dst_settings s).ShiftMinutes * 60 else 0)) := by
  obtain ⟨D, hD⟩ : ∃ D, D = ntp_dst_settings
      (ntp_convert_unix_time ts { s with UTCTime := ts, FlagSuccess := FLAG_ON }).2 := ⟨_, rfl⟩
  have r1 : (ntp_result now 0 (some ts) s).1.LocalTime
      = wrapI64 (wrapI64 (ts + D.DeltaTime * 60)
          + (D.FlagSummerTime : Int) * (D.ShiftMinutes * 60)) := by
    rw [hD]
    unfold ntp_result
    simp only [if_true]
    split_ifs <;> rfl
  have r2 : (ntp_result now 0 (some ts) s).1.FlagSummerTime = D.FlagSummerTime := by
    rw [hD]
    unfold ntp_result
    simp only [if_true]
    split_ifs <;> rfl
  have r3 : (ntp_result now 0 (some ts) s).1.ShiftMinutes = D.ShiftMinutes := by
    rw [hD]
    unfold ntp_result
    simp only [if_true]
    split_ifs <;> rfl
  obtain ⟨g1, g2, g3⟩ := ntp_dst_settings_generic
    (ntp_convert_unix_time ts { s with UTCTime := ts, FlagSuccess := FLAG_ON }).2
  rw [← hD] at g1 g2 g3
  have g1' : D.DeltaTime = s.DeltaTime := g1
  have hcountry : (ntp_convert_unix_time ts
      { s with UTCTime := ts, FlagSuccess := FLAG_ON }).2.DSTCountry = s.DSTCountry := rfl
  rw [hcountry] at g3
  refine ⟨?_, by rw [r2, hD], ?_, fun hc => ?_, fun hc hnow => ?_⟩
  · rw [r1, r2, r3, g1']
    rcases g2 with h | h
    · obtain ⟨hc, hsh⟩ := g3 h
      obtain ⟨-, -, -, -, -, -, -, -, -, -, -, -, -, -, hshift⟩ :=
        DstParameters_shape s.DSTCountry hc
      rw [if_pos h, h, hsh]
      unfold FLAG_ON
      rw [wrapI64_of_range (ts + s.DeltaTime * 60) (by omega) (by omega),
        wrapI64_of_range _ (by push_cast; omega) (by push_cast; omega)]
      push_cast
      ring
    · have hne : ¬ D.FlagSummerTime = FLAG_ON := by
        rw [h]
        decide
      rw [if_neg hne, h]
      unfold FLAG_OFF
      rw [wrapI64_of_range (ts + s.DeltaTime * 60) (by omega) (by omega),
        wrapI64_of_range _ (by push_cast; omega) (by push_cast; omega)]
      push_cast
      ring
  · rw [r2]
    exact g2
  · rw [r3]
    obtain ⟨sd, h1, -⟩ := dst_scan_start_table s.DSTCountry
      (ntp_convert_unix_time ts { s with UTCTime := ts, FlagSuccess := FLAG_ON }).2.HumanTime.Year hc
    obtain ⟨ed, h2, -⟩ := dst_scan_end_table s.DSTCountry
      (ntp_convert_unix_time ts { s with UTCTime := ts, FlagSuccess := FLAG_ON }).2.HumanTime.Year hc
    obtain ⟨-, -, f3, -⟩ := ntp_dst_settings_fields
      (ntp_convert_unix_time ts { s with UTCTime := ts, FlagSuccess := FLAG_ON }).2 hc sd ed h1 h2
    rw [hD]
    exact f3
  · obtain ⟨sd, h1, -⟩ := dst_scan_start_table s.DSTCountry s.HumanTime.Year hc
    obtain ⟨ed, h2, -⟩ := dst_scan_end_table s.DSTCountry s.HumanTime.Year hc
    obtain ⟨-, -, f3, -, -, -, f7⟩ := ntp_dst_settings_fields s hc sd ed h1 h2
    obtain ⟨-, k2, -⟩ := ntp_dst_settings_generic s
    obtain ⟨-, -, -, -, -, -, -, -, -, -, -, -, -, -, hshift⟩ := DstParameters_shape s.DSTCountry hc
    rw [f7, f3]
    rcases k2 with h | h
    · rw [if_pos h, if_pos (by rw [h]; decide),
        wrapI64_of_range (s.UTCTime + s.DeltaTime * 60) (by omega) (by omega),
        wrapI64_of_range _ (by omega) (by omega)]
    · rw [if_neg (by rw [h]; decide), if_neg (by rw [h]; decide),
        wrapI64_of_range (s.UTCTime + s.DeltaTime * 60) (by omega) (by omega)]
      ring
/-- Witness for C10 on the example session (North America, `DeltaTime = -300`) with the
timestamp 2025-07-01 00:00:00 UTC: daylight saving time is active and the local time is
`1751328000 - 18000 + 3600`. -/
theorem local_time_derivation_witness :
    (ntp_result 0 0 (some 1751328000) (example_session 2025 0)).1.LocalTime
        = 1751328000 + (example_session 2025 0).DeltaTime * 60
          + (if (ntp_result 0 0 (some 1751328000) (example_session 2025 0)).1.FlagSummerTime
                = FLAG_ON
             then (ntp_result 0 0 (some 1751328000) (example_session 2025 0)).1.ShiftMinutes * 60
             else 0)
    ∧ (ntp_result 0 0 (some 1751328000) (example_session 2025 0)).1.FlagSummerTime = FLAG_ON
    ∧ (ntp_result 0 0 (some 1751328000) (example_session 2025 0)).1.LocalTime = 1751313600 :=
  ⟨(local_time_derivation (example_session 2025 0) 0 1751328000 (by decide) (by decide)).1,
   by decide, by decide⟩

/-- Members that `ntp_dst_settings` leaves as they are on every path. -/
theorem ntp_dst_settings_frame (s : struct_ntp) :
    (ntp_dst_settings s).FlagSuccess = s.FlagSuccess
    ∧ (ntp_dst_settings s).FlagHealth = s.FlagHealth
    ∧ (ntp_dst_settings s).FlagInit = s.FlagInit
    ∧ (ntp_dst_settings s).FlagHistory = s.FlagHistory
    ∧ (ntp_dst_settings s).ScanCount = s.ScanCount
    ∧ (ntp_dst_settings s).DSTCountry = s.DSTCountry
    ∧ (ntp_dst_settings s).DeltaTime = s.DeltaTime
    ∧ (ntp_dst_settings s).TotalErrors = s.TotalErrors
    ∧ (ntp_dst_settings s).ReadCycles = s.ReadCycles
    ∧ (ntp_dst_settings s).PollCycles = s.PollCycles
    ∧ (ntp_dst_settings s).Latency = s.Latency
    ∧ (ntp_dst_settings s).DNSRequestSent = s.DNSRequestSent
    ∧ (ntp_dst_settings s).ResendAlarm = s.ResendAlarm
    ∧ (ntp_dst_settings s).UpdateTime = s.UpdateTime
    ∧ (ntp_dst_settings s).Send = s.Send
    ∧ (ntp_dst_settings s).Receive = s.Receive
    ∧ (ntp_dst_settings s).ServerAddress = s.ServerAddress
    ∧ (ntp_dst_settings s).UTCTime = s.UTCTime
    ∧ (ntp_dst_settings s).Pcb = s.Pcb
    ∧ (ntp_dst_settings s).HumanTime = s.HumanTime := by
  unfold ntp_dst_settings
  split_ifs
  · exact ⟨rfl, rfl, rfl, rfl, rfl, rfl, rfl, rfl, rfl, rfl, rfl, rfl, rfl, rfl, rfl, rfl, rfl,
      rfl, rfl, rfl⟩
  · exact ⟨rfl, rfl, rfl, rfl, rfl, rfl, rfl, rfl, rfl, rfl, rfl, rfl, rfl, rfl, rfl, rfl, rfl,
      rfl, rfl, rfl⟩
  · dsimp only
    cases dst_scan_start (DstParameters s.DSTCountry) s.HumanTime.Year with
    | none =>
      exact ⟨rfl, rfl, rfl, rfl, rfl, rfl, rfl, rfl, rfl, rfl, rfl, rfl, rfl, rfl, rfl, rfl, rfl,
        rfl, rfl, rfl⟩
    | some StartDoM =>
      cases dst_scan_end (DstParameters s.DSTCountry) s.HumanTime.Year with
      | none =>
        exact ⟨rfl, rfl, rfl, rfl, rfl, rfl, rfl, rfl, rfl, rfl, rfl, rfl, rfl, rfl, rfl, rfl,
          rfl, rfl, rfl, rfl⟩
      | some EndDoM =>
        exact ⟨rfl, rfl, rfl, rfl, rfl, rfl, rfl, rfl, rfl, rfl, rfl, rfl, rfl, rfl, rfl, rfl,
          rfl, rfl, rfl, rfl⟩

/-- The success branch of `ntp_result` member by member: the timestamp and the success flag are
stored, the daylight-saving members are those that `ntp_dst_settings` computes on the session
as it is after the first conversion of the timestamp, and the members of the client state
are left as they are. -/
theorem ntp_result_success_fields (ts : Int) (s : struct_ntp) :
    (ntp_result_success ts s).UTCTime = ts
    ∧ (ntp_result_success ts s).FlagSuccess = FLAG_ON
    ∧ (ntp_result_success ts s).DSTStart
        = (ntp_dst_settings
            (ntp_convert_unix_time ts { s with UTCTime := ts, FlagSuccess := FLAG_ON }).2).DSTStart
    ∧ (ntp_result_success ts s).DSTEnd
        = (ntp_dst_settings
            (ntp_convert_unix_time ts { s with UTCTime := ts, FlagSuccess := FLAG_ON }).2).DSTEnd
    ∧ (ntp_result_success ts s).DoYStart
        = (ntp_dst_settings
            (ntp_convert_unix_time ts { s with UTCTime := ts, FlagSuccess := FLAG_ON }).2).DoYStart
    ∧ (ntp_result_success ts s).DoYEnd
        = (ntp_dst_settings
            (ntp_convert_unix_time ts { s with UTCTime := ts, FlagSuccess := FLAG_ON }).2).DoYEnd
    ∧ (ntp_result_success ts s).FlagSummerTime
        = (ntp_dst_settings
            (ntp_convert_unix_time ts
              { s with UTCTime := ts, FlagSuccess := FLAG_ON }).2).FlagSummerTime
    ∧ (ntp_result_success ts s).FlagHealth = s.FlagHealth
    ∧ (ntp_result_success ts s).FlagHistory = s.FlagHistory
    ∧ (ntp_result_success ts s).ResendAlarm = s.ResendAlarm
    ∧ (ntp_result_success ts s).UpdateTime = s.UpdateTime
    ∧ (ntp_result_success ts s).ScanCount = s.ScanCount
    ∧ (ntp_result_success ts s).ReadCycles = s.ReadCycles
    ∧ (ntp_result_success ts s).PollCycles = s.PollCycles
    ∧ (ntp_result_success ts s).TotalErrors = s.TotalErrors := by
  obtain ⟨f1, f2, -, f4, f5, -, -, f8, f9, f10, -, -, f13, f14, -, -, -, f18, -, -⟩ :=
    ntp_dst_settings_frame
      (ntp_convert_unix_time ts { s with UTCTime := ts, FlagSuccess := FLAG_ON }).2
  exact ⟨f18, f1, rfl, rfl, rfl, rfl, rfl, f2, f4, f13, f14, f5, f9, f10, f8⟩

/-- What `ntp_result` does with the resend alarm, whatever it was called with: the host call
made and the members `ResendAlarm` and `DNSRequestSent` on return, from the session `r` left
by the success or failure branch. -/
theorem ntp_result_alarm (now : Nat) (ResultStatus : Int) (UnixTime : Option Int)
    (s : struct_ntp) :
    ∃ r : struct_ntp, r.ResendAlarm = s.ResendAlarm
      ∧ (r = ntp_result_failure now s ∨ ∃ ts, UnixTime = some ts ∧ ResultStatus = 0
          ∧ r = ntp_result_success ts s)
      ∧ ntp_result now ResultStatus UnixTime s
          = (if r.ResendAlarm > 0 then
              ({ r with ResendAlarm := 0, DNSRequestSent := false },
               [HostCall.cancel_alarm r.ResendAlarm])
             else ({ r with DNSRequestSent := false }, [])) := by
  cases UnixTime with
  | none => exact ⟨ntp_result_failure now s, rfl, Or.inl rfl, rfl⟩
  | some ts =>
    by_cases h : ResultStatus = 0
    · refine ⟨ntp_result_success ts s, (ntp_result_success_fields ts s).2.2.2.2.2.2.2.2.2.1,
        Or.inr ⟨ts, rfl, h, rfl⟩, ?_⟩
      unfold ntp_result
      simp only [if_pos h]
    · refine ⟨ntp_result_failure now s, rfl, Or.inl rfl, ?_⟩
      unfold ntp_result
      simp only [if_neg h]

/-- C11: daylight saving time disabled or unsupported.  For every session whose `DSTCountry` is
0 or greater than `MAX_DST_COUNTRIES` (12), `ntp_dst_settings` returns the session with
`FlagSummerTime` set to `FLAG_OFF` and nothing else changed: `ShiftMinutes`, `DoYStart`,
`DoYEnd`, `DSTStart`, `DSTEnd`, `UTCTime`, `LocalTime`, `HumanTime` and the counters keep their
values.  The result is the early return of the function, taken before the rule table is read
and before any scan. -/
theorem ntp_dst_settings_off_frame (s : struct_ntp)
    (hc : s.DSTCountry = 0 ∨ s.DSTCountry > MAX_DST_COUNTRIES) :
    ntp_dst_settings s = { s with FlagSummerTime := FLAG_OFF }
    ∧ (ntp_dst_settings s).FlagSummerTime = FLAG_OFF
    ∧ (ntp_dst_settings s).ShiftMinutes = s.ShiftMinutes
    ∧ (ntp_dst_settings s).DoYStart = s.DoYStart
    ∧ (ntp_dst_settings s).DoYEnd = s.DoYEnd
    ∧ (ntp_dst_settings s).DSTStart = s.DSTStart
    ∧ (ntp_dst_settings s).DSTEnd = s.DSTEnd
    ∧ (ntp_dst_settings s).UTCTime = s.UTCTime
    ∧ (ntp_dst_settings s).LocalTime = s.LocalTime
    ∧ (ntp_dst_settings s).HumanTime = s.HumanTime
    ∧ (ntp_dst_settings s).TotalErrors = s.TotalErrors
    ∧ (ntp_dst_settings s).ReadCycles = s.ReadCycles
    ∧ (ntp_dst_settings s).PollCycles = s.PollCycles
    ∧ (ntp_dst_settings s).ScanCount = s.ScanCount := by
  rw [ntp_dst_settings_disabled s hc]
  exact ⟨rfl, rfl, rfl, rfl, rfl, rfl, rfl, rfl, rfl, rfl, rfl, rfl, rfl, rfl⟩

/-- Witness for C11: the example session with the unsupported country code 13 and with
`FlagSummerTime` on; the flag is switched off and the session is otherwise the same. -/
theorem ntp_dst_settings_off_frame_witness :
    ({ example_session 2025 1751328000 with DSTCountry := 13, FlagSummerTime := 1 }
        : struct_ntp).DSTCountry > MAX_DST_COUNTRIES
    ∧ ntp_dst_settings
        { example_session 2025 1751328000 with DSTCountry := 13, FlagSummerTime := 1 }
      = { example_session 2025 1751328000 with DSTCountry := 13, FlagSummerTime := FLAG_OFF } :=
  ⟨by decide,
   (ntp_dst_settings_off_frame
      { example_session 2025 1751328000 with DSTCountry := 13, FlagSummerTime := 1 }
      (Or.inr (by decide))).1⟩

/-- For a country code in 1..12 the daylight-saving members written by `ntp_dst_settings` are
a function of the country code, the session year, `DeltaTime` and `UTCTime` alone. -/
theorem ntp_dst_settings_inputs (a b : struct_ntp) (hc : 1 ≤ a.DSTCountry ∧ a.DSTCountry ≤ 12)
    (h1 : b.DSTCountry = a.DSTCountry) (h2 : b.HumanTime.Year = a.HumanTime.Year)
    (h3 : b.DeltaTime = a.DeltaTime) (h4 : b.UTCTime = a.UTCTime) :
    (ntp_dst_settings a).DSTStart = (ntp_dst_settings b).DSTStart
    ∧ (ntp_dst_settings a).DSTEnd = (ntp_dst_settings b).DSTEnd
    ∧ (ntp_dst_settings a).DoYStart = (ntp_dst_settings b).DoYStart
    ∧ (ntp_dst_settings a).DoYEnd = (ntp_dst_settings b).DoYEnd
    ∧ (ntp_dst_settings a).FlagSummerTime = (ntp_dst_settings b).FlagSummerTime := by
  obtain ⟨sd, s1, -⟩ := dst_scan_start_table a.DSTCountry a.HumanTime.Year hc
  obtain ⟨ed, s2, -⟩ := dst_scan_end_table a.DSTCountry a.HumanTime.Year hc
  have hcb : 1 ≤ b.DSTCountry ∧ b.DSTCountry ≤ 12 := by rw [h1]; exact hc
  rw [ntp_dst_settings_eq_complete a hc sd ed s1 s2,
    ntp_dst_settings_eq_complete b hcb sd ed (by rw [h1, h2]; exact s1)
      (by rw [h1, h2]; exact s2)]
  unfold ntp_dst_settings_complete
  simp only [h1, h2, h3, h4]
  exact ⟨trivial, trivial, trivial, trivial, trivial⟩

/-- C17: successful finalize stores the result.  For every session and timestamp `ts`,
`ntp_result(0, ts)` leaves `UTCTime = ts` and `FlagSuccess = FLAG_ON`.  The daylight-saving
engine is run on the session as it is after the first conversion of `ts`: that session has
the country code and `DeltaTime` of the call, `UTCTime = ts`, and as session year the civil
year of `ts` in UTC (as a `UINT16`); on return `DSTStart`, `DSTEnd`, `DoYStart`, `DoYEnd` and
`FlagSummerTime` are those computed by `ntp_dst_settings` on it.  For a country code in 1..12
they are therefore what `ntp_dst_settings` produces on any session with that country code,
that year, that `DeltaTime` and `UTCTime = ts`. -/
theorem ntp_result_success_stores (s : struct_ntp) (now : Nat) (ts : Int) :
    (ntp_result now 0 (some ts) s).1.UTCTime = ts
    ∧ (ntp_result now 0 (some ts) s).1.FlagSuccess = FLAG_ON
    ∧ (ntp_convert_unix_time ts { s with UTCTime := ts, FlagSuccess := FLAG_ON }).2.HumanTime.Year
        = toU16 (civil_from_days (ts / 86400)).1
    ∧ (ntp_convert_unix_time ts { s with UTCTime := ts, FlagSuccess := FLAG_ON }).2.DSTCountry
        = s.DSTCountry
    ∧ (ntp_convert_unix_time ts { s with UTCTime := ts, FlagSuccess := FLAG_ON }).2.DeltaTime
        = s.DeltaTime
    ∧ (ntp_convert_unix_time ts { s with UTCTime := ts, FlagSuccess := FLAG_ON }).2.UTCTime = ts
    ∧ (ntp_result now 0 (some ts) s).1.DSTStart
        = (ntp_dst_settings
            (ntp_convert_unix_time ts { s with UTCTime := ts, FlagSuccess := FLAG_ON }).2).DSTStart
    ∧ (ntp_result now 0 (some ts) s).1.DSTEnd
        = (ntp_dst_settings
            (ntp_convert_unix_time ts { s with UTCTime := ts, FlagSuccess := FLAG_ON }).2).DSTEnd
    ∧ (ntp_result now 0 (some ts) s).1.DoYStart
        = (ntp_dst_settings
            (ntp_convert_unix_time ts { s with UTCTime := ts, FlagSuccess := FLAG_ON }).2).DoYStart
    ∧ (ntp_result now 0 (some ts) s).1.DoYEnd
        = (ntp_dst_settings
            (ntp_convert_unix_time ts { s with UTCTime := ts, FlagSuccess := FLAG_ON }).2).DoYEnd
    ∧ (ntp_result now 0 (some ts) s).1.FlagSummerTime
        = (ntp_dst_settings
            (ntp_convert_unix_time ts
              { s with UTCTime := ts, FlagSuccess := FLAG_ON }).2).FlagSummerTime
    ∧ (∀ e : struct_ntp, 1 ≤ s.DSTCountry ∧ s.DSTCountry ≤ 12 →
        e.DSTCountry = s.DSTCountry → e.HumanTime.Year = toU16 (civil_from_days (ts / 86400)).1 →
        e.DeltaTime = s.DeltaTime → e.UTCTime = ts →
        (ntp_result now 0 (some ts) s).1.DSTStart = (ntp_dst_settings e).DSTStart
        ∧ (ntp_result now 0 (some ts) s).1.DSTEnd = (ntp_dst_settings e).DSTEnd
        ∧ (ntp_result now 0 (some ts) s).1.DoYStart = (ntp_dst_settings e).DoYStart
        ∧ (ntp_result now 0 (some ts) s).1.DoYEnd = (ntp_dst_settings e).DoYEnd
        ∧ (ntp_result now 0 (some ts) s).1.FlagSummerTime
            = (ntp_dst_settings e).FlagSummerTime) := by
  obtain ⟨f1, f2, f3, f4, f5, f6, f7, -⟩ := ntp_result_success_fields ts s
  have hr : ∀ (F : struct_ntp → Nat), (∀ (r : struct_ntp) (A : Int) (B : Bool),
        F { r with ResendAlarm := A, DNSRequestSent := B } = F r) →
        (∀ (r : struct_ntp) (B : Bool), F { r with DNSRequestSent := B } = F r) →
      F (ntp_result now 0 (some ts) s).1 = F (ntp_result_success ts s) := by
    intro F hF1 hF2
    unfold ntp_result
    simp only [if_true]
    split_ifs
    · exact hF1 _ _ _
    · exact hF2 _ _
  have hu : (ntp_result now 0 (some ts) s).1.UTCTime = (ntp_result_success ts s).UTCTime := by
    unfold ntp_result
    simp only [if_true]
    split_ifs <;> rfl
  have e2 := hr (fun r => r.FlagSuccess) (fun _ _ _ => rfl) (fun _ _ => rfl)
  have e3 := hr (fun r => r.DSTStart) (fun _ _ _ => rfl) (fun _ _ => rfl)
  have e4 := hr (fun r => r.DSTEnd) (fun _ _ _ => rfl) (fun _ _ => rfl)
  have e5 := hr (fun r => r.DoYStart) (fun _ _ _ => rfl) (fun _ _ => rfl)
  have e6 := hr (fun r => r.DoYEnd) (fun _ _ _ => rfl) (fun _ _ => rfl)
  have e7 := hr (fun r => r.FlagSummerTime) (fun _ _ _ => rfl) (fun _ _ => rfl)
  simp only at e2 e3 e4 e5 e6 e7
  have hy : (ntp_convert_unix_time ts
      { s with UTCTime := ts, FlagSuccess := FLAG_ON }).2.HumanTime.Year
        = toU16 (civil_from_days (ts / 86400)).1 := by
    show toU16 ((civil_from_days (ts / 86400)).1 - 1900 + 1900) = _
    congr 1
    omega
  refine ⟨hu.trans f1, e2.trans f2, hy, rfl, rfl, rfl, e3.trans f3, e4.trans f4, e5.trans f5,
    e6.trans f6, e7.trans f7, ?_⟩
  intro e hc h1 h2 h3 h4
  obtain ⟨g1, g2, g3, g4, g5⟩ := ntp_dst_settings_inputs
    (ntp_convert_unix_time ts { s with UTCTime := ts, FlagSuccess := FLAG_ON }).2 e hc h1
    (h2.trans hy.symm) h3 h4
  exact ⟨(e3.trans f3).trans g1, (e4.trans f4).trans g2, (e5.trans f5).trans g3,
    (e6.trans f6).trans g4, (e7.trans f7).trans g5⟩

/-- Witness for C17: the example session (North America, `DeltaTime = -300`), still holding the
year 1970, finalized with the timestamp 2025-07-01 00:00:00 UTC.  The daylight-saving members
on return are those of `ntp_dst_settings` for the year 2025: start on day 68, end on
day 306, summer time on. -/
theorem ntp_result_success_stores_witness :
    (ntp_result 0 0 (some 1751328000) (example_session 1970 0)).1.UTCTime = 1751328000
    ∧ (ntp_result 0 0 (some 1751328000) (example_session 1970 0)).1.FlagSuccess = FLAG_ON
    ∧ (ntp_result 0 0 (some 1751328000) (example_session 1970 0)).1.DSTStart
        = (ntp_dst_settings (example_session 2025 1751328000)).DSTStart
    ∧ (ntp_result 0 0 (some 1751328000) (example_session 1970 0)).1.DoYStart = 68
    ∧ (ntp_result 0 0 (some 1751328000) (example_session 1970 0)).1.DoYEnd = 306
    ∧ (ntp_result 0 0 (some 1751328000) (example_session 1970 0)).1.FlagSummerTime = FLAG_ON :=
  ⟨(ntp_result_success_stores (example_session 1970 0) 0 1751328000).1,
   (ntp_result_success_stores (example_session 1970 0) 0 1751328000).2.1,
   ((ntp_result_success_stores (example_session 1970 0) 0 1751328000).2.2.2.2.2.2.2.2.2.2.2
      (example_session 2025 1751328000) (by decide) (by decide) (by decide) (by decide)
      (by decide)).1,
   by decide, by decide, by decide⟩

/-- C18 (counterexample): the example session has `FlagHealth` off; after the successful
`ntp_result(0, ts)` with the timestamp 2025-07-01 00:00:00 UTC its `FlagSuccess` is on and
its `FlagHealth` is still off. -/
theorem ntp_result_health_counterexample :
    (example_session 2025 0).FlagHealth = FLAG_OFF
    ∧ (ntp_result 0 0 (some 1751328000) (example_session 2025 0)).1.FlagSuccess = FLAG_ON
    ∧ (ntp_result 0 0 (some 1751328000) (example_session 2025 0)).1.FlagHealth = FLAG_OFF
    ∧ ¬ (∀ (s : struct_ntp) (now : Nat) (ts : Int),
          (ntp_result now 0 (some ts) s).1.FlagHealth = FLAG_ON) :=
  ⟨by decide, by decide, by decide,
   fun h => absurd (h (example_session 2025 0) 0 1751328000) (by decide)⟩

/-- C18 (amended): `ntp_result` never writes `FlagHealth`: for every session, status and
timestamp the member has on return the value it had on entry.  A successful `ntp_result(0, ts)`
sets `FlagSuccess` to `FLAG_ON`, and it is the test made by the driving loop on
`FlagSuccess` that then sets `FlagHealth` to `FLAG_ON` (and `FlagHistory` with it). -/
theorem ntp_result_keeps_health (s : struct_ntp) (now : Nat) (ResultStatus : Int)
    (UnixTime : Option Int) (ts : Int) :
    (ntp_result now ResultStatus UnixTime s).1.FlagHealth = s.FlagHealth
    ∧ (ntp_result now 0 (some ts) s).1.FlagSuccess = FLAG_ON
    ∧ (main_on_success (ntp_result now 0 (some ts) s).1).FlagHealth = FLAG_ON
    ∧ (main_on_success (ntp_result now 0 (some ts) s).1).FlagHistory = FLAG_ON := by
  have hs : (ntp_result now 0 (some ts) s).1.FlagSuccess = FLAG_ON := by
    have h2 := (ntp_result_success_fields ts s).2.1
    unfold ntp_result
    simp only [if_true]
    split_ifs
    · exact h2
    · exact h2
  refine ⟨?_, hs, ?_, ?_⟩
  · obtain ⟨r, -, hr, he⟩ := ntp_result_alarm now ResultStatus UnixTime s
    have hrh : r.FlagHealth = s.FlagHealth := by
      rcases hr with h | ⟨t, -, -, h⟩
      · rw [h]
        rfl
      · rw [h]
        exact (ntp_result_success_fields t s).2.2.2.2.2.2.2.1
    rw [he]
    split_ifs
    · exact hrh
    · exact hrh
  · unfold main_on_success
    rw [if_pos hs]
  · unfold main_on_success
    rw [if_pos hs]
    exact hs

/-- The session left by `ntp_result` when it is called with a non-zero status or with no
timestamp: the three members of the failure branch are written, a positive `ResendAlarm` is
set to 0 and `DNSRequestSent` is false. -/
theorem ntp_result_of_failure (s : struct_ntp) (now : Nat) (ResultStatus : Int)
    (UnixTime : Option Int) (hfail : ResultStatus ≠ 0 ∨ UnixTime = none) :
    (ntp_result now ResultStatus UnixTime s).1
      = { s with
          FlagSuccess := FLAG_OFF
          FlagHistory := FLAG_OFF
          UpdateTime := now + NTP_RETRY * 1000000
          ResendAlarm := if s.ResendAlarm > 0 then 0 else s.ResendAlarm
          DNSRequestSent := false } := by
  obtain ⟨r, -, hr, hres⟩ := ntp_result_alarm now ResultStatus UnixTime s
  have hrf : r = ntp_result_failure now s := by
    rcases hr with h | ⟨t, h1, h2, -⟩
    · exact h
    · rcases hfail with h | h
      · exact absurd h2 h
      · rw [h] at h1
        exact absurd h1 (by simp)
  rw [hres, hrf]
  have hra : (ntp_result_failure now s).ResendAlarm = s.ResendAlarm := rfl
  rw [hra]
  by_cases hp : s.ResendAlarm > 0
  · rw [if_pos hp, if_pos hp]
    unfold ntp_result_failure make_timeout_time_ms
    simp only [struct_ntp.mk.injEq, true_and, and_true]
    ring
  · rw [if_neg hp, if_neg hp]
    unfold ntp_result_failure make_timeout_time_ms
    simp only [struct_ntp.mk.injEq, true_and, and_true]
    ring

/-- C19: failed finalize.  For every session, `ntp_result` with a non-zero status or with no
timestamp sets `FlagSuccess` and `FlagHistory` to `FLAG_OFF` and `UpdateTime` to `now` plus
`NTP_RETRY` (600) seconds, which is sooner than the `now` plus `NTP_REFRESH` (3600) seconds set
by `ntp_get_time` when a cycle is begun (poll or read).  `UTCTime`, `LocalTime`, `HumanTime`,
`DSTStart`, `DSTEnd`, `DoYStart`, `DoYEnd`, `FlagSummerTime`, `ShiftMinutes` and the counters
are unchanged: the session on return is the one on entry with the three members above
written, `DNSRequestSent` false and a positive `ResendAlarm` set to 0. -/
theorem ntp_result_failure_frame (s : struct_ntp) (now : Nat) (ResultStatus : Int)
    (UnixTime : Option Int) (hfail : ResultStatus ≠ 0 ∨ UnixTime = none) :
    (ntp_result now ResultStatus UnixTime s).1
      = { s with
          FlagSuccess := FLAG_OFF
          FlagHistory := FLAG_OFF
          UpdateTime := now + NTP_RETRY * 1000000
          ResendAlarm := if s.ResendAlarm > 0 then 0 else s.ResendAlarm
          DNSRequestSent := false }
    ∧ (ntp_result now ResultStatus UnixTime s).1.FlagSuccess = FLAG_OFF
    ∧ (ntp_result now ResultStatus UnixTime s).1.FlagHistory = FLAG_OFF
    ∧ (ntp_result now ResultStatus UnixTime s).1.UpdateTime = now + 600 * 1000000
    ∧ (∀ (h : get_time_host) (e : struct_ntp), h.now = now →
        (ntp_get_time_poll h.now e).UpdateTime = now + 3600 * 1000000
        ∧ (ntp_get_time_read h e).UpdateTime = now + 3600 * 1000000
        ∧ (ntp_result now ResultStatus UnixTime s).1.UpdateTime
            < (ntp_get_time_poll h.now e).UpdateTime
        ∧ (ntp_result now ResultStatus UnixTime s).1.UpdateTime
            < (ntp_get_time_read h e).UpdateTime)
    ∧ (ntp_result now ResultStatus UnixTime s).1.UTCTime = s.UTCTime
    ∧ (ntp_result now ResultStatus UnixTime s).1.LocalTime = s.LocalTime
    ∧ (ntp_result now ResultStatus UnixTime s).1.HumanTime = s.HumanTime
    ∧ (ntp_result now ResultStatus UnixTime s).1.DSTStart = s.DSTStart
    ∧ (ntp_result now ResultStatus UnixTime s).1.DSTEnd = s.DSTEnd
    ∧ (ntp_result now ResultStatus UnixTime s).1.DoYStart = s.DoYStart
    ∧ (ntp_result now ResultStatus UnixTime s).1.DoYEnd = s.DoYEnd
    ∧ (ntp_result now ResultStatus UnixTime s).1.FlagSummerTime = s.FlagSummerTime
    ∧ (ntp_result now ResultStatus UnixTime s).1.ShiftMinutes = s.ShiftMinutes
    ∧ (ntp_result now ResultStatus UnixTime s).1.TotalErrors = s.TotalErrors
    ∧ (ntp_result now ResultStatus UnixTime s).1.ReadCycles = s.ReadCycles
    ∧ (ntp_result now ResultStatus UnixTime s).1.PollCycles = s.PollCycles
    ∧ (ntp_result now ResultStatus UnixTime s).1.ScanCount = s.ScanCount := by
  have he := ntp_result_of_failure s now ResultStatus UnixTime hfail
  rw [he]
  refine ⟨rfl, rfl, rfl, rfl, ?_, rfl, rfl, rfl, rfl, rfl, rfl, rfl, rfl, rfl, rfl, rfl, rfl, rfl⟩
  intro h e hn
  have p1 : (ntp_get_time_poll h.now e).UpdateTime = now + 3600 * 1000000 := by
    rw [hn]
    show now + 3600 * 1000 * 1000 = _
    omega
  have p2 : (ntp_get_time_read h e).UpdateTime = now + 3600 * 1000000 := by
    show h.now + 3600 * 1000 * 1000 = _
    omega
  refine ⟨p1, p2, ?_, ?_⟩
  · rw [p1]
    show now + 600 * 1000000 < _
    omega
  · rw [p2]
    show now + 600 * 1000000 < _
    omega

/-- Witness for C19: the example session of 2025-07-01 with the resend alarm 7 armed, finalized
as failed (status -1, no timestamp) when the timer reads 5 s: the flags are cleared, the update
time is 605 s and the stored UTC time is kept. -/
theorem ntp_result_failure_frame_witness :
    ((-1 : Int) ≠ 0 ∨ (none : Option Int) = none)
    ∧ (ntp_result 5000000 (-1) none
        { example_session 2025 1751328000 with ResendAlarm := 7, FlagHistory := 1 }).1.FlagHistory
          = FLAG_OFF
    ∧ (ntp_result 5000000 (-1) none
        { example_session 2025 1751328000 with ResendAlarm := 7, FlagHistory := 1 }).1.UpdateTime
          = 605000000
    ∧ (ntp_result 5000000 (-1) none
        { example_session 2025 1751328000 with ResendAlarm := 7, FlagHistory := 1 }).1.UTCTime
          = 1751328000 :=
  ⟨by decide,
   (ntp_result_failure_frame
      { example_session 2025 1751328000 with ResendAlarm := 7, FlagHistory := 1 } 5000000 (-1)
      none (Or.inl (by decide))).2.2.1,
   (ntp_result_failure_frame
      { example_session 2025 1751328000 with ResendAlarm := 7, FlagHistory := 1 } 5000000 (-1)
      none (Or.inl (by decide))).2.2.2.1,
   (ntp_result_failure_frame
      { example_session 2025 1751328000 with ResendAlarm := 7, FlagHistory := 1 } 5000000 (-1)
      none (Or.inl (by decide))).2.2.2.2.2.1⟩

/-- C20: timer cancellation in finalize is idempotent.  Every call of `ntp_result`, success or
failure, makes exactly the host call `cancel_alarm(ResendAlarm)` when `ResendAlarm > 0` on
entry and no host call otherwise; it leaves `DNSRequestSent` false, `ResendAlarm = 0` whenever
it was at least 0 on entry and `ResendAlarm` unchanged when it was negative.  Hence a second
`ntp_result`, with any status and timestamp and with no `ntp_get_time` in between, makes no
host call and leaves `ResendAlarm` and `DNSRequestSent` as the first call left them. -/
theorem ntp_result_cancel_once (s : struct_ntp) (now now2 : Nat) (ResultStatus ResultStatus2 : Int)
    (UnixTime UnixTime2 : Option Int) :
    (ntp_result now ResultStatus UnixTime s).2
        = (if s.ResendAlarm > 0 then [HostCall.cancel_alarm s.ResendAlarm] else [])
    ∧ (0 ≤ s.ResendAlarm → (ntp_result now ResultStatus UnixTime s).1.ResendAlarm = 0)
    ∧ (s.ResendAlarm < 0 →
        (ntp_result now ResultStatus UnixTime s).1.ResendAlarm = s.ResendAlarm)
    ∧ (ntp_result now ResultStatus UnixTime s).1.DNSRequestSent = false
    ∧ (ntp_result now2 ResultStatus2 UnixTime2 (ntp_result now ResultStatus UnixTime s).1).2 = []
    ∧ (ntp_result now2 ResultStatus2 UnixTime2 (ntp_result now ResultStatus UnixTime s).1).1.ResendAlarm
        = (ntp_result now ResultStatus UnixTime s).1.ResendAlarm
    ∧ (ntp_result now2 ResultStatus2 UnixTime2
        (ntp_result now ResultStatus UnixTime s).1).1.DNSRequestSent = false := by
  have key : ∀ (n : Nat) (st : Int) (u : Option Int) (e : struct_ntp),
      (ntp_result n st u e).2
          = (if e.ResendAlarm > 0 then [HostCall.cancel_alarm e.ResendAlarm] else [])
      ∧ (ntp_result n st u e).1.ResendAlarm = (if e.ResendAlarm > 0 then 0 else e.ResendAlarm)
      ∧ (ntp_result n st u e).1.DNSRequestSent = false := by
    intro n st u e
    obtain ⟨r, hr, -, he⟩ := ntp_result_alarm n st u e
    rw [he, hr]
    by_cases hp : e.ResendAlarm > 0
    · rw [if_pos hp, if_pos hp, if_pos hp]
      exact ⟨rfl, rfl, rfl⟩
    · rw [if_neg hp, if_neg hp, if_neg hp]
      exact ⟨rfl, rfl, rfl⟩
  obtain ⟨k1, k2, k3⟩ := key now ResultStatus UnixTime s
  obtain ⟨m1, m2, m3⟩ := key now2 ResultStatus2 UnixTime2 (ntp_result now ResultStatus UnixTime s).1
  have hle : ¬ (ntp_result now ResultStatus UnixTime s).1.ResendAlarm > 0 := by
    rw [k2]
    split_ifs with hp
    · omega
    · exact hp
  rw [if_neg hle] at m1 m2
  refine ⟨k1, fun h0 => ?_, fun h0 => ?_, k3, m1, m2, m3⟩
  · rw [k2]
    split_ifs with hp
    · rfl
    · omega
  · rw [k2, if_neg (by omega)]

/-- Witness for C20: the example session with the resend alarm 7 armed, finalized as failed and
then finalized again with a timestamp: the first call cancels the alarm 7 and leaves
`ResendAlarm = 0`, the second call makes no host call. -/
theorem ntp_result_cancel_once_witness :
    (0 : Int) ≤ ({ example_session 2025 1751328000 with ResendAlarm := 7 } : struct_ntp).ResendAlarm
    ∧ (ntp_result 5000000 (-1) none
        { example_session 2025 1751328000 with ResendAlarm := 7 }).2 = [HostCall.cancel_alarm 7]
    ∧ (ntp_result 5000000 (-1) none
        { example_session 2025 1751328000 with ResendAlarm := 7 }).1.ResendAlarm = 0
    ∧ (ntp_result 6000000 0 (some 1751328000)
        (ntp_result 5000000 (-1) none
          { example_session 2025 1751328000 with ResendAlarm := 7 }).1).2 = [] :=
  ⟨by decide, by decide,
   (ntp_result_cancel_once { example_session 2025 1751328000 with ResendAlarm := 7 }
      5000000 6000000 (-1) 0 none (some 1751328000)).2.1 (by decide),
   (ntp_result_cancel_once { example_session 2025 1751328000 with ResendAlarm := 7 }
      5000000 6000000 (-1) 0 none (some 1751328000)).2.2.2.2.1⟩

/-- Four bytes put together with shifts and ors make the big-endian number. -/
theorem be32_shift_or (b0 b1 b2 b3 : Nat) (h1 : b1 < 256) (h2 : b2 < 256) (h3 : b3 < 256) :
    b0 <<< 24 ||| b1 <<< 16 ||| b2 <<< 8 ||| b3
      = b0 * 16777216 + b1 * 65536 + b2 * 256 + b3 := by
  rw [Nat.shiftLeft_eq, Nat.shiftLeft_eq, Nat.shiftLeft_eq]
  have e1 : b0 * 2 ^ 24 ||| b1 * 2 ^ 16 = 2 ^ 16 * (b0 * 256 + b1) := by
    have k := @Nat.mul_add_lt_is_or 24 (b1 * 2 ^ 16) (by norm_num; omega) b0
    rw [Nat.mul_comm b0 (2 ^ 24), ← k]
    norm_num
    ring
  have e2 : 2 ^ 16 * (b0 * 256 + b1) ||| b2 * 2 ^ 8
      = 2 ^ 8 * (b0 * 65536 + b1 * 256 + b2) := by
    have k := @Nat.mul_add_lt_is_or 16 (b2 * 2 ^ 8) (by norm_num; omega) (b0 * 256 + b1)
    rw [← k]
    norm_num
    ring
  have e3 : 2 ^ 8 * (b0 * 65536 + b1 * 256 + b2) ||| b3
      = b0 * 16777216 + b1 * 65536 + b2 * 256 + b3 := by
    have k := @Nat.mul_add_lt_is_or 8 b3 (by norm_num; omega) (b0 * 65536 + b1 * 256 + b2)
    rw [← k]
    norm_num
    ring
  rw [e1, e2, e3]

/-- The byte read by `pbuf_get_at` is below 256, and it is the element of the payload when
that is a byte. -/
theorem pbuf_get_at_byte (p : List Nat) (offset : Nat) :
    pbuf_get_at p offset < 256
    ∧ ((∀ x ∈ p, x < 256) → pbuf_get_at p offset = p.getD offset 0) := by
  unfold pbuf_get_at
  refine ⟨Nat.mod_lt _ (by norm_num), fun h => Nat.mod_eq_of_lt ?_⟩
  by_cases hl : offset < p.length
  · rw [List.getD_eq_getElem p 0 hl]
    exact h _ (List.getElem_mem hl)
  · rw [List.getD_eq_default p 0 (by omega)]
    norm_num

/-- The Unix time computed by `ntp_recv` is the big-endian number made of the bytes 40..43
minus `NTP_DELTA`. -/
theorem ntp_recv_unix_time_eq (p : List Nat) :
    ntp_recv_unix_time p
      = ((pbuf_get_at p 40 * 16777216 + pbuf_get_at p 41 * 65536 + pbuf_get_at p 42 * 256
            + pbuf_get_at p 43 : Nat) : Int) - 2208988800
    ∧ pbuf_get_at p 40 * 16777216 + pbuf_get_at p 41 * 65536 + pbuf_get_at p 42 * 256
        + pbuf_get_at p 43 < 4294967296 := by
  have h0 := (pbuf_get_at_byte p 40).1
  have h1 := (pbuf_get_at_byte p 41).1
  have h2 := (pbuf_get_at_byte p 42).1
  have h3 := (pbuf_get_at_byte p 43).1
  have hlt : pbuf_get_at p 40 * 16777216 + pbuf_get_at p 41 * 65536 + pbuf_get_at p 42 * 256
        + pbuf_get_at p 43 < 4294967296 := by omega
  refine ⟨?_, hlt⟩
  unfold ntp_recv_unix_time
  dsimp only
  rw [be32_shift_or _ _ _ _ h1 h2 h3]
  generalize pbuf_get_at p 40 * 16777216 + pbuf_get_at p 41 * 65536 + pbuf_get_at p 42 * 256
        + pbuf_get_at p 43 = w at hlt
  unfold NTP_DELTA
  have hw := as_time_t_toU64 ((w : Int) - ((2208988800 : Nat) : Int)) (by omega) (by omega)
  unfold as_time_t at hw
  rw [hw]
  norm_num

/-- The flag `FlagSuccess` on return from `ntp_result`: on after `ntp_result(0, ts)`, off after
`ntp_result(-1, NULL)`. -/
theorem ntp_result_flag_success (now : Nat) (ts : Int) (e : struct_ntp) :
    (ntp_result now 0 (some ts) e).1.FlagSuccess = FLAG_ON
    ∧ (ntp_result now (-1) none e).1.FlagSuccess = FLAG_OFF := by
  constructor
  · have h2 := (ntp_result_success_fields ts e).2.1
    unfold ntp_result
    simp only [if_true]
    split_ifs
    · exact h2
    · exact h2
  · obtain ⟨r, -, hr, he⟩ := ntp_result_alarm now (-1) none e
    have hrf : r = ntp_result_failure now e := by
      rcases hr with h | ⟨t, h1, -, -⟩
      · exact h
      · exact absurd h1 (by simp)
    rw [he, hrf]
    split_ifs <;> rfl

/-- C12: reply validation in `ntp_recv`.  A received datagram is finalized as success
(`FlagSuccess = FLAG_ON` on return, through `ntp_result(0, timestamp)`) if and only if all five
hold: the source address is the recorded `ServerAddress`, the source port is 123, the total
length is 48, byte 0 and `0x07` is 4, and byte 1 (the stratum) is not 0.  In every other case
it is finalized as failed through `ntp_result(-1, NULL)`, which leaves `FlagSuccess = FLAG_OFF`.
In particular a reply with stratum 0 is rejected whatever its address, port, length and mode
are. -/
theorem ntp_recv_validation (recv_time now_result : Nat) (p : List Nat) (IPAddress port : Nat)
    (s : struct_ntp) :
    ((ntp_recv recv_time now_result p IPAddress port s).1.FlagSuccess = FLAG_ON
      ↔ (IPAddress = s.ServerAddress ∧ port = 123 ∧ p.length = 48
          ∧ pbuf_get_at p 0 &&& 0x07 = 4 ∧ pbuf_get_at p 1 ≠ 0))
    ∧ ((IPAddress = s.ServerAddress ∧ port = 123 ∧ p.length = 48
          ∧ pbuf_get_at p 0 &&& 0x07 = 4 ∧ pbuf_get_at p 1 ≠ 0) →
        ntp_recv recv_time now_result p IPAddress port s
          = ntp_result now_result 0 (some (ntp_recv_unix_time p))
              { s with
                Receive := recv_time % 4294967296
                Latency := wrapI32 (((recv_time % 4294967296 : Nat) : Int) - (s.Send : Int)) })
    ∧ (¬ (IPAddress = s.ServerAddress ∧ port = 123 ∧ p.length = 48
          ∧ pbuf_get_at p 0 &&& 0x07 = 4 ∧ pbuf_get_at p 1 ≠ 0) →
        ntp_recv recv_time now_result p IPAddress port s
            = ntp_result now_result (-1) none { s with Receive := recv_time % 4294967296 }
        ∧ (ntp_recv recv_time now_result p IPAddress port s).1.FlagSuccess = FLAG_OFF)
    ∧ (pbuf_get_at p 1 = 0 →
        ntp_recv recv_time now_result p IPAddress port s
            = ntp_result now_result (-1) none { s with Receive := recv_time % 4294967296 }
        ∧ (ntp_recv recv_time now_result p IPAddress port s).1.FlagSuccess = FLAG_OFF) := by
  have hv : ntp_recv_valid p IPAddress port s
      ↔ (IPAddress = s.ServerAddress ∧ port = 123 ∧ p.length = 48
          ∧ pbuf_get_at p 0 &&& 0x07 = 4 ∧ pbuf_get_at p 1 ≠ 0) := Iff.rfl
  have hok : ntp_recv_valid p IPAddress port s →
      ntp_recv recv_time now_result p IPAddress port s
          = ntp_result now_result 0 (some (ntp_recv_unix_time p))
              { s with
                Receive := recv_time % 4294967296
                Latency := wrapI32 (((recv_time % 4294967296 : Nat) : Int) - (s.Send : Int)) } := by
    intro h
    unfold ntp_recv
    simp only [if_pos h]
  have hbad : ¬ ntp_recv_valid p IPAddress port s →
      ntp_recv recv_time now_result p IPAddress port s
          = ntp_result now_result (-1) none { s with Receive := recv_time % 4294967296 } := by
    intro h
    unfold ntp_recv
    simp only [if_neg h]
  have hon : ∀ (ts : Int) (e : struct_ntp),
      (ntp_result now_result 0 (some ts) e).1.FlagSuccess = FLAG_ON :=
    fun ts e => (ntp_result_flag_success now_result ts e).1
  have hoff : ∀ (e : struct_ntp),
      (ntp_result now_result (-1) none e).1.FlagSuccess = FLAG_OFF :=
    fun e => (ntp_result_flag_success now_result 0 e).2
  have hrej : ¬ ntp_recv_valid p IPAddress port s →
      ntp_recv recv_time now_result p IPAddress port s
            = ntp_result now_result (-1) none { s with Receive := recv_time % 4294967296 }
        ∧ (ntp_recv recv_time now_result p IPAddress port s).1.FlagSuccess = FLAG_OFF := by
    intro h
    refine ⟨hbad h, ?_⟩
    rw [hbad h]
    exact hoff _
  refine ⟨⟨fun h => ?_, fun h => ?_⟩, fun h => hok (hv.2 h), fun h => hrej (fun k => h (hv.1 k)),
    fun h => hrej (fun k => k.2.2.2.2 h)⟩
  · by_contra hn
    have h2 := (hrej (fun k => hn (hv.1 k))).2
    exact absurd (h2.symm.trans h) (by decide)
  · rw [hok (hv.2 h)]
    exact hon _ _

/-- Witness for C12: the example reply of 48 bytes (mode 4) from the recorded server address
and port 123 is accepted with stratum 2 and rejected with stratum 0. -/
theorem ntp_recv_validation_witness :
    (ntp_recv 5000300 5000400 (example_reply 2) 0 123
        (example_session 1970 0)).1.FlagSuccess = FLAG_ON
    ∧ (ntp_recv 5000300 5000400 (example_reply 0) 0 123
        (example_session 1970 0)).1.FlagSuccess = FLAG_OFF :=
  ⟨(ntp_recv_validation 5000300 5000400 (example_reply 2) 0 123 (example_session 1970 0)).1.2
      ⟨by decide, by decide, by decide, by decide, by decide⟩,
   ((ntp_recv_validation 5000300 5000400 (example_reply 0) 0 123
      (example_session 1970 0)).2.2.2 (by decide)).2⟩

/-- C13: timestamp extraction in `ntp_recv`.  For every accepted reply (48 bytes, with bytes
`b`) the Unix timestamp handed to `ntp_result` and stored in `UTCTime` is
`b[40] * 2^24 + b[41] * 2^16 + b[42] * 2^8 + b[43] - 2208988800`, the big-endian 32-bit
seconds-since-1900 field at offset 40 minus `NTP_DELTA`, as a signed 64-bit value: it is
negative exactly when the wire value is below 2208988800. -/
theorem ntp_recv_timestamp (recv_time now_result : Nat) (p : List Nat) (IPAddress port : Nat)
    (s : struct_ntp) (hvalid : ntp_recv_valid p IPAddress port s) (hbytes : ∀ x ∈ p, x < 256) :
    p.length = 48
    ∧ ntp_recv recv_time now_result p IPAddress port s
        = ntp_result now_result 0
            (some (((p.getD 40 0 * 2 ^ 24 + p.getD 41 0 * 2 ^ 16 + p.getD 42 0 * 2 ^ 8
                      + p.getD 43 0 : Nat) : Int) - 2208988800))
            { s with
              Receive := recv_time % 4294967296
              Latency := wrapI32 (((recv_time % 4294967296 : Nat) : Int) - (s.Send : Int)) }
    ∧ (ntp_recv recv_time now_result p IPAddress port s).1.UTCTime
        = ((p.getD 40 0 * 2 ^ 24 + p.getD 41 0 * 2 ^ 16 + p.getD 42 0 * 2 ^ 8
              + p.getD 43 0 : Nat) : Int) - 2208988800
    ∧ ((ntp_recv recv_time now_result p IPAddress port s).1.UTCTime < 0
        ↔ p.getD 40 0 * 2 ^ 24 + p.getD 41 0 * 2 ^ 16 + p.getD 42 0 * 2 ^ 8 + p.getD 43 0
            < 2208988800)
    ∧ p.getD 40 0 * 2 ^ 24 + p.getD 41 0 * 2 ^ 16 + p.getD 42 0 * 2 ^ 8 + p.getD 43 0
        < 2 ^ 32 := by
  obtain ⟨ht, hlt⟩ := ntp_recv_unix_time_eq p
  rw [(pbuf_get_at_byte p 40).2 hbytes, (pbuf_get_at_byte p 41).2 hbytes,
    (pbuf_get_at_byte p 42).2 hbytes, (pbuf_get_at_byte p 43).2 hbytes] at ht hlt
  have hpow : p.getD 40 0 * 2 ^ 24 + p.getD 41 0 * 2 ^ 16 + p.getD 42 0 * 2 ^ 8 + p.getD 43 0
      = p.getD 40 0 * 16777216 + p.getD 41 0 * 65536 + p.getD 42 0 * 256 + p.getD 43 0 := by
    norm_num
  rw [hpow]
  have he : ntp_recv recv_time now_result p IPAddress port s
      = ntp_result now_result 0 (some (ntp_recv_unix_time p))
          { s with
            Receive := recv_time % 4294967296
            Latency := wrapI32 (((recv_time % 4294967296 : Nat) : Int) - (s.Send : Int)) } := by
    unfold ntp_recv
    simp only [if_pos hvalid]
  have hu : (ntp_recv recv_time now_result p IPAddress port s).1.UTCTime
      = ntp_recv_unix_time p := by
    rw [he]
    obtain ⟨f1, -⟩ := ntp_result_success_fields (ntp_recv_unix_time p)
      { s with
        Receive := recv_time % 4294967296
        Latency := wrapI32 (((recv_time % 4294967296 : Nat) : Int) - (s.Send : Int)) }
    unfold ntp_result
    simp only [if_true]
    split_ifs
    · exact f1
    · exact f1
  refine ⟨hvalid.2.2.1, ?_, ?_, ?_, ?_⟩
  · rw [he, ht]
  · rw [hu, ht]
  · rw [hu, ht]
    omega
  · have h32 : (2 : Nat) ^ 32 = 4294967296 := by norm_num
    rw [h32]
    exact hlt

/-- Witness for C13: the example reply with stratum 2 carries the seconds field
`0xEC0DA380 = 3960316800`; the timestamp stored is `3960316800 - 2208988800 = 1751328000`,
2025-07-01 00:00:00 UTC. -/
theorem ntp_recv_timestamp_witness :
    ntp_recv_valid (example_reply 2) 0 123 (example_session 1970 0)
    ∧ (ntp_recv 5000300 5000400 (example_reply 2) 0 123 (example_session 1970 0)).1.UTCTime
        = ((((example_reply 2).getD 40 0 * 2 ^ 24 + (example_reply 2).getD 41 0 * 2 ^ 16
              + (example_reply 2).getD 42 0 * 2 ^ 8 + (example_reply 2).getD 43 0 : Nat) : Int)
            - 2208988800)
    ∧ (ntp_recv 5000300 5000400 (example_reply 2) 0 123 (example_session 1970 0)).1.UTCTime
        = 1751328000 :=
  ⟨by decide,
   (ntp_recv_timestamp 5000300 5000400 (example_reply 2) 0 123 (example_session 1970 0)
      (by decide) (by decide)).2.2.1,
   by decide⟩

/-- When the poll condition holds, `ntp_get_time` is the poll branch and makes no host call. -/
theorem ntp_get_time_of_poll (h : get_time_host) (s : struct_ntp)
    (hp : s.FlagHealth ≠ 0 ∧ s.ScanCount < NTP_SCAN_FACTOR ∧ ¬ s.UpdateTime = 0) :
    ntp_get_time h s = (ntp_get_time_poll h.now s, []) := by
  unfold ntp_get_time
  rw [if_pos hp]

/-- When the poll condition does not hold, `ntp_get_time` is the read cycle: the session
`ntp_get_time_read` and the calls `add_alarm_in_ms`, `dns_gethostbyname`, followed by what
the return code of the name resolution leads to. -/
theorem ntp_get_time_of_read (h : get_time_host) (s : struct_ntp)
    (hn : ¬ (s.FlagHealth ≠ 0 ∧ s.ScanCount < NTP_SCAN_FACTOR ∧ ¬ s.UpdateTime = 0)) :
    ntp_get_time h s
      = (if h.ReturnCode = 0 then
          ({ ntp_get_time_read h s with Send := h.send_time % 4294967296 },
           [HostCall.add_alarm_in_ms NTP_RESEND_TIME, HostCall.dns_gethostbyname NTP_SERVER,
            HostCall.udp_sendto h.CachedAddress NTP_PORT
              (0x1B :: List.replicate (NTP_MSG_LEN - 1) 0)])
        else if h.ReturnCode = ERR_INPROGRESS then
          ((ntp_result h.now_result (-1) none (ntp_get_time_read h s)).1,
           [HostCall.add_alarm_in_ms NTP_RESEND_TIME, HostCall.dns_gethostbyname NTP_SERVER]
             ++ (if h.AlarmId > 0 then [HostCall.cancel_alarm h.AlarmId] else []))
        else
          (ntp_get_time_read h s,
           [HostCall.add_alarm_in_ms NTP_RESEND_TIME,
            HostCall.dns_gethostbyname NTP_SERVER])) := by
  unfold ntp_get_time
  rw [if_neg hn]
  dsimp only
  by_cases h0 : h.ReturnCode = 0
  · rw [if_pos h0, if_pos h0]
    have ha : (ntp_get_time_read h s).ServerAddress = h.CachedAddress := by
      show (if h.ReturnCode = ERR_OK then h.CachedAddress else s.ServerAddress) = _
      exact if_pos h0
    unfold ntp_request
    rw [ha]
    rfl
  · rw [if_neg h0, if_neg h0]
    by_cases h5 : h.ReturnCode = ERR_INPROGRESS
    · rw [if_pos h5, if_pos h5]
      obtain ⟨r, hra, hr, he⟩ := ntp_result_alarm h.now_result (-1) none (ntp_get_time_read h s)
      have hid : (ntp_get_time_read h s).ResendAlarm = h.AlarmId := rfl
      rw [hid] at hra
      have h2 : (ntp_result h.now_result (-1) none (ntp_get_time_read h s)).2
          = (if h.AlarmId > 0 then [HostCall.cancel_alarm h.AlarmId] else []) := by
        rw [he, hra]
        split_ifs <;> rfl
      rw [h2]
    · rw [if_neg h5, if_neg h5]

/-- C14: poll branch of `ntp_get_time`.  The call is a poll (the poll branch is taken, and no
host call is made) if and only if `FlagHealth` is non-zero and `ScanCount < 24`
(`NTP_SCAN_FACTOR`) and `UpdateTime` is not nil.  On a poll it sets `FlagSuccess = FLAG_POLL`,
increases `PollCycles` by 1 (a `UINT32`, so modulo 2^32) and `ScanCount` by 1, sets
`UpdateTime` to `now` plus `NTP_REFRESH` (3600) seconds, arms no timer, starts no name
resolution and sends no datagram, and leaves every other member unchanged, in particular
`ReadCycles`, `TotalErrors`, `ResendAlarm`, `ServerAddress`, `UTCTime`, `LocalTime`,
`HumanTime` and the daylight-saving members. -/
theorem ntp_get_time_poll_branch (h : get_time_host) (s : struct_ntp) :
    ((s.FlagHealth ≠ 0 ∧ s.ScanCount < 24 ∧ s.UpdateTime ≠ 0)
      ↔ ntp_get_time h s = (ntp_get_time_poll h.now s, []))
    ∧ ((s.FlagHealth ≠ 0 ∧ s.ScanCount < 24 ∧ s.UpdateTime ≠ 0) ↔ (ntp_get_time h s).2 = [])
    ∧ ((s.FlagHealth ≠ 0 ∧ s.ScanCount < 24 ∧ s.UpdateTime ≠ 0) →
        ntp_get_time h s
          = ({ s with
               UpdateTime := h.now + 3600 * 1000000
               FlagSuccess := FLAG_POLL
               PollCycles := (s.PollCycles + 1) % 4294967296
               ScanCount := s.ScanCount + 1 }, [])
        ∧ (ntp_get_time h s).1.FlagSuccess = FLAG_POLL
        ∧ (ntp_get_time h s).1.PollCycles = (s.PollCycles + 1) % 4294967296
        ∧ (s.PollCycles < 4294967295 → (ntp_get_time h s).1.PollCycles = s.PollCycles + 1)
        ∧ (ntp_get_time h s).1.ScanCount = s.ScanCount + 1
        ∧ (ntp_get_time h s).1.UpdateTime = h.now + 3600 * 1000000
        ∧ (ntp_get_time h s).2 = []
        ∧ (ntp_get_time h s).1.ReadCycles = s.ReadCycles
        ∧ (ntp_get_time h s).1.TotalErrors = s.TotalErrors
        ∧ (ntp_get_time h s).1.ResendAlarm = s.ResendAlarm
        ∧ (ntp_get_time h s).1.ServerAddress = s.ServerAddress
        ∧ (ntp_get_time h s).1.UTCTime = s.UTCTime
        ∧ (ntp_get_time h s).1.LocalTime = s.LocalTime
        ∧ (ntp_get_time h s).1.HumanTime = s.HumanTime
        ∧ (ntp_get_time h s).1.DSTStart = s.DSTStart
        ∧ (ntp_get_time h s).1.DSTEnd = s.DSTEnd
        ∧ (ntp_get_time h s).1.DoYStart = s.DoYStart
        ∧ (ntp_get_time h s).1.DoYEnd = s.DoYEnd
        ∧ (ntp_get_time h s).1.FlagSummerTime = s.FlagSummerTime
        ∧ (ntp_get_time h s).1.ShiftMinutes = s.ShiftMinutes) := by
  have hcond : (s.FlagHealth ≠ 0 ∧ s.ScanCount < 24 ∧ s.UpdateTime ≠ 0)
      ↔ (s.FlagHealth ≠ 0 ∧ s.ScanCount < NTP_SCAN_FACTOR ∧ ¬ s.UpdateTime = 0) := Iff.rfl
  have hcalls : ¬ (s.FlagHealth ≠ 0 ∧ s.ScanCount < 24 ∧ s.UpdateTime ≠ 0) →
      (ntp_get_time h s).2 ≠ [] := by
    intro hn
    rw [ntp_get_time_of_read h s (fun k => hn (hcond.2 k))]
    split_ifs <;> simp
  refine ⟨⟨fun hp => ntp_get_time_of_poll h s (hcond.1 hp), fun he => ?_⟩,
    ⟨fun hp => ?_, fun he => ?_⟩, fun hp => ?_⟩
  · by_contra hn
    exact hcalls hn (by rw [he])
  · rw [ntp_get_time_of_poll h s (hcond.1 hp)]
  · by_contra hn
    exact hcalls hn he
  · rw [ntp_get_time_of_poll h s (hcond.1 hp)]
    have hsc : (s.ScanCount + 1) % 256 = s.ScanCount + 1 := by
      have := hp.2.1
      omega
    have hst : ntp_get_time_poll h.now s
        = { s with
            UpdateTime := h.now + 3600 * 1000000
            FlagSuccess := FLAG_POLL
            PollCycles := (s.PollCycles + 1) % 4294967296
            ScanCount := s.ScanCount + 1 } := by
      unfold ntp_get_time_poll make_timeout_time_ms NTP_REFRESH
      rw [hsc]
    rw [hst]
    refine ⟨rfl, rfl, rfl, fun hlt => ?_, rfl, rfl, rfl, rfl, rfl, rfl, rfl, rfl, rfl, rfl, rfl,
      rfl, rfl, rfl, rfl, rfl⟩
    show (s.PollCycles + 1) % 4294967296 = s.PollCycles + 1
    omega

/-- Witness for C14: the healthy example session with scan count 5 and the timer at 5 s; the call
is a poll: no host call, `FlagSuccess = FLAG_POLL`, `PollCycles` 4, `ScanCount` 6,
`UpdateTime` 3605 s. -/
theorem ntp_get_time_poll_branch_witness :
    ((example_session_healthy 5).FlagHealth ≠ 0 ∧ (example_session_healthy 5).ScanCount < 24
        ∧ (example_session_healthy 5).UpdateTime ≠ 0)
    ∧ ntp_get_time example_host_pending (example_session_healthy 5)
        = ({ example_session_healthy 5 with
             UpdateTime := example_host_pending.now + 3600 * 1000000
             FlagSuccess := FLAG_POLL
             PollCycles := ((example_session_healthy 5).PollCycles + 1) % 4294967296
             ScanCount := (example_session_healthy 5).ScanCount + 1 }, [])
    ∧ (ntp_get_time example_host_pending (example_session_healthy 5)).1.PollCycles = 4
    ∧ (ntp_get_time example_host_pending (example_session_healthy 5)).1.ScanCount = 6
    ∧ (ntp_get_time example_host_pending (example_session_healthy 5)).1.UpdateTime
        = 3605000000 :=
  ⟨by decide,
   ((ntp_get_time_poll_branch example_host_pending (example_session_healthy 5)).2.2
      (by decide)).1,
   by decide, by decide, by decide⟩

/-- C15: the resync branch of `ntp_get_time` as the code runs it.  Whenever the poll condition
does not hold, on return `ScanCount` is 1, `ReadCycles` is increased by exactly 1 (a `UINT32`,
so modulo 2^32) and `PollCycles` is unchanged, and the host calls made are
`add_alarm_in_ms(10000)`, then `dns_gethostbyname("pool.ntp.org")`, then calls that are
neither of the two: one resend timer armed, one name-resolution request.  The read cycle
stores `now` plus `NTP_REFRESH` (3600) seconds in `UpdateTime` and the handle of the timer in
`ResendAlarm` (`ntp_get_time_read`), and these are the values on return for every return code
of the name resolution other than `ERR_INPROGRESS`.  With `ERR_INPROGRESS` they are not: the
call goes on to `ntp_result(-1, NULL)`, so that on return `UpdateTime` is the time of
`ntp_result` plus `NTP_RETRY` (600) seconds, which is not `now` plus 3600 seconds when
`ntp_result` runs less than 3000 seconds after `now`, and a positive handle has been
cancelled with `cancel_alarm` and `ResendAlarm` is 0, not the handle. -/
theorem ntp_get_time_resync (h : get_time_host) (s : struct_ntp)
    (hn : ¬ (s.FlagHealth ≠ 0 ∧ s.ScanCount < 24 ∧ s.UpdateTime ≠ 0)) :
    (ntp_get_time h s).1.ScanCount = 1
    ∧ (ntp_get_time h s).1.ReadCycles = (s.ReadCycles + 1) % 4294967296
    ∧ (s.ReadCycles < 4294967295 → (ntp_get_time h s).1.ReadCycles = s.ReadCycles + 1)
    ∧ (ntp_get_time h s).1.PollCycles = s.PollCycles
    ∧ (ntp_get_time_read h s).UpdateTime = h.now + 3600 * 1000000
    ∧ (ntp_get_time_read h s).ResendAlarm = h.AlarmId
    ∧ (ntp_get_time_read h s).ScanCount = 1
    ∧ (ntp_get_time_read h s).ReadCycles = (s.ReadCycles + 1) % 4294967296
    ∧ (ntp_get_time_read h s).PollCycles = s.PollCycles
    ∧ (h.ReturnCode ≠ ERR_INPROGRESS →
        (ntp_get_time h s).1.UpdateTime = h.now + 3600 * 1000000
        ∧ (ntp_get_time h s).1.ResendAlarm = h.AlarmId)
    ∧ (h.ReturnCode = ERR_INPROGRESS →
        (ntp_get_time h s).1
          = (ntp_result h.now_result (-1) none (ntp_get_time_read h s)).1
        ∧ (ntp_get_time h s).1.UpdateTime = h.now_result + 600 * 1000000
        ∧ (h.now_result < h.now + 3000 * 1000000 →
            (ntp_get_time h s).1.UpdateTime ≠ h.now + 3600 * 1000000)
        ∧ (ntp_get_time h s).1.ResendAlarm = (if h.AlarmId > 0 then 0 else h.AlarmId)
        ∧ (h.AlarmId > 0 →
            (ntp_get_time h s).1.ResendAlarm ≠ h.AlarmId
            ∧ (ntp_get_time h s).2
                = [HostCall.add_alarm_in_ms 10000, HostCall.dns_gethostbyname "pool.ntp.org",
                   HostCall.cancel_alarm h.AlarmId]))
    ∧ (∃ rest : List HostCall,
        (ntp_get_time h s).2
          = [HostCall.add_alarm_in_ms 10000, HostCall.dns_gethostbyname "pool.ntp.org"] ++ rest
        ∧ ∀ c ∈ rest, (∀ ms, c ≠ HostCall.add_alarm_in_ms ms)
            ∧ (∀ host, c ≠ HostCall.dns_gethostbyname host)) := by
  have hcond : ¬ (s.FlagHealth ≠ 0 ∧ s.ScanCount < NTP_SCAN_FACTOR ∧ ¬ s.UpdateTime = 0) := hn
  have he := ntp_get_time_of_read h s hcond
  have hf := ntp_result_of_failure (ntp_get_time_read h s) h.now_result (-1) none (Or.inr rfl)
  have hid : (ntp_get_time_read h s).ResendAlarm = h.AlarmId := rfl
  rw [hid] at hf
  have hres : (ntp_result h.now_result (-1) none (ntp_get_time_read h s)).1.ScanCount = 1
      ∧ (ntp_result h.now_result (-1) none (ntp_get_time_read h s)).1.ReadCycles
          = (s.ReadCycles + 1) % 4294967296
      ∧ (ntp_result h.now_result (-1) none (ntp_get_time_read h s)).1.PollCycles
          = s.PollCycles := by
    rw [hf]
    exact ⟨rfl, rfl, rfl⟩
  have h1 : (ntp_get_time h s).1.ScanCount = 1
      ∧ (ntp_get_time h s).1.ReadCycles = (s.ReadCycles + 1) % 4294967296
      ∧ (ntp_get_time h s).1.PollCycles = s.PollCycles := by
    rw [he]
    by_cases h0 : h.ReturnCode = 0
    · rw [if_pos h0]
      exact ⟨rfl, rfl, rfl⟩
    · rw [if_neg h0]
      by_cases h5 : h.ReturnCode = ERR_INPROGRESS
      · rw [if_pos h5]
        exact hres
      · rw [if_neg h5]
        exact ⟨rfl, rfl, rfl⟩
  have hu : (ntp_get_time_read h s).UpdateTime = h.now + 3600 * 1000000 := by
    show h.now + 3600 * 1000 * 1000 = _
    omega
  refine ⟨h1.1, h1.2.1, fun hlt => ?_, h1.2.2, hu, rfl, rfl, rfl, rfl, fun h5 => ?_, fun h5 => ?_,
    ?_⟩
  · rw [h1.2.1]
    omega
  · rw [he]
    by_cases h0 : h.ReturnCode = 0
    · rw [if_pos h0]
      exact ⟨hu, rfl⟩
    · rw [if_neg h0, if_neg h5]
      exact ⟨hu, rfl⟩
  · have h0 : ¬ h.ReturnCode = 0 := by
      rw [h5]
      decide
    have e1 : (ntp_get_time h s).1
        = (ntp_result h.now_result (-1) none (ntp_get_time_read h s)).1 := by
      rw [he, if_neg h0, if_pos h5]
    have e2 : (ntp_get_time h s).2
        = [HostCall.add_alarm_in_ms NTP_RESEND_TIME, HostCall.dns_gethostbyname NTP_SERVER]
           ++ (if h.AlarmId > 0 then [HostCall.cancel_alarm h.AlarmId] else []) := by
      rw [he, if_neg h0, if_pos h5]
    have eu : (ntp_get_time h s).1.UpdateTime = h.now_result + 600 * 1000000 := by
      rw [e1, hf]
      show h.now_result + NTP_RETRY * 1000000 = _
      unfold NTP_RETRY
      rfl
    have ea : (ntp_get_time h s).1.ResendAlarm = (if h.AlarmId > 0 then 0 else h.AlarmId) := by
      rw [e1, hf]
    refine ⟨e1, eu, fun hlt => ?_, ea, fun hp => ⟨?_, ?_⟩⟩
    · rw [eu]
      omega
    · rw [ea, if_pos hp]
      omega
    · rw [e2, if_pos hp]
      rfl
  · rw [he]
    by_cases h0 : h.ReturnCode = 0
    · rw [if_pos h0]
      refine ⟨[HostCall.udp_sendto h.CachedAddress NTP_PORT
        (0x1B :: List.replicate (NTP_MSG_LEN - 1) 0)], rfl, ?_⟩
      intro c hc
      simp only [List.mem_singleton] at hc
      rw [hc]
      exact ⟨fun _ k => HostCall.noConfusion k, fun _ k => HostCall.noConfusion k⟩
    · rw [if_neg h0]
      by_cases h5 : h.ReturnCode = ERR_INPROGRESS
      · rw [if_pos h5]
        refine ⟨(if h.AlarmId > 0 then [HostCall.cancel_alarm h.AlarmId] else []), rfl, ?_⟩
        intro c hc
        by_cases hp : h.AlarmId > 0
        · rw [if_pos hp, List.mem_singleton] at hc
          rw [hc]
          exact ⟨fun _ k => HostCall.noConfusion k, fun _ k => HostCall.noConfusion k⟩
        · rw [if_neg hp] at hc
          exact absurd hc (List.not_mem_nil c)
      · rw [if_neg h5]
        exact ⟨[], rfl, fun c hc => absurd hc (List.not_mem_nil c)⟩

/-- Witness for C15 on the example session before its first cycle (`FlagHealth` off).  With the
name resolution pending (`ERR_INPROGRESS`, alarm handle 7, `now` = 5 s): scan count 1, one read
cycle, and on return the update time is 605.0002 s, not 3605 s, `ResendAlarm` is 0, not 7, and
the alarm has been cancelled.  With the name resolution answered from the cache: update time
3605 s, the alarm handle 7 stored, and the host calls are the alarm, the name resolution and
the request datagram. -/
theorem ntp_get_time_resync_witness :
    ¬ ((example_session 1970 0).FlagHealth ≠ 0 ∧ (example_session 1970 0).ScanCount < 24
        ∧ (example_session 1970 0).UpdateTime ≠ 0)
    ∧ example_host_pending.ReturnCode = ERR_INPROGRESS
    ∧ (ntp_get_time example_host_pending (example_session 1970 0)).1.ScanCount = 1
    ∧ (ntp_get_time example_host_pending (example_session 1970 0)).1.ReadCycles = 1
    ∧ (ntp_get_time example_host_pending (example_session 1970 0)).1.UpdateTime = 605000200
    ∧ (ntp_get_time example_host_pending (example_session 1970 0)).1.UpdateTime
        ≠ example_host_pending.now + 3600 * 1000000
    ∧ (ntp_get_time example_host_pending (example_session 1970 0)).1.ResendAlarm = 0
    ∧ (ntp_get_time example_host_pending (example_session 1970 0)).1.ResendAlarm
        ≠ example_host_pending.AlarmId
    ∧ (ntp_get_time example_host_pending (example_session 1970 0)).2
        = [HostCall.add_alarm_in_ms 10000, HostCall.dns_gethostbyname "pool.ntp.org",
           HostCall.cancel_alarm example_host_pending.AlarmId]
    ∧ (ntp_get_time example_host_cached (example_session 1970 0)).1.ScanCount = 1
    ∧ (ntp_get_time example_host_cached (example_session 1970 0)).1.ReadCycles = 1
    ∧ (ntp_get_time example_host_cached (example_session 1970 0)).1.UpdateTime = 3605000000
    ∧ (ntp_get_time example_host_cached (example_session 1970 0)).1.ResendAlarm = 7
    ∧ (ntp_get_time example_host_cached (example_session 1970 0)).2
        = [HostCall.add_alarm_in_ms 10000, HostCall.dns_gethostbyname "pool.ntp.org",
           HostCall.udp_sendto 16909060 123 (0x1B :: List.replicate 47 0)] :=
  ⟨by decide, by decide,
   (ntp_get_time_resync example_host_pending (example_session 1970 0) (by decide)).1,
   (ntp_get_time_resync example_host_pending (example_session 1970 0) (by decide)).2.2.1
     (by decide),
   by decide,
   ((ntp_get_time_resync example_host_pending (example_session 1970 0)
      (by decide)).2.2.2.2.2.2.2.2.2.2.1 (by decide)).2.2.1 (by decide),
   by decide,
   (((ntp_get_time_resync example_host_pending (example_session 1970 0)
      (by decide)).2.2.2.2.2.2.2.2.2.2.1 (by decide)).2.2.2.2 (by decide)).1,
   (((ntp_get_time_resync example_host_pending (example_session 1970 0)
      (by decide)).2.2.2.2.2.2.2.2.2.2.1 (by decide)).2.2.2.2 (by decide)).2,
   (ntp_get_time_resync example_host_cached (example_session 1970 0) (by decide)).1,
   (ntp_get_time_resync example_host_cached (example_session 1970 0) (by decide)).2.2.1
     (by decide),
   ((ntp_get_time_resync example_host_cached (example_session 1970 0)
      (by decide)).2.2.2.2.2.2.2.2.2.1 (by decide)).1,
   ((ntp_get_time_resync example_host_cached (example_session 1970 0)
      (by decide)).2.2.2.2.2.2.2.2.2.1 (by decide)).2,
   by decide⟩

/-- C16 (counterexample): the healthy example session with an update time scheduled and
`ScanCount = 24 = NTP_SCAN_FACTOR`.  With the name resolution answered from the cache the call
arms the alarm, makes one name-resolution request and sends one datagram; the scan count is
reset to 1 and `ReadCycles`, not `PollCycles`, is increased.  With the name resolution pending
the call makes one name-resolution request and `FlagSuccess` is `FLAG_OFF` on return. -/
theorem scan_budget_reached_counterexample :
    (example_session_healthy 24).FlagHealth = FLAG_ON
    ∧ (example_session_healthy 24).UpdateTime ≠ 0
    ∧ (example_session_healthy 24).ScanCount = NTP_SCAN_FACTOR
    ∧ (ntp_get_time example_host_cached (example_session_healthy 24)).2
        = [HostCall.add_alarm_in_ms 10000, HostCall.dns_gethostbyname "pool.ntp.org",
           HostCall.udp_sendto 16909060 123 (0x1B :: List.replicate 47 0)]
    ∧ (ntp_get_time example_host_cached (example_session_healthy 24)).1.ScanCount = 1
    ∧ (ntp_get_time example_host_cached (example_session_healthy 24)).1.ReadCycles = 2
    ∧ (ntp_get_time example_host_cached (example_session_healthy 24)).1.PollCycles = 3
    ∧ (ntp_get_time example_host_pending (example_session_healthy 24)).2
        = [HostCall.add_alarm_in_ms 10000, HostCall.dns_gethostbyname "pool.ntp.org",
           HostCall.cancel_alarm 7]
    ∧ (ntp_get_time example_host_pending (example_session_healthy 24)).1.FlagSuccess
        = FLAG_OFF
    ∧ ¬ (∀ (h : get_time_host) (s : struct_ntp), s.FlagHealth = FLAG_ON → s.UpdateTime ≠ 0 →
          s.ScanCount = NTP_SCAN_FACTOR →
          (ntp_get_time h s).1.FlagSuccess = FLAG_POLL ∧ (ntp_get_time h s).2 = []) :=
  ⟨by decide, by decide, by decide, by decide, by decide, by decide, by decide, by decide,
   by decide,
   fun k => absurd (k example_host_cached (example_session_healthy 24) (by decide) (by decide)
     (by decide)).2 (by decide)⟩

/-- C16 (amended): `ntp_get_time` called on a session whose `FlagHealth` is on and whose
`UpdateTime` is already scheduled returns the Polled outcome (`FlagSuccess = FLAG_POLL`) with no
host call, so no name-resolution request and no datagram, when `ScanCount` is below the poll
budget `NTP_SCAN_FACTOR` (24), that is at most 23.  When `ScanCount` has reached the budget the
call is a read cycle: it resets `ScanCount` to 1, arms the resend timer and makes a
name-resolution request. -/
theorem ntp_get_time_budget (h : get_time_host) (s : struct_ntp) (hh : s.FlagHealth ≠ 0)
    (hu : s.UpdateTime ≠ 0) :
    (s.ScanCount < NTP_SCAN_FACTOR →
        (ntp_get_time h s).1.FlagSuccess = FLAG_POLL
        ∧ (ntp_get_time h s).2 = []
        ∧ (ntp_get_time h s).1.ScanCount = s.ScanCount + 1)
    ∧ (NTP_SCAN_FACTOR ≤ s.ScanCount →
        (ntp_get_time h s).1.ScanCount = 1
        ∧ ∃ rest : List HostCall,
            (ntp_get_time h s).2
              = [HostCall.add_alarm_in_ms 10000, HostCall.dns_gethostbyname "pool.ntp.org"]
                  ++ rest) := by
  constructor
  · intro hlt
    rw [ntp_get_time_of_poll h s ⟨hh, hlt, hu⟩]
    refine ⟨rfl, rfl, ?_⟩
    show (s.ScanCount + 1) % 256 = s.ScanCount + 1
    unfold NTP_SCAN_FACTOR at hlt
    omega
  · intro hge
    have hn : ¬ (s.FlagHealth ≠ 0 ∧ s.ScanCount < NTP_SCAN_FACTOR ∧ ¬ s.UpdateTime = 0) :=
      fun k => absurd k.2.1 (by omega)
    have he := ntp_get_time_of_read h s hn
    have hsc : (ntp_result h.now_result (-1) none (ntp_get_time_read h s)).1.ScanCount = 1 := by
      rw [ntp_result_of_failure (ntp_get_time_read h s) h.now_result (-1) none (Or.inr rfl)]
      rfl
    rw [he]
    by_cases h0 : h.ReturnCode = 0
    · rw [if_pos h0]
      exact ⟨rfl, _, rfl⟩
    · rw [if_neg h0]
      by_cases h5 : h.ReturnCode = ERR_INPROGRESS
      · rw [if_pos h5]
        exact ⟨hsc, _, rfl⟩
      · rw [if_neg h5]
        exact ⟨rfl, [], rfl⟩

/-- Witness for C16 (amended): the healthy example session polls with scan count 23 and makes a
read cycle with scan count 24. -/
theorem ntp_get_time_budget_witness :
    ((example_session_healthy 23).FlagHealth ≠ 0 ∧ (example_session_healthy 23).UpdateTime ≠ 0)
    ∧ (ntp_get_time example_host_cached (example_session_healthy 23)).1.FlagSuccess = FLAG_POLL
    ∧ (ntp_get_time example_host_cached (example_session_healthy 23)).2 = []
    ∧ (ntp_get_time example_host_cached (example_session_healthy 23)).1.ScanCount = 24
    ∧ (ntp_get_time example_host_cached (example_session_healthy 24)).1.ScanCount = 1 :=
  ⟨by decide,
   ((ntp_get_time_budget example_host_cached (example_session_healthy 23) (by decide)
      (by decide)).1 (by decide)).1,
   ((ntp_get_time_budget example_host_cached (example_session_healthy 23) (by decide)
      (by decide)).1 (by decide)).2.1,
   ((ntp_get_time_budget example_host_cached (example_session_healthy 23) (by decide)
      (by decide)).1 (by decide)).2.2,
   ((ntp_get_time_budget example_host_cached (example_session_healthy 24) (by decide)
      (by decide)).2 (by decide)).1⟩

/-- Members of the client state that the success branch of `ntp_result` leaves as they are. -/
theorem ntp_result_success_frame (ts : Int) (s : struct_ntp) :
    (ntp_result_success ts s).FlagHealth = s.FlagHealth
    ∧ (ntp_result_success ts s).TotalErrors = s.TotalErrors
    ∧ (ntp_result_success ts s).ReadCycles = s.ReadCycles
    ∧ (ntp_result_success ts s).PollCycles = s.PollCycles
    ∧ (ntp_result_success ts s).ScanCount = s.ScanCount
    ∧ (ntp_result_success ts s).Latency = s.Latency
    ∧ (ntp_result_success ts s).Send = s.Send
    ∧ (ntp_result_success ts s).Receive = s.Receive
    ∧ (ntp_result_success ts s).ServerAddress = s.ServerAddress
    ∧ (ntp_result_success ts s).Pcb = s.Pcb
    ∧ (ntp_result_success ts s).FlagInit = s.FlagInit
    ∧ (ntp_result_success ts s).DSTCountry = s.DSTCountry
    ∧ (ntp_result_success ts s).DeltaTime = s.DeltaTime := by
  obtain ⟨-, f2, f3, -, f5, f6, f7, f8, f9, f10, f11, -, -, -, f15, f16, f17, -, f19, -⟩ :=
    ntp_dst_settings_frame
      (ntp_convert_unix_time ts { s with UTCTime := ts, FlagSuccess := FLAG_ON }).2
  exact ⟨f2, f8, f9, f10, f5, f11, f15, f16, f17, f19, f3, f6, f7⟩

/-- Members of the client state that `ntp_result` leaves as they are on every call, success
or failure. -/
theorem ntp_result_client_frame (now : Nat) (ResultStatus : Int) (UnixTime : Option Int)
    (s : struct_ntp) :
    (ntp_result now ResultStatus UnixTime s).1.FlagHealth = s.FlagHealth
    ∧ (ntp_result now ResultStatus UnixTime s).1.TotalErrors = s.TotalErrors
    ∧ (ntp_result now ResultStatus UnixTime s).1.ReadCycles = s.ReadCycles
    ∧ (ntp_result now ResultStatus UnixTime s).1.PollCycles = s.PollCycles
    ∧ (ntp_result now ResultStatus UnixTime s).1.ScanCount = s.ScanCount
    ∧ (ntp_result now ResultStatus UnixTime s).1.Latency = s.Latency
    ∧ (ntp_result now ResultStatus UnixTime s).1.Send = s.Send
    ∧ (ntp_result now ResultStatus UnixTime s).1.Receive = s.Receive
    ∧ (ntp_result now ResultStatus UnixTime s).1.ServerAddress = s.ServerAddress
    ∧ (ntp_result now ResultStatus UnixTime s).1.Pcb = s.Pcb
    ∧ (ntp_result now ResultStatus UnixTime s).1.FlagInit = s.FlagInit
    ∧ (ntp_result now ResultStatus UnixTime s).1.DSTCountry = s.DSTCountry
    ∧ (ntp_result now ResultStatus UnixTime s).1.DeltaTime = s.DeltaTime := by
  obtain ⟨r, -, hr, he⟩ := ntp_result_alarm now ResultStatus UnixTime s
  have hrs : r.FlagHealth = s.FlagHealth ∧ r.TotalErrors = s.TotalErrors
      ∧ r.ReadCycles = s.ReadCycles ∧ r.PollCycles = s.PollCycles ∧ r.ScanCount = s.ScanCount
      ∧ r.Latency = s.Latency ∧ r.Send = s.Send ∧ r.Receive = s.Receive
      ∧ r.ServerAddress = s.ServerAddress ∧ r.Pcb = s.Pcb ∧ r.FlagInit = s.FlagInit
      ∧ r.DSTCountry = s.DSTCountry ∧ r.DeltaTime = s.DeltaTime := by
    rcases hr with h | ⟨t, -, -, h⟩
    · rw [h]
      exact ⟨rfl, rfl, rfl, rfl, rfl, rfl, rfl, rfl, rfl, rfl, rfl, rfl, rfl⟩
    · rw [h]
      exact ntp_result_success_frame t s
  rw [he]
  by_cases hp : r.ResendAlarm > 0
  · rw [if_pos hp]
    exact hrs
  · rw [if_neg hp]
    exact hrs

/-- A datagram that passes the test of `ntp_recv` is finalized with `ntp_result(0, &UnixTime)`,
after `Receive` and `Latency` have been written. -/
theorem ntp_recv_of_valid (recv_time now_result : Nat) (p : List Nat) (IPAddress port : Nat)
    (s : struct_ntp) (hv : ntp_recv_valid p IPAddress port s) :
    ntp_recv recv_time now_result p IPAddress port s
      = ntp_result now_result 0 (some (ntp_recv_unix_time p))
          { s with
            Receive := recv_time % 4294967296
            Latency := wrapI32 (((recv_time % 4294967296 : Nat) : Int) - (s.Send : Int)) } := by
  unfold ntp_recv
  simp only [if_pos hv]

/-- A datagram that fails the test of `ntp_recv` is finalized with `ntp_result(-1, NULL)`,
after `Receive` has been written. -/
theorem ntp_recv_of_invalid (recv_time now_result : Nat) (p : List Nat) (IPAddress port : Nat)
    (s : struct_ntp) (hv : ¬ ntp_recv_valid p IPAddress port s) :
    ntp_recv recv_time now_result p IPAddress port s
      = ntp_result now_result (-1) none { s with Receive := recv_time % 4294967296 } := by
  unfold ntp_recv
  simp only [if_neg hv]

/-- C21: what `ntp_get_time` does when it takes the read cycle and `dns_gethostbyname` returns
`ERR_INPROGRESS`.  The call does not return with the cycle outstanding: it goes on to
`ntp_result(-1, NULL)` on the session of the read cycle.  On return `FlagSuccess` and
`FlagHistory` are `FLAG_OFF`, `UpdateTime` is the time of `ntp_result` plus `NTP_RETRY` (600)
seconds, `DNSRequestSent` is false, and an alarm armed with a positive handle has been
cancelled with `cancel_alarm` and `ResendAlarm` is 0, not the handle. -/
theorem ntp_get_time_pending_finalizes (h : get_time_host) (s : struct_ntp)
    (hn : ¬ (s.FlagHealth ≠ 0 ∧ s.ScanCount < 24 ∧ s.UpdateTime ≠ 0))
    (h5 : h.ReturnCode = ERR_INPROGRESS) :
    ntp_get_time h s
      = ((ntp_result h.now_result (-1) none (ntp_get_time_read h s)).1,
         [HostCall.add_alarm_in_ms 10000, HostCall.dns_gethostbyname "pool.ntp.org"]
           ++ (if h.AlarmId > 0 then [HostCall.cancel_alarm h.AlarmId] else []))
    ∧ (ntp_get_time_read h s).ResendAlarm = h.AlarmId
    ∧ (ntp_get_time h s).1.FlagSuccess = FLAG_OFF
    ∧ (ntp_get_time h s).1.FlagHistory = FLAG_OFF
    ∧ (ntp_get_time h s).1.UpdateTime = h.now_result + 600 * 1000000
    ∧ (ntp_get_time h s).1.DNSRequestSent = false
    ∧ (ntp_get_time h s).1.ResendAlarm = (if h.AlarmId > 0 then 0 else h.AlarmId)
    ∧ (h.AlarmId > 0 →
        (ntp_get_time h s).1.ResendAlarm ≠ h.AlarmId
        ∧ HostCall.cancel_alarm h.AlarmId ∈ (ntp_get_time h s).2) := by
  have hcond : ¬ (s.FlagHealth ≠ 0 ∧ s.ScanCount < NTP_SCAN_FACTOR ∧ ¬ s.UpdateTime = 0) := hn
  have h0 : ¬ h.ReturnCode = 0 := by
    rw [h5]
    decide
  have he : ntp_get_time h s
      = ((ntp_result h.now_result (-1) none (ntp_get_time_read h s)).1,
         [HostCall.add_alarm_in_ms 10000, HostCall.dns_gethostbyname "pool.ntp.org"]
           ++ (if h.AlarmId > 0 then [HostCall.cancel_alarm h.AlarmId] else [])) := by
    rw [ntp_get_time_of_read h s hcond, if_neg h0, if_pos h5]
    rfl
  have hf := ntp_result_of_failure (ntp_get_time_read h s) h.now_result (-1) none (Or.inr rfl)
  have hid : (ntp_get_time_read h s).ResendAlarm = h.AlarmId := rfl
  rw [hid] at hf
  have h1 : (ntp_get_time h s).1
      = (ntp_result h.now_result (-1) none (ntp_get_time_read h s)).1 := by rw [he]
  have h2 : (ntp_get_time h s).2
      = [HostCall.add_alarm_in_ms 10000, HostCall.dns_gethostbyname "pool.ntp.org"]
           ++ (if h.AlarmId > 0 then [HostCall.cancel_alarm h.AlarmId] else []) := by rw [he]
  have hra : (ntp_get_time h s).1.ResendAlarm = (if h.AlarmId > 0 then 0 else h.AlarmId) := by
    rw [h1, hf]
  refine ⟨he, rfl, by rw [h1, hf], by rw [h1, hf], ?_, by rw [h1, hf], hra, fun hp => ⟨?_, ?_⟩⟩
  · rw [h1, hf]
    show h.now_result + NTP_RETRY * 1000000 = _
    unfold NTP_RETRY
    rfl
  · rw [hra, if_pos hp]
    omega
  · rw [h2, if_pos hp]
    simp

/-- Witness for C21: the example session before its first cycle, the alarm armed with the handle
7 and the name resolution pending.  On return the alarm has been cancelled, `ResendAlarm` is 0
and the update time is the retry time. -/
theorem ntp_get_time_pending_finalizes_witness :
    ¬ ((example_session 1970 0).FlagHealth ≠ 0 ∧ (example_session 1970 0).ScanCount < 24
        ∧ (example_session 1970 0).UpdateTime ≠ 0)
    ∧ example_host_pending.ReturnCode = ERR_INPROGRESS
    ∧ (ntp_get_time example_host_pending (example_session 1970 0)).2
        = [HostCall.add_alarm_in_ms 10000, HostCall.dns_gethostbyname "pool.ntp.org",
           HostCall.cancel_alarm 7]
    ∧ (ntp_get_time example_host_pending (example_session 1970 0)).1.ResendAlarm = 0
    ∧ (ntp_get_time example_host_pending (example_session 1970 0)).1.UpdateTime = 605000200
    ∧ (ntp_get_time example_host_pending (example_session 1970 0)).1.ResendAlarm ≠ 7 :=
  ⟨by decide, by decide, by decide, by decide, by decide,
   ((ntp_get_time_pending_finalizes example_host_pending (example_session 1970 0) (by decide)
      (by decide)).2.2.2.2.2.2.2 (by decide)).1⟩

/-- C22: address-resolution callback `ntp_dns_found`.  Called with no address it is
`ntp_result(-1, NULL)` on the session: `ServerAddress` is unchanged and no datagram is sent.
Called with an address `a` it stores `a` in `ServerAddress`, sends exactly one request
datagram, to `a` at port 123, and sets `Send` to the reading of the 32-bit timer; nothing else
in the session changes. -/
theorem ntp_dns_found_outcome (send_time now_result : Nat) (s : struct_ntp) :
    ntp_dns_found send_time now_result none s = ntp_result now_result (-1) none s
    ∧ (ntp_dns_found send_time now_result none s).1.ServerAddress = s.ServerAddress
    ∧ (ntp_dns_found send_time now_result none s).1.FlagSuccess = FLAG_OFF
    ∧ (∀ c ∈ (ntp_dns_found send_time now_result none s).2,
        ∀ (a port : Nat) (payload : List Nat), c ≠ HostCall.udp_sendto a port payload)
    ∧ (∀ a : Nat,
        (ntp_dns_found send_time now_result (some a) s).1.ServerAddress = a
        ∧ (ntp_dns_found send_time now_result (some a) s).2
            = [HostCall.udp_sendto a 123 (0x1B :: List.replicate 47 0)]
        ∧ (ntp_dns_found send_time now_result (some a) s).1.Send = send_time % 4294967296
        ∧ (ntp_dns_found send_time now_result (some a) s).1
            = { s with ServerAddress := a, Send := send_time % 4294967296 }) := by
  have hf := ntp_result_of_failure s now_result (-1) none (Or.inr rfl)
  obtain ⟨r, hra, -, he⟩ := ntp_result_alarm now_result (-1) none s
  have hnone : ntp_dns_found send_time now_result none s = ntp_result now_result (-1) none s :=
    rfl
  refine ⟨hnone, by rw [hnone, hf], by rw [hnone, hf], ?_, fun a => ⟨rfl, rfl, rfl, rfl⟩⟩
  intro c hc a port payload
  rw [hnone, he] at hc
  by_cases hp : r.ResendAlarm > 0
  · rw [if_pos hp] at hc
    have hc1 : c = HostCall.cancel_alarm r.ResendAlarm := by simpa using hc
    rw [hc1]
    exact fun k => HostCall.noConfusion k
  · rw [if_neg hp] at hc
    exact absurd hc (List.not_mem_nil c)

/-- Witness for C22 on the example session with the resend alarm 7 armed: with no address the
only host call is the cancellation of the alarm; with the address 16909060 one datagram is
sent to it at port 123. -/
theorem ntp_dns_found_outcome_witness :
    HostCall.cancel_alarm 7
        ∈ (ntp_dns_found 5000100 5000200 none
            { example_session 1970 0 with ResendAlarm := 7 }).2
    ∧ HostCall.cancel_alarm 7 ≠ HostCall.udp_sendto 16909060 123 (0x1B :: List.replicate 47 0)
    ∧ (ntp_dns_found 5000100 5000200 (some 16909060)
        { example_session 1970 0 with ResendAlarm := 7 }).2
          = [HostCall.udp_sendto 16909060 123 (0x1B :: List.replicate 47 0)] :=
  ⟨by decide,
   (ntp_dns_found_outcome 5000100 5000200
      { example_session 1970 0 with ResendAlarm := 7 }).2.2.2.1 (HostCall.cancel_alarm 7)
      (by decide) 16909060 123 (0x1B :: List.replicate 47 0),
   ((ntp_dns_found_outcome 5000100 5000200
      { example_session 1970 0 with ResendAlarm := 7 }).2.2.2.2 16909060).2.1⟩

/-- C23: the timeout outcome.  Taken by itself `ntp_failed_handler` finalizes the object it is
given as failed, exactly as `ntp_dns_found` with no address does, and returns 0; a rejected
reply leaves the same state but for `Receive`, which `ntp_recv` writes first.  The alarm
however is armed by `ntp_get_time` with `&StructNTP`, the address of its own parameter, and
not with the pointer to the session: when the alarm fires the handler works on what lies at
that address and the session is left as it is, not finalized.  Had the session pointer
been registered, the session would be the one left by `ntp_result(-1, NULL)`. -/
theorem alarm_fired_outcome (send_time recv_time now_result : Nat) (p : List Nat)
    (IPAddress port : Nat) (s : struct_ntp) (m : callback_memory) :
    (ntp_failed_handler now_result s).1 = ntp_result now_result (-1) none s
    ∧ (ntp_failed_handler now_result s).1 = ntp_dns_found send_time now_result none s
    ∧ (ntp_failed_handler now_result s).2 = 0
    ∧ (¬ ntp_recv_valid p IPAddress port s →
        (ntp_recv recv_time now_result p IPAddress port s).1
          = { (ntp_failed_handler now_result s).1.1 with Receive := recv_time % 4294967296 })
    ∧ ntp_get_time_alarm_user_data = user_data.address_of_StructNTP
    ∧ ntp_get_time_alarm_user_data ≠ ntp_get_time_dns_user_data
    ∧ (alarm_fired now_result ntp_get_time_alarm_user_data m).1.1.Session = m.Session
    ∧ (alarm_fired now_result ntp_get_time_alarm_user_data m).2 = 0
    ∧ (alarm_fired now_result user_data.StructNTP m).1.1.Session
        = (ntp_result now_result (-1) none m.Session).1 := by
  refine ⟨rfl, rfl, rfl, fun hv => ?_, rfl, by decide, rfl, rfl, rfl⟩
  rw [ntp_recv_of_invalid recv_time now_result p IPAddress port s hv]
  show _ = { (ntp_result now_result (-1) none s).1 with Receive := recv_time % 4294967296 }
  rw [ntp_result_of_failure s now_result (-1) none (Or.inr rfl),
    ntp_result_of_failure { s with Receive := recv_time % 4294967296 } now_result (-1) none
      (Or.inr rfl)]

/-- Witness for C23: in the example memory the session holds the armed alarm 7 and the update
time 3605 s; after the alarm has fired it still holds them, and `FlagSuccess` is still
`FLAG_POLL`. -/
theorem alarm_fired_outcome_witness :
    (alarm_fired 10000000 ntp_get_time_alarm_user_data example_memory).1.1.Session
        = example_memory.Session
    ∧ (alarm_fired 10000000 ntp_get_time_alarm_user_data example_memory).1.1.Session.ResendAlarm
        = 7
    ∧ (alarm_fired 10000000 ntp_get_time_alarm_user_data example_memory).1.1.Session.FlagSuccess
        = FLAG_POLL
    ∧ (ntp_result 10000000 (-1) none example_memory.Session).1.FlagSuccess = FLAG_OFF
    ∧ (ntp_result 10000000 (-1) none example_memory.Session).1.ResendAlarm = 0 :=
  ⟨(alarm_fired_outcome 0 0 10000000 [] 0 0 example_memory.Session example_memory).2.2.2.2.2.2.1,
   by decide, by decide, by decide, by decide⟩

/-- C24: the request datagram built by `ntp_request`.  The one host call is `udp_sendto` to the
server address at port 123 with a payload of exactly 48 bytes, byte 0 being `0x1B` and the
bytes 1..47 zero.  Byte 0 decodes as leap indicator 0 (bits 7-6), version 3 (bits 5-3) and
mode 3 (bits 2-0), so the payload itself fails the test of `ntp_recv`, whose mode must be 4,
whatever its source address and port are. -/
theorem ntp_request_datagram (send_time : Nat) (s : struct_ntp) :
    (ntp_request send_time s).2
        = [HostCall.udp_sendto s.ServerAddress 123 (0x1B :: List.replicate 47 0)]
    ∧ (∀ (a port : Nat) (payload : List Nat),
        HostCall.udp_sendto a port payload ∈ (ntp_request send_time s).2 →
          a = s.ServerAddress ∧ port = 123
          ∧ payload.length = 48
          ∧ payload.getD 0 0 = 0x1B
          ∧ (∀ i : Nat, 1 ≤ i → i < 48 → payload.getD i 0 = 0)
          ∧ payload.getD 0 0 >>> 6 = 0
          ∧ (payload.getD 0 0 >>> 3) &&& 7 = 3
          ∧ payload.getD 0 0 &&& 7 = 3
          ∧ (∀ (recv_time now_result IPAddress srcport : Nat) (e : struct_ntp),
              ¬ ntp_recv_valid payload IPAddress srcport e
              ∧ (ntp_recv recv_time now_result payload IPAddress srcport e).1.FlagSuccess
                  = FLAG_OFF)) := by
  have he : (ntp_request send_time s).2
      = [HostCall.udp_sendto s.ServerAddress 123 (0x1B :: List.replicate 47 0)] := rfl
  refine ⟨he, ?_⟩
  intro a port payload hmem
  rw [he] at hmem
  simp only [List.mem_singleton, HostCall.udp_sendto.injEq] at hmem
  obtain ⟨h1, h2, h3⟩ := hmem
  rw [h1, h2, h3]
  refine ⟨rfl, rfl, by decide, by decide, ?_, by decide, by decide, by decide, ?_⟩
  · intro i h1 h2
    interval_cases i <;> rfl
  · intro recv_time now_result IPAddress srcport e
    have hv : ¬ ntp_recv_valid (0x1B :: List.replicate 47 0) IPAddress srcport e :=
      fun k => absurd k.2.2.2.1 (by decide)
    refine ⟨hv, ?_⟩
    rw [ntp_recv_of_invalid recv_time now_result _ IPAddress srcport e hv]
    exact (ntp_result_flag_success now_result 0 _).2

/-- Witness for C24: the request of the example session; byte 47 of the payload is zero and
the payload, sent back from the server address and port 123, is rejected. -/
theorem ntp_request_datagram_witness :
    HostCall.udp_sendto 0 123 (0x1B :: List.replicate 47 0)
        ∈ (ntp_request 5000100 (example_session 1970 0)).2
    ∧ (0x1B :: List.replicate 47 0 : List Nat).getD 47 0 = 0
    ∧ (ntp_recv 5000300 5000400 (0x1B :: List.replicate 47 0) 0 123
        (example_session 1970 0)).1.FlagSuccess = FLAG_OFF :=
  ⟨by decide,
   ((ntp_request_datagram 5000100 (example_session 1970 0)).2 0 123
      (0x1B :: List.replicate 47 0) (by decide)).2.2.2.2.1 47 (by decide) (by decide),
   (((ntp_request_datagram 5000100 (example_session 1970 0)).2 0 123
      (0x1B :: List.replicate 47 0) (by decide)).2.2.2.2.2.2.2.2
      5000300 5000400 0 123 (example_session 1970 0)).2⟩

/-- C25: latency measurement.  For every accepted reply `Receive` is the reading of the 32-bit
microsecond timer and `Latency` is `Receive - Send` computed modulo 2^32 and read as a signed
32-bit number.  Hence, when `Send` holds the low 32 bits of the time `t_send` of the request
and the reply comes at the time `t_recv` with `t_recv - t_send` below 2^31, `Latency` is the
true elapsed time `t_recv - t_send` in microseconds, also when the 32-bit timer has wrapped
around between the two readings.  On a rejected reply `Latency` is unchanged. -/
theorem ntp_recv_latency (t_recv now_result : Nat) (p : List Nat) (IPAddress port : Nat)
    (s : struct_ntp) :
    (ntp_recv_valid p IPAddress port s →
        (ntp_recv t_recv now_result p IPAddress port s).1.Receive = t_recv % 2 ^ 32
        ∧ (ntp_recv t_recv now_result p IPAddress port s).1.Send = s.Send
        ∧ (ntp_recv t_recv now_result p IPAddress port s).1.Latency
            = wrapI32 (((t_recv % 2 ^ 32 : Nat) : Int) - (s.Send : Int))
        ∧ (ntp_recv t_recv now_result p IPAddress port s).1.Latency
            = ((((t_recv % 2 ^ 32 : Nat) : Int) - (s.Send : Int)) + 2 ^ 31) % 2 ^ 32 - 2 ^ 31
        ∧ (∀ t_send : Nat, s.Send = t_send % 2 ^ 32 → t_send ≤ t_recv →
            t_recv - t_send < 2 ^ 31 →
            (ntp_recv t_recv now_result p IPAddress port s).1.Latency
              = ((t_recv - t_send : Nat) : Int)))
    ∧ (¬ ntp_recv_valid p IPAddress port s →
        (ntp_recv t_recv now_result p IPAddress port s).1.Latency = s.Latency) := by
  have h32 : (2 : Nat) ^ 32 = 4294967296 := by norm_num
  have h31 : (2 : Nat) ^ 31 = 2147483648 := by norm_num
  have i32 : (2 : Int) ^ 32 = 4294967296 := by norm_num
  have i31 : (2 : Int) ^ 31 = 2147483648 := by norm_num
  rw [h32, h31, i32, i31]
  constructor
  · intro hv
    rw [ntp_recv_of_valid t_recv now_result p IPAddress port s hv]
    obtain ⟨-, -, -, -, -, f6, f7, f8, -⟩ := ntp_result_client_frame now_result 0
      (some (ntp_recv_unix_time p))
      { s with
        Receive := t_recv % 4294967296
        Latency := wrapI32 (((t_recv % 4294967296 : Nat) : Int) - (s.Send : Int)) }
    have hl : (ntp_result now_result 0 (some (ntp_recv_unix_time p))
        { s with
          Receive := t_recv % 4294967296
          Latency := wrapI32 (((t_recv % 4294967296 : Nat) : Int) - (s.Send : Int)) }).1.Latency
        = wrapI32 (((t_recv % 4294967296 : Nat) : Int) - (s.Send : Int)) := f6
    refine ⟨f8, f7, hl, ?_, ?_⟩
    · rw [hl]
      rfl
    · intro t_send hs hle hlt
      rw [hl, hs]
      unfold wrapI32
      omega
  · intro hv
    rw [ntp_recv_of_invalid t_recv now_result p IPAddress port s hv]
    exact (ntp_result_client_frame now_result (-1) none
      { s with Receive := t_recv % 4294967296 }).2.2.2.2.2.1

/-- Witness for C25: the request is sent 100 microseconds before the 32-bit timer wraps around
(`Send = 4294967196`) and the example reply is received 50 microseconds after it has
wrapped (`Receive = 50`): the latency is 150 microseconds. -/
theorem ntp_recv_latency_witness :
    ntp_recv_valid (example_reply 2) 0 123 { example_session 1970 0 with Send := 4294967196 }
    ∧ (ntp_recv 4294967346 5000400 (example_reply 2) 0 123
        { example_session 1970 0 with Send := 4294967196 }).1.Receive = 50
    ∧ (ntp_recv 4294967346 5000400 (example_reply 2) 0 123
        { example_session 1970 0 with Send := 4294967196 }).1.Latency
          = ((4294967346 - 4294967196 : Nat) : Int)
    ∧ (ntp_recv 4294967346 5000400 (example_reply 2) 0 123
        { example_session 1970 0 with Send := 4294967196 }).1.Latency = 150 :=
  ⟨by decide, by decide,
   ((ntp_recv_latency 4294967346 5000400 (example_reply 2) 0 123
      { example_session 1970 0 with Send := 4294967196 }).1 (by decide)).2.2.2.2
      4294967196 (by decide) (by decide) (by decide),
   by decide⟩

/-- No operation of the client that works on the session changes `TotalErrors` or
`FlagHealth`. -/
theorem client_step_frame (op : client_operation) (s : struct_ntp) :
    (client_step op s).TotalErrors = s.TotalErrors
    ∧ (client_step op s).FlagHealth = s.FlagHealth := by
  cases op with
  | get_time h =>
    show (ntp_get_time h s).1.TotalErrors = _ ∧ (ntp_get_time h s).1.FlagHealth = _
    by_cases hp : s.FlagHealth ≠ 0 ∧ s.ScanCount < NTP_SCAN_FACTOR ∧ ¬ s.UpdateTime = 0
    · rw [ntp_get_time_of_poll h s hp]
      exact ⟨rfl, rfl⟩
    · rw [ntp_get_time_of_read h s hp]
      by_cases h0 : h.ReturnCode = 0
      · rw [if_pos h0]
        exact ⟨rfl, rfl⟩
      · rw [if_neg h0]
        by_cases h5 : h.ReturnCode = ERR_INPROGRESS
        · rw [if_pos h5]
          obtain ⟨f1, f2, -⟩ := ntp_result_client_frame h.now_result (-1) none
            (ntp_get_time_read h s)
          exact ⟨f2, f1⟩
        · rw [if_neg h5]
          exact ⟨rfl, rfl⟩
  | dns_found send_time now_result ipaddr =>
    cases ipaddr with
    | none =>
      obtain ⟨f1, f2, -⟩ := ntp_result_client_frame now_result (-1) none s
      exact ⟨f2, f1⟩
    | some a => exact ⟨rfl, rfl⟩
  | recv recv_time now_result p IPAddress port =>
    show (ntp_recv recv_time now_result p IPAddress port s).1.TotalErrors = _
      ∧ (ntp_recv recv_time now_result p IPAddress port s).1.FlagHealth = _
    by_cases hv : ntp_recv_valid p IPAddress port s
    · rw [ntp_recv_of_valid recv_time now_result p IPAddress port s hv]
      obtain ⟨f1, f2, -⟩ := ntp_result_client_frame now_result 0 (some (ntp_recv_unix_time p))
        { s with
          Receive := recv_time % 4294967296
          Latency := wrapI32 (((recv_time % 4294967296 : Nat) : Int) - (s.Send : Int)) }
      exact ⟨f2, f1⟩
    · rw [ntp_recv_of_invalid recv_time now_result p IPAddress port s hv]
      obtain ⟨f1, f2, -⟩ := ntp_result_client_frame now_result (-1) none
        { s with Receive := recv_time % 4294967296 }
      exact ⟨f2, f1⟩
  | result now ResultStatus UnixTime =>
    obtain ⟨f1, f2, -⟩ := ntp_result_client_frame now ResultStatus UnixTime s
    exact ⟨f2, f1⟩
  | request send_time => exact ⟨rfl, rfl⟩
  | failed_handler now_result =>
    obtain ⟨f1, f2, -⟩ := ntp_result_client_frame now_result (-1) none s
    exact ⟨f2, f1⟩
  | dst_settings =>
    obtain ⟨-, f2, -, -, -, -, -, f8, -⟩ := ntp_dst_settings_frame s
    exact ⟨f8, f2⟩
  | convert_unix_time UnixTime => exact ⟨rfl, rfl⟩

/-- No sequence of operations of the client changes `TotalErrors` or `FlagHealth`. -/
theorem client_steps_frame (ops : List client_operation) :
    ∀ s : struct_ntp, (client_steps ops s).TotalErrors = s.TotalErrors
      ∧ (client_steps ops s).FlagHealth = s.FlagHealth := by
  induction ops with
  | nil => exact fun s => ⟨rfl, rfl⟩
  | cons op rest ih =>
    intro s
    have h1 := client_step_frame op s
    have h2 := ih (client_step op s)
    have he : client_steps (op :: rest) s = client_steps rest (client_step op s) := rfl
    rw [he]
    exact ⟨h2.1.trans h1.1, h2.2.trans h1.2⟩

/-- Error count and health flag after a run of at least one failed cycle: the count is
increased once, and only if the health flag was on at the start of the run. -/
theorem failed_cycles_total (cycles : List (List client_operation)) :
    ∀ s : struct_ntp, cycles ≠ [] →
      (failed_cycles cycles s).TotalErrors
          = (if s.FlagHealth = FLAG_ON then (s.TotalErrors + 1) % 4294967296
             else s.TotalErrors)
      ∧ (failed_cycles cycles s).FlagHealth = FLAG_OFF := by
  induction cycles with
  | nil => exact fun s h => absurd rfl h
  | cons ops rest ih =>
    intro s _
    have he : failed_cycles (ops :: rest) s
        = failed_cycles rest (main_on_failure (client_steps ops s)) := rfl
    obtain ⟨c1, c2⟩ := client_steps_frame ops s
    have t1 : (main_on_failure (client_steps ops s)).TotalErrors
        = (if s.FlagHealth = FLAG_ON then (s.TotalErrors + 1) % 4294967296
           else s.TotalErrors) := by
      show (if (client_steps ops s).FlagHealth = FLAG_ON
            then ((client_steps ops s).TotalErrors + 1) % 4294967296
            else (client_steps ops s).TotalErrors) = _
      rw [c1, c2]
    have t2 : (main_on_failure (client_steps ops s)).FlagHealth = FLAG_OFF := rfl
    rw [he]
    by_cases hr : rest = []
    · rw [hr]
      exact ⟨t1, t2⟩
    · obtain ⟨i1, i2⟩ := ih (main_on_failure (client_steps ops s)) hr
      have hoff : ¬ (FLAG_OFF = FLAG_ON) := by decide
      rw [t2, if_neg hoff] at i1
      exact ⟨i1.trans t1, i2⟩

/-- C26: debounced error accounting.  In the handling by the driving loop of a failed cycle,
`TotalErrors` is increased by exactly 1 (a `UINT32`, so modulo 2^32) if `FlagHealth` was
`FLAG_ON` and is unchanged otherwise, and `FlagHealth` is `FLAG_OFF` afterwards.  No
operation of the client on the session changes `TotalErrors` or `FlagHealth`, and `ntp_init`
resets `TotalErrors` to 0.  Hence over any run of consecutive failed cycles, with any
operations of the client in between and no success, `TotalErrors` is increased at most once:
once if the health flag was on at the start, not at all otherwise. -/
theorem debounced_error_accounting (s : struct_ntp) :
    (s.FlagHealth = FLAG_ON →
        (main_on_failure s).TotalErrors = (s.TotalErrors + 1) % 4294967296
        ∧ (s.TotalErrors < 4294967295 → (main_on_failure s).TotalErrors = s.TotalErrors + 1))
    ∧ (s.FlagHealth ≠ FLAG_ON → (main_on_failure s).TotalErrors = s.TotalErrors)
    ∧ (main_on_failure s).FlagHealth = FLAG_OFF
    ∧ (main_on_failure (main_on_failure s)).TotalErrors = (main_on_failure s).TotalErrors
    ∧ (∀ Loop1UInt16 : Nat, Loop1UInt16 ≥ 10 → main_after_checks Loop1UInt16 s = main_on_failure s)
    ∧ (∀ Loop1UInt16 : Nat, Loop1UInt16 < 10 → main_after_checks Loop1UInt16 s = s)
    ∧ (∀ op : client_operation, (client_step op s).TotalErrors = s.TotalErrors
        ∧ (client_step op s).FlagHealth = s.FlagHealth)
    ∧ (∀ Pcb : Nat, (ntp_init Pcb s).1.1.TotalErrors = 0)
    ∧ (∀ cycles : List (List client_operation),
        ((failed_cycles cycles s).TotalErrors = s.TotalErrors
          ∨ (failed_cycles cycles s).TotalErrors = (s.TotalErrors + 1) % 4294967296)
        ∧ (cycles ≠ [] → s.FlagHealth = FLAG_ON →
            (failed_cycles cycles s).TotalErrors = (s.TotalErrors + 1) % 4294967296)
        ∧ (s.FlagHealth ≠ FLAG_ON → (failed_cycles cycles s).TotalErrors = s.TotalErrors)
        ∧ (cycles ≠ [] → (failed_cycles cycles s).FlagHealth = FLAG_OFF)) := by
  have hon : s.FlagHealth = FLAG_ON →
      (main_on_failure s).TotalErrors = (s.TotalErrors + 1) % 4294967296 := by
    intro h
    show (if s.FlagHealth = FLAG_ON then (s.TotalErrors + 1) % 4294967296
          else s.TotalErrors) = _
    rw [if_pos h]
  have hoff : s.FlagHealth ≠ FLAG_ON → (main_on_failure s).TotalErrors = s.TotalErrors := by
    intro h
    show (if s.FlagHealth = FLAG_ON then (s.TotalErrors + 1) % 4294967296
          else s.TotalErrors) = _
    rw [if_neg h]
  refine ⟨fun h => ⟨hon h, fun hlt => ?_⟩, hoff, rfl, ?_, fun n hn => ?_, fun n hn => ?_,
    fun op => client_step_frame op s, fun Pcb => ?_, fun cycles => ?_⟩
  · rw [hon h]
    omega
  · show (if (main_on_failure s).FlagHealth = FLAG_ON
          then ((main_on_failure s).TotalErrors + 1) % 4294967296
          else (main_on_failure s).TotalErrors) = _
    have h2 : (main_on_failure s).FlagHealth = FLAG_OFF := rfl
    rw [h2, if_neg (by decide)]
  · unfold main_after_checks MAX_NTP_CHECKS
    rw [if_pos hn]
  · unfold main_after_checks MAX_NTP_CHECKS
    rw [if_neg (by omega)]
  · unfold ntp_init
    dsimp only
    split_ifs <;> rfl
  · by_cases hc : cycles = []
    · rw [hc]
      exact ⟨Or.inl rfl, fun k => absurd rfl k, fun _ => rfl, fun k => absurd rfl k⟩
    · obtain ⟨t1, t2⟩ := failed_cycles_total cycles s hc
      by_cases hh : s.FlagHealth = FLAG_ON
      · rw [if_pos hh] at t1
        exact ⟨Or.inr t1, fun _ _ => t1, fun k => absurd hh k, fun _ => t2⟩
      · rw [if_neg hh] at t1
        exact ⟨Or.inl t1, fun _ k => absurd k hh, fun _ => t1, fun _ => t2⟩

/-- Witness for C26: the healthy example session with 4 errors counted.  The handling of a
failed cycle counts a fifth error and switches the health flag off; after three failed
cycles, each with a read cycle of the client and a time-out, the count is still 5. -/
theorem debounced_error_accounting_witness :
    ({ example_session_healthy 24 with TotalErrors := 4 } : struct_ntp).FlagHealth = FLAG_ON
    ∧ (main_on_failure { example_session_healthy 24 with TotalErrors := 4 }).TotalErrors = 5
    ∧ (failed_cycles
        [[client_operation.get_time example_host_cached, client_operation.failed_handler 9000000],
         [client_operation.get_time example_host_pending],
         [client_operation.get_time example_host_cached,
          client_operation.dns_found 1 2 none]]
        { example_session_healthy 24 with TotalErrors := 4 }).TotalErrors
          = (({ example_session_healthy 24 with TotalErrors := 4 } : struct_ntp).TotalErrors + 1)
              % 4294967296 :=
  ⟨by decide,
   ((debounced_error_accounting { example_session_healthy 24 with TotalErrors := 4 }).1
      (by decide)).2 (by decide),
   ((debounced_error_accounting
      { example_session_healthy 24 with TotalErrors := 4 }).2.2.2.2.2.2.2.2 _).2.1
      (by simp) (by decide)⟩

/-- C27: outcome of `ntp_init`.  It returns 0 and leaves `FlagInit = FLAG_ON` if and only if the
network endpoint was allocated (`udp_new_ip_type` returned a non-null `Pcb`), and returns 1
with `FlagInit = FLAG_OFF` if and only if the allocation failed; the receive callback is
registered with `udp_recv` in the first case and not in the second.  In both cases
`FlagSuccess`, `FlagHealth`, `FlagHistory` and `FlagSummerTime` are `FLAG_OFF`, `ScanCount`,
`TotalErrors`, `ReadCycles` and `PollCycles` are 0, `UpdateTime` is nil, and `UTCTime` is
`LocalTime - DeltaTime * 60` of the session on entry (in `time_t` arithmetic; the plain
difference when it is in the 64-bit range). -/
theorem ntp_init_outcome (Pcb : Nat) (s : struct_ntp) :
    ((ntp_init Pcb s).2 = 0 ↔ Pcb ≠ 0)
    ∧ ((ntp_init Pcb s).2 = 1 ↔ Pcb = 0)
    ∧ ((ntp_init Pcb s).1.1.FlagInit = FLAG_ON ↔ Pcb ≠ 0)
    ∧ ((ntp_init Pcb s).1.1.FlagInit = FLAG_OFF ↔ Pcb = 0)
    ∧ (Pcb ≠ 0 →
        (ntp_init Pcb s).1.2 = [HostCall.udp_new_ip_type, HostCall.udp_recv Pcb])
    ∧ (Pcb = 0 → (ntp_init Pcb s).1.2 = [HostCall.udp_new_ip_type]
        ∧ ∀ e : Nat, HostCall.udp_recv e ∉ (ntp_init Pcb s).1.2)
    ∧ (ntp_init Pcb s).1.1.FlagSuccess = FLAG_OFF
    ∧ (ntp_init Pcb s).1.1.FlagHealth = FLAG_OFF
    ∧ (ntp_init Pcb s).1.1.FlagHistory = FLAG_OFF
    ∧ (ntp_init Pcb s).1.1.FlagSummerTime = FLAG_OFF
    ∧ (ntp_init Pcb s).1.1.ScanCount = 0
    ∧ (ntp_init Pcb s).1.1.TotalErrors = 0
    ∧ (ntp_init Pcb s).1.1.ReadCycles = 0
    ∧ (ntp_init Pcb s).1.1.PollCycles = 0
    ∧ (ntp_init Pcb s).1.1.UpdateTime = 0
    ∧ (ntp_init Pcb s).1.1.Pcb = Pcb
    ∧ (ntp_init Pcb s).1.1.UTCTime = wrapI64 (s.LocalTime - s.DeltaTime * 60)
    ∧ (-9223372036854775808 ≤ s.LocalTime - s.DeltaTime * 60
        ∧ s.LocalTime - s.DeltaTime * 60 < 9223372036854775808 →
        (ntp_init Pcb s).1.1.UTCTime = s.LocalTime - s.DeltaTime * 60) := by
  have hon : ¬ (FLAG_ON = FLAG_OFF) := by decide
  have hoff : ¬ (FLAG_OFF = FLAG_ON) := by decide
  by_cases hp : Pcb = 0
  · have he : ntp_init Pcb s
        = (({ s with
              FlagSuccess := FLAG_OFF
              FlagHealth := FLAG_OFF
              FlagHistory := FLAG_OFF
              FlagInit := FLAG_OFF
              FlagSummerTime := FLAG_OFF
              ScanCount := 0
              TotalErrors := 0
              ReadCycles := 0
              PollCycles := 0
              UpdateTime := 0
              UTCTime := wrapI64 (s.LocalTime - s.DeltaTime * 60)
              Pcb := Pcb },
            [HostCall.udp_new_ip_type]), 1) := by
      unfold ntp_init
      dsimp only
      rw [if_pos hp]
    rw [he]
    refine ⟨⟨fun h => absurd h (show ¬ ((1 : Nat) = 0) by decide), fun h => absurd hp h⟩,
      ⟨fun _ => hp, fun _ => rfl⟩,
      ⟨fun h => absurd h hoff, fun h => absurd hp h⟩, ⟨fun _ => hp, fun _ => rfl⟩,
      fun h => absurd hp h, fun _ => ⟨rfl, fun e k => ?_⟩, rfl, rfl, rfl, rfl, rfl, rfl, rfl, rfl,
      rfl, rfl, rfl, fun hr => wrapI64_of_range _ hr.1 hr.2⟩
    simp at k
  · have he : ntp_init Pcb s
        = (({ s with
              FlagSuccess := FLAG_OFF
              FlagHealth := FLAG_OFF
              FlagHistory := FLAG_OFF
              FlagInit := FLAG_ON
              FlagSummerTime := FLAG_OFF
              ScanCount := 0
              TotalErrors := 0
              ReadCycles := 0
              PollCycles := 0
              UpdateTime := 0
              UTCTime := wrapI64 (s.LocalTime - s.DeltaTime * 60)
              Pcb := Pcb },
            [HostCall.udp_new_ip_type, HostCall.udp_recv Pcb]), 0) := by
      unfold ntp_init
      dsimp only
      rw [if_neg hp]
    rw [he]
    exact ⟨⟨fun _ => hp, fun _ => rfl⟩,
      ⟨fun h => absurd h (show ¬ ((0 : Nat) = 1) by decide), fun h => absurd h hp⟩,
      ⟨fun _ => hp, fun _ => rfl⟩, ⟨fun h => absurd h hon, fun h => absurd h hp⟩,
      fun _ => rfl, fun h => absurd h hp, rfl, rfl, rfl, rfl, rfl, rfl, rfl, rfl,
      rfl, rfl, rfl, fun hr => wrapI64_of_range _ hr.1 hr.2⟩

/-- Witness for C27: the healthy example session holding the local time 1751313600.  With the
endpoint 536900000 allocated `ntp_init` returns 0, registers the callback and leaves
`UTCTime = 1751313600 + 300 * 60`; with no endpoint it returns 1 and registers nothing. -/
theorem ntp_init_outcome_witness :
    (ntp_init 536900000 { example_session_healthy 5 with LocalTime := 1751313600 }).2 = 0
    ∧ (ntp_init 536900000 { example_session_healthy 5 with LocalTime := 1751313600 }).1.2
        = [HostCall.udp_new_ip_type, HostCall.udp_recv 536900000]
    ∧ (ntp_init 536900000 { example_session_healthy 5 with LocalTime := 1751313600 }).1.1.UTCTime
        = ({ example_session_healthy 5 with LocalTime := 1751313600 } : struct_ntp).LocalTime
          - ({ example_session_healthy 5 with LocalTime := 1751313600 } : struct_ntp).DeltaTime
            * 60
    ∧ (ntp_init 536900000 { example_session_healthy 5 with LocalTime := 1751313600 }).1.1.UTCTime
        = 1751331600
    ∧ (ntp_init 0 { example_session_healthy 5 with LocalTime := 1751313600 }).2 = 1
    ∧ (ntp_init 0 { example_session_healthy 5 with LocalTime := 1751313600 }).1.2
        = [HostCall.udp_new_ip_type] :=
  ⟨(ntp_init_outcome 536900000
      { example_session_healthy 5 with LocalTime := 1751313600 }).1.2 (by decide),
   (ntp_init_outcome 536900000
      { example_session_healthy 5 with LocalTime := 1751313600 }).2.2.2.2.1 (by decide),
   (ntp_init_outcome 536900000
      { example_session_healthy 5 with LocalTime := 1751313600 }).2.2.2.2.2.2.2.2.2.2.2.2.2.2.2.2.2
      (by decide),
   by decide,
   (ntp_init_outcome 0 { example_session_healthy 5 with LocalTime := 1751313600 }).2.1.2 rfl,
   ((ntp_init_outcome 0
      { example_session_healthy 5 with LocalTime := 1751313600 }).2.2.2.2.2.1 rfl).1⟩

/-- C30: year clamping in `ntp_get_day_of_year`.  For every day, every month in 1..12 and every
year below 2000 or above 2100 the result is that of the same day and month of 2024: the
function returns a value whatever the year is and counts with the month lengths of the leap
year 2024.  So 1 March of 1999 and of 2101 both give 61. -/
theorem ntp_get_day_of_year_default_year (day month year : Nat)
    (hm : 1 ≤ month ∧ month ≤ 12) (hy : year < 2000 ∨ year > 2100) :
    ntp_get_day_of_year day month year = ntp_get_day_of_year day month 2024
    ∧ (day < 256 →
        ntp_get_day_of_year day month year
          = day + ∑ i in Finset.Ico 1 month, ntp_get_month_days i 2024)
    ∧ ntp_get_month_days 2 2024 = 29
    ∧ ntp_get_day_of_year 1 3 1999 = 61
    ∧ ntp_get_day_of_year 1 3 2101 = 61
    ∧ ntp_get_day_of_year 1 3 2024 = 61 := by
  refine ⟨ntp_get_day_of_year_clamp day month year hy, fun hd => ?_, by decide, by decide,
    by decide, by decide⟩
  rw [ntp_get_day_of_year_clamp day month year hy]
  exact ntp_get_day_of_year_eq day month 2024 hd hm (by decide)

/-- Witness for C30: 1 March of the year 2101 is counted as 1 March 2024, day 61, although 2101
is not a leap year. -/
theorem ntp_get_day_of_year_default_year_witness :
    ((1 : Nat) ≤ 3 ∧ (3 : Nat) ≤ 12) ∧ ((2101 : Nat) < 2000 ∨ (2101 : Nat) > 2100)
    ∧ ntp_get_day_of_year 1 3 2101 = ntp_get_day_of_year 1 3 2024
    ∧ ntp_get_day_of_year 1 3 2101 = 61 :=
  ⟨by decide, by decide,
   (ntp_get_day_of_year_default_year 1 3 2101 (by decide) (by decide)).1, by decide⟩

/-- Every day number from 2000-01-01 on is the day number of a valid date of a year from 2000
on. -/
theorem exists_civil_of_day (n : Nat) :
    ∃ y m d : Nat, 2000 ≤ y ∧ (1 ≤ m ∧ m ≤ 12) ∧ (1 ≤ d ∧ d ≤ ntp_get_month_days m y)
      ∧ days_from_civil y m d = 10957 + (n : Int) := by
  induction n with
  | zero => exact ⟨2000, 1, 1, by decide, by decide, by decide, by decide⟩
  | succ k ih =>
    obtain ⟨y, m, d, hy, hm, hd, he⟩ := ih
    obtain ⟨n1, n2, n3⟩ := days_from_civil_next_day y m d (by omega) hm hd
    by_cases h1 : d < ntp_get_month_days m y
    · refine ⟨y, m, d + 1, hy, hm, ⟨by omega, by omega⟩, ?_⟩
      rw [n1 h1, he]
      push_cast
      ring
    · have hde : d = ntp_get_month_days m y := by omega
      by_cases h2 : m < 12
      · have hmd : 1 ≤ ntp_get_month_days (m + 1) y := by
          obtain ⟨hm1, hm2⟩ := hm
          unfold ntp_get_month_days
          split_ifs <;> omega
        refine ⟨y, m + 1, 1, hy, ⟨by omega, by omega⟩, ⟨le_refl 1, hmd⟩, ?_⟩
        have e1 : ((1 : Nat) : Int) = 1 := rfl
        rw [e1, n2 hde h2, he]
        push_cast
        ring
      · have hm12 : m = 12 := by omega
        refine ⟨y + 1, 1, 1, by omega, by decide, ⟨le_refl 1, by simp [ntp_get_month_days]⟩, ?_⟩
        have e1 : ((1 : Nat) : Int) = 1 := rfl
        rw [e1, n3 hde hm12, he]
        push_cast
        ring

/-- A date whose day number is before that of 2101-01-01 is of a year up to 2100. -/
theorem days_from_civil_year_le (y m d : Nat) (hm : 1 ≤ m ∧ m ≤ 12) (hd : 1 ≤ d)
    (hz : days_from_civil y m d < 47847) : y ≤ 2100 := by
  by_contra hc
  unfold days_from_civil at hz
  dsimp only at hz
  split_ifs at hz <;> omega

/-- The civil date of a Unix time of the years 2000..2100: there is a valid date of such a year
whose day number is the day of the Unix time, and `civil_from_days` gives that date. -/
theorem civil_of_unix_time (u : Int) (hu : 946684800 ≤ u ∧ u < 4133980800) :
    ∃ y m d : Nat, (2000 ≤ y ∧ y ≤ 2100) ∧ (1 ≤ m ∧ m ≤ 12)
      ∧ (1 ≤ d ∧ d ≤ ntp_get_month_days m y)
      ∧ days_from_civil y m d = u / 86400
      ∧ civil_from_days (u / 86400)
          = ((y : Int), (m : Int) - 1, (d : Int),
              ((∑ j in Finset.Ico 1 m, ntp_get_month_days j y : Nat) : Int) + d - 1) := by
  have h1 : 10957 ≤ u / 86400 := by omega
  have h2 : u / 86400 < 47847 := by omega
  obtain ⟨y, m, d, hy, hm, hd, he⟩ := exists_civil_of_day (u / 86400 - 10957).toNat
  have he2 : days_from_civil y m d = u / 86400 := by
    rw [he]
    omega
  have hy2 : y ≤ 2100 := days_from_civil_year_le y m d hm hd.1 (by rw [he2]; exact h2)
  refine ⟨y, m, d, ⟨hy, hy2⟩, hm, hd, he2, ?_⟩
  rw [← he2]
  exact civil_from_days_days_from_civil y m d (by omega) hm hd

/-- The members of the `HumanTime` written by `ntp_convert_unix_time` for a Unix time of the
years 2000..2100, in terms of the civil date `y`-`m`-`d` of the Unix time: year, month and
day of the month are those of the date, the day of the week is the day number plus 4 modulo
7, and the day of the year is the `tm_yday` of `localtime`, counted from 0. -/
theorem ntp_convert_unix_time_civil (u : Int) (s : struct_ntp)
    (hu : 946684800 ≤ u ∧ u < 4133980800) :
    ∃ y m d : Nat, (2000 ≤ y ∧ y ≤ 2100) ∧ (1 ≤ m ∧ m ≤ 12)
      ∧ (1 ≤ d ∧ d ≤ ntp_get_month_days m y)
      ∧ days_from_civil y m d = u / 86400
      ∧ (ntp_convert_unix_time u s).2.HumanTime.Year = y
      ∧ (ntp_convert_unix_time u s).2.HumanTime.Month = m
      ∧ (ntp_convert_unix_time u s).2.HumanTime.DayOfMonth = d
      ∧ ((ntp_convert_unix_time u s).2.HumanTime.DayOfWeek : Int) = (u / 86400 + 4) % 7
      ∧ (ntp_convert_unix_time u s).2.HumanTime.DayOfYear + 1
          = d + ∑ j in Finset.Ico 1 m, ntp_get_month_days j y
      ∧ (localtime u).tm_yday
          = ((∑ j in Finset.Ico 1 m, ntp_get_month_days j y : Nat) : Int) + d - 1 := by
  obtain ⟨y, m, d, hy, hm, hd, he, hc⟩ := civil_of_unix_time u hu
  have hd31 := ntp_get_month_days_le m y
  have hsum := sum_month_days_le y m
  have hY : (ntp_convert_unix_time u s).2.HumanTime.Year
      = toU16 ((civil_from_days (u / 86400)).1 - 1900 + 1900) := rfl
  have hM : (ntp_convert_unix_time u s).2.HumanTime.Month
      = toU8 ((civil_from_days (u / 86400)).2.1 + 1) := rfl
  have hD : (ntp_convert_unix_time u s).2.HumanTime.DayOfMonth
      = toU8 (civil_from_days (u / 86400)).2.2.1 := rfl
  have hW : (ntp_convert_unix_time u s).2.HumanTime.DayOfWeek
      = toU8 ((u / 86400 + 4) % 7) := rfl
  have hJ : (ntp_convert_unix_time u s).2.HumanTime.DayOfYear
      = toU16 (civil_from_days (u / 86400)).2.2.2 := rfl
  have hT : (localtime u).tm_yday = (civil_from_days (u / 86400)).2.2.2 := rfl
  rw [hc] at hY hM hD hJ hT
  refine ⟨y, m, d, hy, hm, hd, he, ?_, ?_, ?_, ?_, ?_, hT⟩
  · rw [hY]
    show toU16 ((y : Int) - 1900 + 1900) = y
    unfold toU16
    omega
  · rw [hM]
    show toU8 ((m : Int) - 1 + 1) = m
    unfold toU8
    omega
  · rw [hD]
    show toU8 (d : Int) = d
    unfold toU8
    omega
  · rw [hW]
    unfold toU8
    omega
  · rw [hJ]
    show toU16 (((∑ j in Finset.Ico 1 m, ntp_get_month_days j y : Nat) : Int) + d - 1) + 1 = _
    generalize (∑ j in Finset.Ico 1 m, ntp_get_month_days j y) = S at hsum
    unfold toU16
    omega

/-- C28: derived weekday consistency.  For every Unix timestamp `u` of the UTC years 2000..2100
(from 2000-01-01 00:00:00, Unix time 946684800, to 2100-12-31 23:59:59, the second before
4133980800), the `HumanTime` produced by `ntp_convert_unix_time(u)` has a year in 2000..2100
and satisfies `DayOfWeek = ntp_get_day_of_week(DayOfMonth, Month, Year)`. -/
theorem ntp_convert_unix_time_weekday (u : Int) (s : struct_ntp)
    (hu : 946684800 ≤ u ∧ u < 4133980800) :
    (ntp_convert_unix_time u s).2.HumanTime.DayOfWeek
        = ntp_get_day_of_week (ntp_convert_unix_time u s).2.HumanTime.DayOfMonth
            (ntp_convert_unix_time u s).2.HumanTime.Month
            (ntp_convert_unix_time u s).2.HumanTime.Year
    ∧ (2000 ≤ (ntp_convert_unix_time u s).2.HumanTime.Year
        ∧ (ntp_convert_unix_time u s).2.HumanTime.Year ≤ 2100)
    ∧ (1 ≤ (ntp_convert_unix_time u s).2.HumanTime.Month
        ∧ (ntp_convert_unix_time u s).2.HumanTime.Month ≤ 12)
    ∧ (1 ≤ (ntp_convert_unix_time u s).2.HumanTime.DayOfMonth
        ∧ (ntp_convert_unix_time u s).2.HumanTime.DayOfMonth
            ≤ ntp_get_month_days (ntp_convert_unix_time u s).2.HumanTime.Month
                (ntp_convert_unix_time u s).2.HumanTime.Year)
    ∧ (ntp_convert_unix_time u s).2.HumanTime.DayOfWeek ≤ 6
    ∧ mktime (ntp_convert_human_to_tm (civil_time 2000 1 1 0 0 0)) = 946684800
    ∧ mktime (ntp_convert_human_to_tm (civil_time 2101 1 1 0 0 0)) = 4133980800 := by
  obtain ⟨y, m, d, hy, hm, hd, he, fY, fM, fD, fW, -, -⟩ := ntp_convert_unix_time_civil u s hu
  have hw := ntp_get_day_of_week_eq_true_weekday d m y (by omega) hm
  have h28 := days_from_civil_1969_12_28
  unfold true_weekday at hw
  rw [he, h28] at hw
  rw [fY, fM, fD]
  refine ⟨?_, hy, hm, hd, ?_, by decide, by decide⟩
  · have hi : ((ntp_convert_unix_time u s).2.HumanTime.DayOfWeek : Int)
        = (ntp_get_day_of_week d m y : Int) := by
      rw [fW, hw]
      omega
    exact_mod_cast hi
  · omega

/-- Witness for C28: 2025-07-01 00:00:00 UTC (Unix time 1751328000) is a Tuesday, day 2 of the
week for both computations. -/
theorem ntp_convert_unix_time_weekday_witness :
    ((946684800 : Int) ≤ 1751328000 ∧ (1751328000 : Int) < 4133980800)
    ∧ (ntp_convert_unix_time 1751328000 (example_session 1970 0)).2.HumanTime.DayOfWeek
        = ntp_get_day_of_week
            (ntp_convert_unix_time 1751328000 (example_session 1970 0)).2.HumanTime.DayOfMonth
            (ntp_convert_unix_time 1751328000 (example_session 1970 0)).2.HumanTime.Month
            (ntp_convert_unix_time 1751328000 (example_session 1970 0)).2.HumanTime.Year
    ∧ (ntp_convert_unix_time 1751328000 (example_session 1970 0)).2.HumanTime.DayOfWeek = 2
    ∧ ntp_get_day_of_week 1 7 2025 = 2 :=
  ⟨by decide,
   (ntp_convert_unix_time_weekday 1751328000 (example_session 1970 0) (by decide)).1,
   by decide, by decide⟩

/-- C29: the day of the year derived by `ntp_convert_unix_time`.  For every Unix timestamp `u`
of the UTC years 2000..2100 the `DayOfYear` of the `HumanTime` produced is the `tm_yday` of
`localtime`, counted from 0, so it is one less than
`ntp_get_day_of_year(DayOfMonth, Month, Year)`, which counts from 1, and never equal to it;
converting that `HumanTime` back with `ntp_convert_human_to_tm` subtracts 1 once more and
gives a `tm_yday` one less than the one `localtime` reported.  On 1 January the `DayOfYear`
is 0 and the `tm_yday` converted back is -1. -/
theorem ntp_convert_unix_time_yearday (u : Int) (s : struct_ntp)
    (hu : 946684800 ≤ u ∧ u < 4133980800) :
    (ntp_convert_unix_time u s).2.HumanTime.DayOfYear + 1
        = ntp_get_day_of_year (ntp_convert_unix_time u s).2.HumanTime.DayOfMonth
            (ntp_convert_unix_time u s).2.HumanTime.Month
            (ntp_convert_unix_time u s).2.HumanTime.Year
    ∧ (ntp_convert_unix_time u s).2.HumanTime.DayOfYear
        ≠ ntp_get_day_of_year (ntp_convert_unix_time u s).2.HumanTime.DayOfMonth
            (ntp_convert_unix_time u s).2.HumanTime.Month
            (ntp_convert_unix_time u s).2.HumanTime.Year
    ∧ ((ntp_convert_unix_time u s).2.HumanTime.DayOfYear : Int) = (localtime u).tm_yday
    ∧ (ntp_convert_human_to_tm (ntp_convert_unix_time u s).2.HumanTime).tm_yday
        = (localtime u).tm_yday - 1
    ∧ (ntp_convert_human_to_tm (ntp_convert_unix_time u s).2.HumanTime).tm_yday
        ≠ (localtime u).tm_yday
    ∧ ((ntp_convert_unix_time u s).2.HumanTime.Month = 1
        ∧ (ntp_convert_unix_time u s).2.HumanTime.DayOfMonth = 1 →
        (ntp_convert_unix_time u s).2.HumanTime.DayOfYear = 0
        ∧ (ntp_convert_human_to_tm (ntp_convert_unix_time u s).2.HumanTime).tm_yday = -1) := by
  obtain ⟨y, m, d, hy, hm, hd, he, fY, fM, fD, -, fJ, fT⟩ := ntp_convert_unix_time_civil u s hu
  have hd31 := ntp_get_month_days_le m y
  have hdoy := ntp_get_day_of_year_eq d m y (by omega) hm hy
  have hback : (ntp_convert_human_to_tm (ntp_convert_unix_time u s).2.HumanTime).tm_yday
      = ((ntp_convert_unix_time u s).2.HumanTime.DayOfYear : Int) - 1 := rfl
  have hJ : ((ntp_convert_unix_time u s).2.HumanTime.DayOfYear : Int) = (localtime u).tm_yday := by
    rw [fT]
    omega
  rw [fY, fM, fD, hdoy, hback]
  refine ⟨fJ, by omega, hJ, by rw [hJ], by omega, fun h11 => ?_⟩
  obtain ⟨hm1, hd1⟩ := h11
  rw [hm1, hd1] at fJ
  have h0 : (ntp_convert_unix_time u s).2.HumanTime.DayOfYear = 0 := by
    simp at fJ
    exact fJ
  rw [h0]
  exact ⟨rfl, rfl⟩

/-- Witness for C29: 2025-01-01 00:00:00 UTC (Unix time 1735689600).  `ntp_convert_unix_time`
leaves `DayOfYear = 0` where `ntp_get_day_of_year(1, 1, 2025)` is 1, and
`ntp_convert_human_to_tm` turns it into `tm_yday = -1` where `localtime` reported 0. -/
theorem ntp_convert_unix_time_yearday_witness :
    ((946684800 : Int) ≤ 1735689600 ∧ (1735689600 : Int) < 4133980800)
    ∧ (ntp_convert_unix_time 1735689600 (example_session 1970 0)).2.HumanTime.DayOfYear + 1
        = ntp_get_day_of_year
            (ntp_convert_unix_time 1735689600 (example_session 1970 0)).2.HumanTime.DayOfMonth
            (ntp_convert_unix_time 1735689600 (example_session 1970 0)).2.HumanTime.Month
            (ntp_convert_unix_time 1735689600 (example_session 1970 0)).2.HumanTime.Year
    ∧ (ntp_convert_unix_time 1735689600 (example_session 1970 0)).2.HumanTime.DayOfYear = 0
    ∧ ntp_get_day_of_year 1 1 2025 = 1
    ∧ (localtime 1735689600).tm_yday = 0
    ∧ (ntp_convert_human_to_tm
        (ntp_convert_unix_time 1735689600 (example_session 1970 0)).2.HumanTime).tm_yday = -1 :=
  ⟨by decide,
   (ntp_convert_unix_time_yearday 1735689600 (example_session 1970 0) (by decide)).1,
   by decide, by decide, by decide, by decide⟩

/-- The date after a valid date is a valid date and its day number is one more. -/
theorem next_day_spec (y m d : Nat) (hy : 1 ≤ y) (hm : 1 ≤ m ∧ m ≤ 12)
    (hd : 1 ≤ d ∧ d ≤ ntp_get_month_days m y) :
    valid_date (next_day y m d) ∧ y ≤ (next_day y m d).1 ∧ (next_day y m d).1 ≤ y + 1
    ∧ days_from_civil (next_day y m d).1 (next_day y m d).2.1 (next_day y m d).2.2
        = days_from_civil y m d + 1 := by
  obtain ⟨n1, n2, n3⟩ := days_from_civil_next_day y m d hy hm hd
  by_cases h1 : d < ntp_get_month_days m y
  · have e : next_day y m d = (y, m, d + 1) := by
      unfold next_day
      rw [if_pos h1]
    rw [e]
    exact ⟨⟨hm, Nat.le_add_left 1 d, h1⟩, le_refl y, Nat.le_succ y, n1 h1⟩
  · have hde : d = ntp_get_month_days m y := by omega
    by_cases h2 : m < 12
    · have e : next_day y m d = (y, m + 1, 1) := by
        unfold next_day
        rw [if_neg h1, if_pos h2]
      have hmd : 1 ≤ ntp_get_month_days (m + 1) y := by
        obtain ⟨hm1, hm2⟩ := hm
        unfold ntp_get_month_days
        split_ifs <;> omega
      rw [e]
      exact ⟨⟨⟨Nat.le_add_left 1 m, h2⟩, le_refl 1, hmd⟩, le_refl y, Nat.le_succ y, n2 hde h2⟩
    · have e : next_day y m d = (y + 1, 1, 1) := by
        unfold next_day
        rw [if_neg h1, if_neg h2]
      have hmd : 1 ≤ ntp_get_month_days 1 (y + 1) := by simp [ntp_get_month_days]
      rw [e]
      exact ⟨⟨⟨le_refl 1, show (1 : Nat) ≤ 12 by decide⟩, le_refl 1, hmd⟩, Nat.le_succ y,
        le_refl (y + 1), n3 hde (by omega)⟩

/-- The date `k` days after a valid date is a valid date and its day number is `k` more. -/
theorem days_later_spec (k : Nat) :
    ∀ D : Nat × Nat × Nat, 1 ≤ D.1 → valid_date D →
      valid_date (days_later k D) ∧ D.1 ≤ (days_later k D).1 ∧ (days_later k D).1 ≤ D.1 + k
      ∧ days_from_civil (days_later k D).1 (days_later k D).2.1 (days_later k D).2.2
          = days_from_civil D.1 D.2.1 D.2.2 + k := by
  induction k with
  | zero =>
    intro D _ hv
    exact ⟨hv, le_refl _, le_refl _, by simp [days_later]⟩
  | succ n ih =>
    intro D hy hv
    obtain ⟨a1, a2, a3, a4⟩ := next_day_spec D.1 D.2.1 D.2.2 hy hv.1 hv.2
    obtain ⟨b1, b2, b3, b4⟩ := ih (next_day D.1 D.2.1 D.2.2) (by omega) a1
    have he : days_later (n + 1) D = days_later n (next_day D.1 D.2.1 D.2.2) := rfl
    rw [he]
    refine ⟨b1, by omega, by omega, ?_⟩
    rw [b4, a4]
    push_cast
    ring

/-- The weekday computed by `ntp_get_day_of_week` in terms of the day number of the date. -/
theorem ntp_get_day_of_week_day_number (d m y : Nat) (hy : 1 ≤ y ∧ y < 65536)
    (hm : 1 ≤ m ∧ m ≤ 12) :
    (ntp_get_day_of_week d m y : Int) = (days_from_civil y m d + 4) % 7 := by
  rw [ntp_get_day_of_week_eq_true_weekday d m y hy hm]
  unfold true_weekday
  rw [days_from_civil_1969_12_28]
  omega

/-- Two dates whose day numbers differ by `k` have weekdays that differ by `k` modulo 7. -/
theorem ntp_get_day_of_week_shift (d m y d2 m2 y2 k : Nat) (hy : 1 ≤ y ∧ y < 65536)
    (hm : 1 ≤ m ∧ m ≤ 12) (hy2 : 1 ≤ y2 ∧ y2 < 65536) (hm2 : 1 ≤ m2 ∧ m2 ≤ 12)
    (hk : days_from_civil y2 m2 d2 = days_from_civil y m d + k) :
    ntp_get_day_of_week d2 m2 y2 = (ntp_get_day_of_week d m y + k) % 7 := by
  have h1 := ntp_get_day_of_week_day_number d m y hy hm
  have h2 := ntp_get_day_of_week_day_number d2 m2 y2 hy2 hm2
  rw [hk] at h2
  omega

/-- C31: `ntp_get_day_of_week` has period 7.  For every valid date D with year in 2000..2100:
the day after D (`next_day`, possibly in the next month or year) has the weekday
`(ntp_get_day_of_week(D) + 1) mod 7`; the calendar date D7 falling exactly 7 days after D
(`days_later 7`, a valid date whose day number is that of D plus 7) has the weekday of D; and
so has every valid date whose day number is that of D plus 7.  The year of D7 may be 2101. -/
theorem ntp_get_day_of_week_period (day month year : Nat) (hy : 2000 ≤ year ∧ year ≤ 2100)
    (hm : 1 ≤ month ∧ month ≤ 12) (hd : 1 ≤ day ∧ day ≤ ntp_get_month_days month year) :
    ntp_get_day_of_week (next_day year month day).2.2 (next_day year month day).2.1
        (next_day year month day).1
      = (ntp_get_day_of_week day month year + 1) % 7
    ∧ (valid_date (next_day year month day)
        ∧ days_from_civil (next_day year month day).1 (next_day year month day).2.1
            (next_day year month day).2.2 = days_from_civil year month day + 1)
    ∧ ntp_get_day_of_week (days_later 7 (year, month, day)).2.2
        (days_later 7 (year, month, day)).2.1 (days_later 7 (year, month, day)).1
      = ntp_get_day_of_week day month year
    ∧ (valid_date (days_later 7 (year, month, day))
        ∧ days_from_civil (days_later 7 (year, month, day)).1
            (days_later 7 (year, month, day)).2.1 (days_later 7 (year, month, day)).2.2
          = days_from_civil year month day + 7)
    ∧ (∀ y2 m2 d2 : Nat, 2000 ≤ y2 ∧ y2 ≤ 2100 → 1 ≤ m2 ∧ m2 ≤ 12 →
        days_from_civil y2 m2 d2 = days_from_civil year month day + 7 →
        ntp_get_day_of_week d2 m2 y2 = ntp_get_day_of_week day month year)
    ∧ (∀ y2 m2 d2 : Nat, 2000 ≤ y2 ∧ y2 ≤ 2101 → 1 ≤ m2 ∧ m2 ≤ 12 →
        days_from_civil y2 m2 d2 = days_from_civil year month day + 1 →
        ntp_get_day_of_week d2 m2 y2 = (ntp_get_day_of_week day month year + 1) % 7) := by
  have hlt := ntp_get_day_of_week_lt day month year
  obtain ⟨a1, a2, a3, a4⟩ := next_day_spec year month day (by omega) hm hd
  obtain ⟨b1, b2, b3, b4⟩ := days_later_spec 7 (year, month, day) (by show 1 ≤ year; omega)
    ⟨hm, hd⟩
  have b2' : year ≤ (days_later 7 (year, month, day)).1 := b2
  have b3' : (days_later 7 (year, month, day)).1 ≤ year + 7 := b3
  have b4' : days_from_civil (days_later 7 (year, month, day)).1
      (days_later 7 (year, month, day)).2.1 (days_later 7 (year, month, day)).2.2
      = days_from_civil year month day + ((7 : Nat) : Int) := b4
  refine ⟨?_, ⟨a1, a4⟩, ?_, ⟨b1, b4⟩, fun y2 m2 d2 hy2 hm2 he => ?_,
    fun y2 m2 d2 hy2 hm2 he => ?_⟩
  · exact ntp_get_day_of_week_shift day month year _ _ _ 1 ⟨by omega, by omega⟩ hm
      ⟨by omega, by omega⟩ a1.1 a4
  · rw [ntp_get_day_of_week_shift day month year _ _ _ 7 ⟨by omega, by omega⟩ hm
      ⟨by omega, by omega⟩ b1.1 b4']
    omega
  · rw [ntp_get_day_of_week_shift day month year d2 m2 y2 7 ⟨by omega, by omega⟩ hm
      ⟨by omega, by omega⟩ hm2 he]
    omega
  · exact ntp_get_day_of_week_shift day month year d2 m2 y2 1 ⟨by omega, by omega⟩ hm
      ⟨by omega, by omega⟩ hm2 he

/-- Witness for C31: 27 December 2025 is a Saturday (6); the day after, 28 December, is a
Sunday (0), and the date 7 days later is 3 January 2026, a Saturday. -/
theorem ntp_get_day_of_week_period_witness :
    (2000 ≤ 2025 ∧ 2025 ≤ 2100) ∧ (1 ≤ 12 ∧ 12 ≤ 12)
    ∧ (1 ≤ 27 ∧ 27 ≤ ntp_get_month_days 12 2025)
    ∧ days_later 7 (2025, 12, 27) = (2026, 1, 3)
    ∧ ntp_get_day_of_week 27 12 2025 = 6
    ∧ ntp_get_day_of_week (next_day 2025 12 27).2.2 (next_day 2025 12 27).2.1
        (next_day 2025 12 27).1 = (ntp_get_day_of_week 27 12 2025 + 1) % 7
    ∧ ntp_get_day_of_week (days_later 7 (2025, 12, 27)).2.2
        (days_later 7 (2025, 12, 27)).2.1 (days_later 7 (2025, 12, 27)).1
      = ntp_get_day_of_week 27 12 2025 :=
  ⟨by decide, by decide, by decide, by decide, by decide,
   (ntp_get_day_of_week_period 27 12 2025 (by decide) (by decide) (by decide)).1,
   (ntp_get_day_of_week_period 27 12 2025 (by decide) (by decide) (by decide)).2.2.1⟩

/-- The day number of a date of the year `y` is the day number of 1 January of `y` plus the
lengths of the months before the date plus the day of the month, minus one. -/
theorem days_from_civil_year_start (y m d : Nat) (hy : 1 ≤ y) (hm : 1 ≤ m ∧ m ≤ 12) :
    days_from_civil y m d
      = days_from_civil y 1 1
        + ((∑ j in Finset.Ico 1 m, ntp_get_month_days j y : Nat) : Int) + d - 1 := by
  have h1 := days_from_civil_nat y 1 1 (by decide) hy
  simp only [Nat.cast_one] at h1
  rw [days_from_civil_nat y m d hm hy, h1, sum_month_days_eq y m hm]
  obtain ⟨hm1, hm2⟩ := hm
  obtain ⟨z, rfl⟩ : ∃ z, y = z + 1 := ⟨y - 1, by omega⟩
  interval_cases m <;> simp <;> (try split_ifs) <;> omega

/-- C40: weekday and day-of-year agree.  For every valid date (day, month, year) with year in
2000..2100, `ntp_get_day_of_week(day, month, year)` is
`(ntp_get_day_of_week(1, 1, year) + ntp_get_day_of_year(day, month, year) - 1) mod 7`; the
day of the year is at least 1, so the subtraction does not go below zero. -/
theorem ntp_get_day_of_week_of_year_day (day month year : Nat)
    (hy : 2000 ≤ year ∧ year ≤ 2100) (hm : 1 ≤ month ∧ month ≤ 12)
    (hd : 1 ≤ day ∧ day ≤ ntp_get_month_days month year) :
    ntp_get_day_of_week day month year
        = (ntp_get_day_of_week 1 1 year + ntp_get_day_of_year day month year - 1) % 7
    ∧ 1 ≤ ntp_get_day_of_year day month year
    ∧ (ntp_get_day_of_week day month year : Int)
        = ((ntp_get_day_of_week 1 1 year : Int) + (ntp_get_day_of_year day month year : Int) - 1)
            % 7 := by
  have hd31 := ntp_get_month_days_le month year
  have h1 := ntp_get_day_of_week_day_number day month year ⟨by omega, by omega⟩ hm
  have h2 := ntp_get_day_of_week_day_number 1 1 year ⟨by omega, by omega⟩ (by decide)
  have h3 := days_from_civil_year_start year month day (by omega) hm
  have h4 := ntp_get_day_of_year_eq day month year (by omega) hm hy
  have e1 : ((1 : Nat) : Int) = 1 := rfl
  rw [e1] at h2
  generalize (∑ j in Finset.Ico 1 month, ntp_get_month_days j year) = S at h3 h4
  rw [h4]
  rw [h3] at h1
  refine ⟨?_, by omega, ?_⟩
  · omega
  · push_cast
    omega

/-- Witness for C40: 17 May 2025 is day 137 of the year; 1 January 2025 is a Wednesday (3) and
`(3 + 137 - 1) mod 7 = 6`, a Saturday. -/
theorem ntp_get_day_of_week_of_year_day_witness :
    (2000 ≤ 2025 ∧ 2025 ≤ 2100) ∧ (1 ≤ 5 ∧ 5 ≤ 12) ∧ (1 ≤ 17 ∧ 17 ≤ ntp_get_month_days 5 2025)
    ∧ ntp_get_day_of_week 1 1 2025 = 3 ∧ ntp_get_day_of_year 17 5 2025 = 137
    ∧ ntp_get_day_of_week 17 5 2025 = 6
    ∧ ntp_get_day_of_week 17 5 2025
        = (ntp_get_day_of_week 1 1 2025 + ntp_get_day_of_year 17 5 2025 - 1) % 7 :=
  ⟨by decide, by decide, by decide, by decide, by decide, by decide,
   (ntp_get_day_of_week_of_year_day 17 5 2025 (by decide) (by decide) (by decide)).1⟩

/-- C36: rule-table well-formedness.  For every country code `c` in 1..12 the table entry has
`StartDayOfMonthLow <= StartDayOfMonthHigh` and `EndDayOfMonthLow <= EndDayOfMonthHigh`,
`StartMonth` and `EndMonth` in 1..12 and different, `StartDayOfWeek` and `EndDayOfWeek` in
0..6, both ranges starting at 1 or later and ending no later than the length of their month
in every year, and `ShiftMinutes > 0`. -/
theorem DstParameters_well_formed (c : Nat) (hc : 1 ≤ c ∧ c ≤ 12) (year : Nat) :
    (DstParameters c).StartDayOfMonthLow ≤ (DstParameters c).StartDayOfMonthHigh
    ∧ (DstParameters c).EndDayOfMonthLow ≤ (DstParameters c).EndDayOfMonthHigh
    ∧ (1 ≤ (DstParameters c).StartMonth ∧ (DstParameters c).StartMonth ≤ 12)
    ∧ (1 ≤ (DstParameters c).EndMonth ∧ (DstParameters c).EndMonth ≤ 12)
    ∧ (DstParameters c).StartMonth ≠ (DstParameters c).EndMonth
    ∧ (DstParameters c).StartDayOfWeek ≤ 6
    ∧ (DstParameters c).EndDayOfWeek ≤ 6
    ∧ (1 ≤ (DstParameters c).StartDayOfMonthLow
        ∧ (DstParameters c).StartDayOfMonthHigh
            ≤ (ntp_get_month_days (DstParameters c).StartMonth year : Int))
    ∧ (1 ≤ (DstParameters c).EndDayOfMonthLow
        ∧ (DstParameters c).EndDayOfMonthHigh
            ≤ (ntp_get_month_days (DstParameters c).EndMonth year : Int))
    ∧ 0 < (DstParameters c).ShiftMinutes := by
  obtain ⟨h1, h2⟩ := hc
  interval_cases c <;> simp [DstParameters, ntp_get_month_days]

/-- Witness for C36 on the rule of the European Union (code 5) in 2025: the last seven days of
March and of October, on a Sunday, with a shift of 60 minutes. -/
theorem DstParameters_well_formed_witness :
    (1 ≤ 5 ∧ 5 ≤ 12)
    ∧ (DstParameters 5).StartDayOfMonthLow ≤ (DstParameters 5).StartDayOfMonthHigh
    ∧ (DstParameters 5).StartDayOfMonthHigh = 31
    ∧ ntp_get_month_days (DstParameters 5).StartMonth 2025 = 31
    ∧ (DstParameters 5).StartMonth ≠ (DstParameters 5).EndMonth
    ∧ 0 < (DstParameters 5).ShiftMinutes :=
  ⟨by decide, (DstParameters_well_formed 5 (by decide) 2025).1, by decide, by decide,
   (DstParameters_well_formed 5 (by decide) 2025).2.2.2.2.1,
   (DstParameters_well_formed 5 (by decide) 2025).2.2.2.2.2.2.2.2.2⟩

/-- C37: the malformed-table branch is unreachable for the built-in table.  For every country
code in 1..12 and every session year (in particular 2000..2100), each of the two ranges is
seven consecutive valid days of its month, the start scan and the end scan of
`ntp_dst_settings` both find a day, and so neither early return is taken: the result of
`ntp_dst_settings` is that of its complete path (`ntp_dst_settings_complete`, which ends with
the status test) on the days found, which are those stored in `DoYStart` and `DoYEnd`. -/
theorem dst_scans_always_find (s : struct_ntp)
    (hc : 1 ≤ s.DSTCountry ∧ s.DSTCountry ≤ 12) :
    (dst_scan_start (DstParameters s.DSTCountry) s.HumanTime.Year).isSome = true
    ∧ (dst_scan_end (DstParameters s.DSTCountry) s.HumanTime.Year).isSome = true
    ∧ ((DstParameters s.DSTCountry).StartDayOfMonthHigh
          = (DstParameters s.DSTCountry).StartDayOfMonthLow + 6
        ∧ 1 ≤ (DstParameters s.DSTCountry).StartDayOfMonthLow
        ∧ (DstParameters s.DSTCountry).StartDayOfMonthHigh
            ≤ (ntp_get_month_days (DstParameters s.DSTCountry).StartMonth s.HumanTime.Year : Int))
    ∧ ((DstParameters s.DSTCountry).EndDayOfMonthHigh
          = (DstParameters s.DSTCountry).EndDayOfMonthLow + 6
        ∧ 1 ≤ (DstParameters s.DSTCountry).EndDayOfMonthLow
        ∧ (DstParameters s.DSTCountry).EndDayOfMonthHigh
            ≤ (ntp_get_month_days (DstParameters s.DSTCountry).EndMonth s.HumanTime.Year : Int))
    ∧ (∀ StartDoM EndDoM : Nat,
        dst_scan_start (DstParameters s.DSTCountry) s.HumanTime.Year = some StartDoM →
        dst_scan_end (DstParameters s.DSTCountry) s.HumanTime.Year = some EndDoM →
        ntp_dst_settings s
          = ntp_dst_settings_complete (DstParameters s.DSTCountry) StartDoM EndDoM
              { s with
                ShiftMinutes := (DstParameters s.DSTCountry).ShiftMinutes
                DoYStart := ntp_get_day_of_year StartDoM (DstParameters s.DSTCountry).StartMonth
                  s.HumanTime.Year
                DoYEnd := ntp_get_day_of_year EndDoM (DstParameters s.DSTCountry).EndMonth
                  s.HumanTime.Year }
        ∧ (ntp_dst_settings s).DoYStart
            = ntp_get_day_of_year StartDoM (DstParameters s.DSTCountry).StartMonth
                s.HumanTime.Year
        ∧ (ntp_dst_settings s).DoYEnd
            = ntp_get_day_of_year EndDoM (DstParameters s.DSTCountry).EndMonth
                s.HumanTime.Year) := by
  obtain ⟨sd, hs1, -⟩ := dst_scan_start_table s.DSTCountry s.HumanTime.Year hc
  obtain ⟨ed, he1, -⟩ := dst_scan_end_table s.DSTCountry s.HumanTime.Year hc
  have hshape : ((DstParameters s.DSTCountry).StartDayOfMonthHigh
          = (DstParameters s.DSTCountry).StartDayOfMonthLow + 6
        ∧ 1 ≤ (DstParameters s.DSTCountry).StartDayOfMonthLow
        ∧ (DstParameters s.DSTCountry).StartDayOfMonthHigh
            ≤ (ntp_get_month_days (DstParameters s.DSTCountry).StartMonth s.HumanTime.Year : Int))
      ∧ ((DstParameters s.DSTCountry).EndDayOfMonthHigh
          = (DstParameters s.DSTCountry).EndDayOfMonthLow + 6
        ∧ 1 ≤ (DstParameters s.DSTCountry).EndDayOfMonthLow
        ∧ (DstParameters s.DSTCountry).EndDayOfMonthHigh
            ≤ (ntp_get_month_days (DstParameters s.DSTCountry).EndMonth s.HumanTime.Year
                : Int)) := by
    obtain ⟨h1, h2⟩ := hc
    generalize s.DSTCountry = c at h1 h2
    generalize s.HumanTime.Year = Y
    interval_cases c <;> simp [DstParameters, ntp_get_month_days]
  refine ⟨by rw [hs1]; rfl, by rw [he1]; rfl, hshape.1, hshape.2, fun StartDoM EndDoM h1 h2 => ?_⟩
  have he := ntp_dst_settings_eq_complete s hc StartDoM EndDoM h1 h2
  refine ⟨he, ?_, ?_⟩
  · rw [he]
    rfl
  · rw [he]
    rfl

/-- Witness for C37 on the example session (North America) in 2025: the scans find 9 March and
2 November, and the function runs its complete path. -/
theorem dst_scans_always_find_witness :
    (1 ≤ (example_session 2025 0).DSTCountry ∧ (example_session 2025 0).DSTCountry ≤ 12)
    ∧ dst_scan_start (DstParameters 10) 2025 = some 9
    ∧ dst_scan_end (DstParameters 10) 2025 = some 2
    ∧ (dst_scan_start (DstParameters (example_session 2025 0).DSTCountry)
        (example_session 2025 0).HumanTime.Year).isSome = true
    ∧ (ntp_dst_settings (example_session 2025 0)).DoYStart = ntp_get_day_of_year 9 3 2025
    ∧ (ntp_dst_settings (example_session 2025 0)).DoYEnd = ntp_get_day_of_year 2 11 2025 :=
  ⟨by decide, by decide, by decide,
   (dst_scans_always_find (example_session 2025 0) (by decide)).1,
   ((dst_scans_always_find (example_session 2025 0) (by decide)).2.2.2.2 9 2
      (by decide) (by decide)).2.1,
   ((dst_scans_always_find (example_session 2025 0) (by decide)).2.2.2.2 9 2
      (by decide) (by decide)).2.2⟩

/-- The session after `ntp_init`: the scan count is zero, the health flag off and the update
time nil, so the poll test of `ntp_get_time` fails. -/
theorem ntp_init_session (Pcb : Nat) (s0 : struct_ntp) :
    (ntp_init Pcb s0).1.1.ScanCount = 0 ∧ (ntp_init Pcb s0).1.1.FlagHealth = FLAG_OFF
    ∧ (ntp_init Pcb s0).1.1.UpdateTime = 0
    ∧ (ntp_init Pcb s0).1.1.FlagInit = (if Pcb = 0 then FLAG_OFF else FLAG_ON)
    ∧ ¬ ntp_get_time_is_poll (ntp_init Pcb s0).1.1 := by
  unfold ntp_init
  by_cases h : Pcb = 0
  · rw [if_pos h, if_pos h]
    exact ⟨rfl, rfl, rfl, rfl, fun hp => hp.1 rfl⟩
  · rw [if_neg h, if_neg h]
    exact ⟨rfl, rfl, rfl, rfl, fun hp => hp.1 rfl⟩

/-- C35: what `ntp_get_time` does when `FlagInit` is `FLAG_OFF`.  The call does not return with
the session unchanged: it runs the cycle that it would run with `FlagInit` on (same host
calls, same session up to `FlagInit`, which stays off), so the session is changed on every
call.  When the
poll test fails, as it does on the session left by a failed `ntp_init`, it takes the read
cycle: `ReadCycles` is increased, `ScanCount` is set to 1, the resend alarm is armed with
`add_alarm_in_ms` and the name resolution started with `dns_gethostbyname`; when the name is
answered from the cache (`ERR_OK`) the datagram is sent, `ResendAlarm` is the handle of the
alarm and `UpdateTime` is `now` plus 3600 seconds. -/
theorem ntp_get_time_without_init (h : get_time_host) (s : struct_ntp)
    (hinit : s.FlagInit = FLAG_OFF) :
    (ntp_get_time h s).1 ≠ s
    ∧ (ntp_get_time h s).1.FlagInit = FLAG_OFF
    ∧ (ntp_get_time h { s with FlagInit := FLAG_ON }).2 = (ntp_get_time h s).2
    ∧ (ntp_get_time h { s with FlagInit := FLAG_ON }).1
        = { (ntp_get_time h s).1 with FlagInit := FLAG_ON }
    ∧ (¬ ntp_get_time_is_poll s →
        (ntp_get_time h s).1.ReadCycles = (s.ReadCycles + 1) % 4294967296
        ∧ (ntp_get_time h s).1.ScanCount = 1
        ∧ (ntp_get_time h s).2.take 2
            = [HostCall.add_alarm_in_ms 10000, HostCall.dns_gethostbyname "pool.ntp.org"]
        ∧ (h.ReturnCode = ERR_OK →
            (ntp_get_time h s).2
              = [HostCall.add_alarm_in_ms 10000, HostCall.dns_gethostbyname "pool.ntp.org",
                 HostCall.udp_sendto h.CachedAddress 123 (0x1B :: List.replicate 47 0)]
            ∧ (ntp_get_time h s).1.ResendAlarm = h.AlarmId
            ∧ (ntp_get_time h s).1.UpdateTime = h.now + 3600 * 1000000))
    ∧ (ntp_get_time_is_poll s →
        (ntp_get_time h s).1.PollCycles = (s.PollCycles + 1) % 4294967296
        ∧ (ntp_get_time h s).1.ScanCount = s.ScanCount + 1)
    ∧ (∀ s0 : struct_ntp, (ntp_init 0 s0).2 = 1 ∧ (ntp_init 0 s0).1.1.FlagInit = FLAG_OFF
        ∧ ¬ ntp_get_time_is_poll (ntp_init 0 s0).1.1) := by
  have hframe : (ntp_get_time h { s with FlagInit := FLAG_ON }).2 = (ntp_get_time h s).2
      ∧ (ntp_get_time h { s with FlagInit := FLAG_ON }).1
          = { (ntp_get_time h s).1 with FlagInit := FLAG_ON } := by
    by_cases hc : s.FlagHealth ≠ 0 ∧ s.ScanCount < NTP_SCAN_FACTOR ∧ ¬ s.UpdateTime = 0
    · rw [ntp_get_time_of_poll h s hc, ntp_get_time_of_poll h { s with FlagInit := FLAG_ON } hc]
      exact ⟨rfl, rfl⟩
    · rw [ntp_get_time_of_read h s hc, ntp_get_time_of_read h { s with FlagInit := FLAG_ON } hc]
      by_cases h0 : h.ReturnCode = 0
      · rw [if_pos h0, if_pos h0]
        exact ⟨rfl, rfl⟩
      · rw [if_neg h0, if_neg h0]
        by_cases h5 : h.ReturnCode = ERR_INPROGRESS
        · rw [if_pos h5, if_pos h5]
          refine ⟨rfl, ?_⟩
          rw [ntp_result_of_failure (ntp_get_time_read h s) h.now_result (-1) none (Or.inr rfl),
            ntp_result_of_failure (ntp_get_time_read h { s with FlagInit := FLAG_ON })
              h.now_result (-1) none (Or.inr rfl)]
          rfl
        · rw [if_neg h5, if_neg h5]
          exact ⟨rfl, rfl⟩
  have hfi : (ntp_get_time h s).1.FlagInit = s.FlagInit := by
    by_cases hc : s.FlagHealth ≠ 0 ∧ s.ScanCount < NTP_SCAN_FACTOR ∧ ¬ s.UpdateTime = 0
    · rw [ntp_get_time_of_poll h s hc]
      rfl
    · rw [ntp_get_time_of_read h s hc]
      by_cases h0 : h.ReturnCode = 0
      · rw [if_pos h0]
        rfl
      · rw [if_neg h0]
        by_cases h5 : h.ReturnCode = ERR_INPROGRESS
        · rw [if_pos h5]
          obtain ⟨-, -, -, -, -, -, -, -, -, -, f11, -⟩ := ntp_result_client_frame h.now_result
            (-1) none (ntp_get_time_read h s)
          exact f11
        · rw [if_neg h5]
          rfl
  refine ⟨?_, hfi.trans hinit, hframe.1, hframe.2, fun hn => ?_, fun hpoll => ?_, fun s0 => ?_⟩
  · intro he
    by_cases hc : s.FlagHealth ≠ 0 ∧ s.ScanCount < NTP_SCAN_FACTOR ∧ ¬ s.UpdateTime = 0
    · rw [ntp_get_time_of_poll h s hc] at he
      have h1 : (ntp_get_time_poll h.now s).PollCycles = s.PollCycles := by
        have he1 : (ntp_get_time_poll h.now s, ([] : List HostCall)).1 = s := he
        exact congrArg struct_ntp.PollCycles he1
      have h2 : (ntp_get_time_poll h.now s).PollCycles = (s.PollCycles + 1) % 4294967296 := rfl
      omega
    · have h1 : (ntp_get_time h s).1.ReadCycles = s.ReadCycles := by rw [he]
      have h2 : (ntp_get_time h s).1.ReadCycles = (s.ReadCycles + 1) % 4294967296 := by
        rw [ntp_get_time_of_read h s hc]
        by_cases h0 : h.ReturnCode = 0
        · rw [if_pos h0]
          rfl
        · rw [if_neg h0]
          by_cases h5 : h.ReturnCode = ERR_INPROGRESS
          · rw [if_pos h5]
            exact (ntp_result_client_frame h.now_result (-1) none (ntp_get_time_read h s)).2.2.1
          · rw [if_neg h5]
            rfl
      omega
  · have hc : ¬ (s.FlagHealth ≠ 0 ∧ s.ScanCount < NTP_SCAN_FACTOR ∧ ¬ s.UpdateTime = 0) := hn
    rw [ntp_get_time_of_read h s hc]
    by_cases h0 : h.ReturnCode = 0
    · rw [if_pos h0]
      exact ⟨rfl, rfl, rfl, fun _ => ⟨rfl, rfl, rfl⟩⟩
    · have h0' : ¬ h.ReturnCode = ERR_OK := h0
      rw [if_neg h0]
      by_cases h5 : h.ReturnCode = ERR_INPROGRESS
      · rw [if_pos h5]
        obtain ⟨-, -, f3, -, f5, -⟩ := ntp_result_client_frame h.now_result (-1) none
          (ntp_get_time_read h s)
        exact ⟨f3, f5, rfl, fun he => absurd he h0'⟩
      · rw [if_neg h5]
        exact ⟨rfl, rfl, rfl, fun he => absurd he h0'⟩
  · have hc : s.FlagHealth ≠ 0 ∧ s.ScanCount < NTP_SCAN_FACTOR ∧ ¬ s.UpdateTime = 0 := hpoll
    rw [ntp_get_time_of_poll h s hc]
    refine ⟨rfl, ?_⟩
    show (s.ScanCount + 1) % 256 = s.ScanCount + 1
    have h24 := hc.2.1
    unfold NTP_SCAN_FACTOR at h24
    omega
  · obtain ⟨-, -, -, f4, f5⟩ := ntp_init_session 0 s0
    exact ⟨rfl, f4, f5⟩

/-- Witness for C35: the session left by a failed `ntp_init` (no control block, `FlagInit`
off), then `ntp_get_time` with the name answered from the cache: the alarm is armed, the name
resolution started and the datagram sent, and the session is changed. -/
theorem ntp_get_time_without_init_witness :
    (ntp_init 0 (example_session 1970 0)).2 = 1
    ∧ (ntp_init 0 (example_session 1970 0)).1.1.FlagInit = FLAG_OFF
    ∧ (ntp_get_time example_host_cached (ntp_init 0 (example_session 1970 0)).1.1).1
        ≠ (ntp_init 0 (example_session 1970 0)).1.1
    ∧ (ntp_get_time example_host_cached (ntp_init 0 (example_session 1970 0)).1.1).2
        = [HostCall.add_alarm_in_ms 10000, HostCall.dns_gethostbyname "pool.ntp.org",
           HostCall.udp_sendto 16909060 123 (0x1B :: List.replicate 47 0)]
    ∧ (ntp_get_time example_host_cached (ntp_init 0 (example_session 1970 0)).1.1).1.ReadCycles
        = 1
    ∧ (ntp_get_time example_host_cached (ntp_init 0 (example_session 1970 0)).1.1).1.ScanCount
        = 1
    ∧ (ntp_get_time example_host_cached (ntp_init 0 (example_session 1970 0)).1.1).1.ResendAlarm
        = 7
    ∧ (ntp_get_time example_host_cached (ntp_init 0 (example_session 1970 0)).1.1).1.UpdateTime
        = 3605000000 :=
  ⟨by decide, by decide,
   (ntp_get_time_without_init example_host_cached (ntp_init 0 (example_session 1970 0)).1.1
      (by decide)).1,
   by decide, by decide, by decide, by decide, by decide⟩

/-- Inside a month two days have the same weekday exactly when they are congruent modulo 7. -/
theorem ntp_get_day_of_week_congr (k d m y : Nat) :
    ntp_get_day_of_week k m y = ntp_get_day_of_week d m y ↔ k % 7 = d % 7 := by
  have h1 := ntp_get_day_of_week_add 0 k m y
  have h2 := ntp_get_day_of_week_add 0 d m y
  have h0 := ntp_get_day_of_week_lt 0 m y
  rw [Nat.zero_add] at h1 h2
  rw [h1, h2]
  omega

/-- Number of the days `1 .. d` congruent to `d` modulo 7, for a day of a month. -/
theorem count_congruent_days (d : Nat) (hd : 1 ≤ d ∧ d ≤ 31) :
    ((List.range' 1 d).filter (fun k => decide (k % 7 = d % 7))).length = (d + 6) / 7 := by
  obtain ⟨h1, h2⟩ := hd
  interval_cases d <;> rfl

/-- The number of days `1 .. d` of a month that have the weekday of the day `d`. -/
theorem weekday_count_eq (w m y d : Nat) (hd : 1 ≤ d ∧ d ≤ 31)
    (hw : ntp_get_day_of_week d m y = w) : weekday_count w m y d = (d + 6) / 7 := by
  unfold weekday_count
  rw [← count_congruent_days d hd]
  congr 1
  apply List.filter_congr
  intro k _
  rw [← hw]
  exact decide_eq_decide.mpr (ntp_get_day_of_week_congr k d m y)

/-- The first matching day of a range of seven consecutive days is its only matching day. -/
theorem IsFirstMatch_unique (Low High : Int) (w m y d : Nat) (h7 : High = Low + 6)
    (hf : IsFirstMatch Low High w m y d) : IsUniqueMatch Low High w m y d := by
  obtain ⟨f1, f2, f3, -⟩ := hf
  refine ⟨f1, f2, f3, fun k hk1 hk2 hkw => ?_⟩
  have hc := (ntp_get_day_of_week_congr k d m y).mp (by rw [hkw, f3])
  omega

/-- A matching day in the last seven days of a month is the last day of the month with that
weekday. -/
theorem IsLastWeekday_of_match (w m y d : Nat) (h1 : 1 ≤ d)
    (h6 : ntp_get_month_days m y ≤ d + 6) (hd : d ≤ ntp_get_month_days m y)
    (hw : ntp_get_day_of_week d m y = w) : IsLastWeekday w m y d := by
  refine ⟨h1, hd, hw, fun k hk1 hk2 hkw => ?_⟩
  have hc := (ntp_get_day_of_week_congr k d m y).mp (by rw [hkw, hw])
  omega

/-- What a first matching day of a range of seven consecutive valid days of a month is: the
only matching day of the range; the 1st, 2nd or 4th day of the month with that weekday when
the range is 1..7, 8..14 or 22..28; the last day of the month with that weekday when the range
ends on the last day of the month. -/
theorem nth_weekday_of_first_match (Low High : Int) (w m y d : Nat) (h7 : High = Low + 6)
    (hlow : 1 ≤ Low) (hhigh : High ≤ (ntp_get_month_days m y : Int))
    (hf : IsFirstMatch Low High w m y d) :
    IsUniqueMatch Low High w m y d
    ∧ (Low = 1 → IsNthWeekday 1 w m y d)
    ∧ (Low = 8 → IsNthWeekday 2 w m y d)
    ∧ (Low = 22 → IsNthWeekday 4 w m y d)
    ∧ (High = (ntp_get_month_days m y : Int) → IsLastWeekday w m y d) := by
  have hu := IsFirstMatch_unique Low High w m y d h7 hf
  obtain ⟨f1, f2, f3, -⟩ := hf
  have hd31 := ntp_get_month_days_le m y
  have hc := weekday_count_eq w m y d ⟨by omega, by omega⟩ f3
  refine ⟨hu, fun h => ⟨by omega, by omega, f3, ?_⟩, fun h => ⟨by omega, by omega, f3, ?_⟩,
    fun h => ⟨by omega, by omega, f3, ?_⟩,
    fun h => IsLastWeekday_of_match w m y d (by omega) (by omega) (by omega) f3⟩
  · rw [hc]
    omega
  · rw [hc]
    omega
  · rw [hc]
    omega

/-- C32: the scan locates the rule's Nth weekday of the month.  For every table rule (codes
1..12) and every year (in particular 2000..2100) the start scan and the end scan find a day,
and the day found is the only day of the rule's range having the rule's weekday; when the
range is 1..7, 8..14 or 22..28 it is the 1st, 2nd or 4th day of that month with that weekday,
and when the range ends on the last day of the month it is the last day of the month with
that weekday.  The rule of code 10 is a Sunday in 8..14 of March and a Sunday in 1..7 of
November: the second Sunday of March and the first Sunday of November. -/
theorem dst_scan_nth_weekday (c Year : Nat) (hc : 1 ≤ c ∧ c ≤ 12) :
    (dst_scan_start (DstParameters c) Year).isSome = true
    ∧ (dst_scan_end (DstParameters c) Year).isSome = true
    ∧ (∀ StartDoM : Nat, dst_scan_start (DstParameters c) Year = some StartDoM →
        IsUniqueMatch (DstParameters c).StartDayOfMonthLow (DstParameters c).StartDayOfMonthHigh
          (DstParameters c).StartDayOfWeek (DstParameters c).StartMonth Year StartDoM
        ∧ ((DstParameters c).StartDayOfMonthLow = 1 ∧ (DstParameters c).StartDayOfMonthHigh = 7 →
            IsNthWeekday 1 (DstParameters c).StartDayOfWeek (DstParameters c).StartMonth Year
              StartDoM)
        ∧ ((DstParameters c).StartDayOfMonthLow = 8 ∧ (DstParameters c).StartDayOfMonthHigh = 14 →
            IsNthWeekday 2 (DstParameters c).StartDayOfWeek (DstParameters c).StartMonth Year
              StartDoM)
        ∧ ((DstParameters c).StartDayOfMonthLow = 22 ∧ (DstParameters c).StartDayOfMonthHigh = 28 →
            IsNthWeekday 4 (DstParameters c).StartDayOfWeek (DstParameters c).StartMonth Year
              StartDoM)
        ∧ ((DstParameters c).StartDayOfMonthHigh
              = (ntp_get_month_days (DstParameters c).StartMonth Year : Int) →
            IsLastWeekday (DstParameters c).StartDayOfWeek (DstParameters c).StartMonth Year
              StartDoM))
    ∧ (∀ EndDoM : Nat, dst_scan_end (DstParameters c) Year = some EndDoM →
        IsUniqueMatch (DstParameters c).EndDayOfMonthLow (DstParameters c).EndDayOfMonthHigh
          (DstParameters c).EndDayOfWeek (DstParameters c).EndMonth Year EndDoM
        ∧ ((DstParameters c).EndDayOfMonthLow = 1 ∧ (DstParameters c).EndDayOfMonthHigh = 7 →
            IsNthWeekday 1 (DstParameters c).EndDayOfWeek (DstParameters c).EndMonth Year EndDoM)
        ∧ ((DstParameters c).EndDayOfMonthLow = 8 ∧ (DstParameters c).EndDayOfMonthHigh = 14 →
            IsNthWeekday 2 (DstParameters c).EndDayOfWeek (DstParameters c).EndMonth Year EndDoM)
        ∧ ((DstParameters c).EndDayOfMonthLow = 22 ∧ (DstParameters c).EndDayOfMonthHigh = 28 →
            IsNthWeekday 4 (DstParameters c).EndDayOfWeek (DstParameters c).EndMonth Year EndDoM)
        ∧ ((DstParameters c).EndDayOfMonthHigh
              = (ntp_get_month_days (DstParameters c).EndMonth Year : Int) →
            IsLastWeekday (DstParameters c).EndDayOfWeek (DstParameters c).EndMonth Year EndDoM))
    ∧ ((DstParameters 10).StartMonth = 3 ∧ (DstParameters 10).StartDayOfWeek = 0
        ∧ (DstParameters 10).StartDayOfMonthLow = 8 ∧ (DstParameters 10).StartDayOfMonthHigh = 14
        ∧ (DstParameters 10).EndMonth = 11 ∧ (DstParameters 10).EndDayOfWeek = 0
        ∧ (DstParameters 10).EndDayOfMonthLow = 1 ∧ (DstParameters 10).EndDayOfMonthHigh = 7) := by
  obtain ⟨sd, hs1, hs2⟩ := dst_scan_start_table c Year hc
  obtain ⟨ed, he1, he2⟩ := dst_scan_end_table c Year hc
  have hshape : ((DstParameters c).StartDayOfMonthHigh = (DstParameters c).StartDayOfMonthLow + 6
        ∧ 1 ≤ (DstParameters c).StartDayOfMonthLow
        ∧ (DstParameters c).StartDayOfMonthHigh
            ≤ (ntp_get_month_days (DstParameters c).StartMonth Year : Int))
      ∧ ((DstParameters c).EndDayOfMonthHigh = (DstParameters c).EndDayOfMonthLow + 6
        ∧ 1 ≤ (DstParameters c).EndDayOfMonthLow
        ∧ (DstParameters c).EndDayOfMonthHigh
            ≤ (ntp_get_month_days (DstParameters c).EndMonth Year : Int)) := by
    obtain ⟨h1, h2⟩ := hc
    interval_cases c <;> simp [DstParameters, ntp_get_month_days]
  obtain ⟨⟨a1, a2, a3⟩, ⟨b1, b2, b3⟩⟩ := hshape
  obtain ⟨u1, u2, u3, u4, u5⟩ := nth_weekday_of_first_match _ _ _ _ Year sd a1 a2 a3 hs2
  obtain ⟨v1, v2, v3, v4, v5⟩ := nth_weekday_of_first_match _ _ _ _ Year ed b1 b2 b3 he2
  refine ⟨by rw [hs1]; rfl, by rw [he1]; rfl, fun StartDoM h => ?_, fun EndDoM h => ?_,
    by decide⟩
  · rw [hs1] at h
    have hd : sd = StartDoM := by simpa using h
    subst hd
    exact ⟨u1, fun h => u2 h.1, fun h => u3 h.1, fun h => u4 h.1, u5⟩
  · rw [he1] at h
    have hd : ed = EndDoM := by simpa using h
    subst hd
    exact ⟨v1, fun h => v2 h.1, fun h => v3 h.1, fun h => v4 h.1, v5⟩

/-- Witness for C32 on the rule of North America (code 10) in 2025: the scans find 9 March,
the second Sunday of March, and 2 November, the first Sunday of November; and on the start of
the rule of the European Union (code 5) in 2025: 30 March, the last Sunday of March. -/
theorem dst_scan_nth_weekday_witness :
    (1 ≤ 10 ∧ 10 ≤ 12)
    ∧ dst_scan_start (DstParameters 10) 2025 = some 9
    ∧ dst_scan_end (DstParameters 10) 2025 = some 2
    ∧ IsNthWeekday 2 0 3 2025 9
    ∧ IsNthWeekday 1 0 11 2025 2
    ∧ weekday_count 0 3 2025 9 = 2
    ∧ weekday_count 0 11 2025 2 = 1
    ∧ dst_scan_start (DstParameters 5) 2025 = some 30
    ∧ IsLastWeekday 0 3 2025 30 :=
  ⟨by decide, by decide, by decide,
   ((dst_scan_nth_weekday 10 2025 (by decide)).2.2.1 9 (by decide)).2.2.1
      ⟨by decide, by decide⟩,
   ((dst_scan_nth_weekday 10 2025 (by decide)).2.2.2.1 2 (by decide)).2.1
      ⟨by decide, by decide⟩,
   by decide, by decide, by decide,
   ((dst_scan_nth_weekday 5 2025 (by decide)).2.2.1 30 (by decide)).2.2.2.2 (by decide)⟩

/-- The months of the rows 1..12: a northern rule (start month before end month) starts in
March and ends in October or November; a southern rule starts in September or October and
ends in March or April. -/
theorem DstParameters_months (c : Nat) (hc : 1 ≤ c ∧ c ≤ 12) :
    ((DstParameters c).StartMonth < (DstParameters c).EndMonth →
        (DstParameters c).StartMonth = 3
        ∧ ((DstParameters c).EndMonth = 10 ∨ (DstParameters c).EndMonth = 11))
    ∧ (¬ (DstParameters c).StartMonth < (DstParameters c).EndMonth →
        ((DstParameters c).StartMonth = 9 ∨ (DstParameters c).StartMonth = 10)
        ∧ ((DstParameters c).EndMonth = 3 ∨ (DstParameters c).EndMonth = 4)) := by
  obtain ⟨h1, h2⟩ := hc
  interval_cases c <;> decide

/-- The arithmetic of the order of the two transitions.  `K` is the day number of the last day
of February of the session year, `offS` and `offE` the number of days from 1 March to the
first day of the start and of the end month. -/
theorem transition_order_arith (K : Int) (sd ed sh eh shift offS offE : Nat) (delta S E : Int)
    (hsd : 1 ≤ sd ∧ sd ≤ 31) (hed : 1 ≤ ed ∧ ed ≤ 31) (hsh : sh ≤ 24) (heh : eh ≤ 24)
    (hshift : shift ≤ 60)
    (hS : S = (K + (offS : Int) + sd) * 86400 + (sh : Int) * 3600 - delta * 60)
    (hE : E = (K + (offE : Int) + ed) * 86400 + (eh : Int) * 3600 - delta * 60
            - (shift : Int) * 60) :
    (offS = 0 → offE = 214 ∨ offE = 245 → S + 8640000 ≤ E)
    ∧ (offS = 184 ∨ offS = 214 → offE = 0 ∨ offE = 31 → E + 8640000 ≤ S) := by
  constructor
  · intro ho ho'
    subst ho
    rcases ho' with h | h <;> subst h <;> omega
  · intro ho ho'
    rcases ho with h | h <;> rcases ho' with h' | h' <;> subst h <;> subst h' <;> omega

/-- The two transition instants computed by `ntp_dst_settings` for a session year from 1970
on, as integers: `DSTStart` and `DSTEnd` hold `S` and `E`, both positive, with the day number
written from `K`, the day number of the last day of February of the session year. -/
theorem dst_transition_days (s : struct_ntp) (hc : 1 ≤ s.DSTCountry ∧ s.DSTCountry ≤ 12)
    (hdelta : -32768 ≤ s.DeltaTime ∧ s.DeltaTime ≤ 32767)
    (hyear : 1970 ≤ s.HumanTime.Year ∧ s.HumanTime.Year < 65536) (StartDoM EndDoM : Nat)
    (h1 : dst_scan_start (DstParameters s.DSTCountry) s.HumanTime.Year = some StartDoM)
    (h2 : dst_scan_end (DstParameters s.DSTCountry) s.HumanTime.Year = some EndDoM) :
    ∃ S E K : Int,
      ((ntp_dst_settings s).DSTStart : Int) = S ∧ ((ntp_dst_settings s).DSTEnd : Int) = E
      ∧ (3000000 ≤ S ∧ S ≤ 2030000000000) ∧ (3000000 ≤ E ∧ E ≤ 2030000000000)
      ∧ S = mktime (ntp_convert_human_to_tm (civil_time s.HumanTime.Year
            (DstParameters s.DSTCountry).StartMonth StartDoM
            (DstParameters s.DSTCountry).StartHour 0 0)) - s.DeltaTime * 60
      ∧ E = mktime (ntp_convert_human_to_tm (civil_time s.HumanTime.Year
            (DstParameters s.DSTCountry).EndMonth EndDoM
            (DstParameters s.DSTCountry).EndHour 0 0)) - s.DeltaTime * 60
            - ((DstParameters s.DSTCountry).ShiftMinutes : Int) * 60
      ∧ S = (K + ((([306, 337, 0, 31, 61, 92, 122, 153, 184, 214, 245, 275] : List Nat).getD
              ((DstParameters s.DSTCountry).StartMonth - 1) 0 : Nat) : Int) + StartDoM) * 86400
            + ((DstParameters s.DSTCountry).StartHour : Int) * 3600 - s.DeltaTime * 60
      ∧ E = (K + ((([306, 337, 0, 31, 61, 92, 122, 153, 184, 214, 245, 275] : List Nat).getD
              ((DstParameters s.DSTCountry).EndMonth - 1) 0 : Nat) : Int) + EndDoM) * 86400
            + ((DstParameters s.DSTCountry).EndHour : Int) * 3600 - s.DeltaTime * 60
            - ((DstParameters s.DSTCountry).ShiftMinutes : Int) * 60
      ∧ (1 ≤ StartDoM ∧ StartDoM ≤ 31) ∧ (1 ≤ EndDoM ∧ EndDoM ≤ 31) := by
  obtain ⟨-, -, -, -, -, -, -, -, -, -, hsm, hem, hsh, heh, -, hshift⟩ :=
    DstParameters_shape s.DSTCountry hc
  obtain ⟨hsd, hed⟩ := dst_scan_table_range s.DSTCountry s.HumanTime.Year StartDoM EndDoM hc h1 h2
  obtain ⟨S, E, hS, hE, f1, f2, bS, bE, hpos, -⟩ :=
    dst_transition_instants s hc hdelta hyear.2 StartDoM EndDoM h1 h2
  obtain ⟨hpS, hpE⟩ := hpos hyear.1
  obtain ⟨ms, -⟩ := mktime_transition s.HumanTime.Year (DstParameters s.DSTCountry).StartMonth
    StartDoM (DstParameters s.DSTCountry).StartHour hsm hsd hsh hyear.2
  obtain ⟨me, -⟩ := mktime_transition s.HumanTime.Year (DstParameters s.DSTCountry).EndMonth
    EndDoM (DstParameters s.DSTCountry).EndHour hem hed heh hyear.2
  have dS := days_from_civil_from_march s.HumanTime.Year (DstParameters s.DSTCountry).StartMonth
    StartDoM ⟨hsm.1, by omega⟩
  have dE := days_from_civil_from_march s.HumanTime.Year (DstParameters s.DSTCountry).EndMonth
    EndDoM ⟨hem.1, by omega⟩
  refine ⟨S, E, 365 * (s.HumanTime.Year : Int) + (s.HumanTime.Year : Int) / 4
      - (s.HumanTime.Year : Int) / 100 + (s.HumanTime.Year : Int) / 400 - 719469, ?_, ?_,
    ⟨hpS, bS.2⟩, ⟨hpE, bE.2⟩, hS, hE, ?_, ?_, hsd, hed⟩
  · rw [f1]
    exact toU64_of_nonneg S (by omega) (by omega)
  · rw [f2]
    exact toU64_of_nonneg E (by omega) (by omega)
  · rw [hS, ms, dS]
    ring
  · rw [hE, me, dE]
    ring

/-- C38: ordering of the computed transitions.  For every country code in 1..12, every session
year in 2000..2100 and every `INT16` `DeltaTime`, after `ntp_dst_settings` the stored instants
satisfy `DSTStart < DSTEnd` when the rule has `StartMonth < EndMonth` (north style) and
`DSTEnd < DSTStart` otherwise (south style); the two instants are more than 100 days
(8640000 seconds) apart, so the interval tested by the status check is never empty or
inverted. -/
theorem ntp_dst_settings_order (s : struct_ntp) (hc : 1 ≤ s.DSTCountry ∧ s.DSTCountry ≤ 12)
    (hyear : 2000 ≤ s.HumanTime.Year ∧ s.HumanTime.Year ≤ 2100)
    (hdelta : -32768 ≤ s.DeltaTime ∧ s.DeltaTime ≤ 32767) :
    ((DstParameters s.DSTCountry).StartMonth < (DstParameters s.DSTCountry).EndMonth →
        (ntp_dst_settings s).DSTStart < (ntp_dst_settings s).DSTEnd
        ∧ (ntp_dst_settings s).DSTStart + 8640000 ≤ (ntp_dst_settings s).DSTEnd)
    ∧ (¬ (DstParameters s.DSTCountry).StartMonth < (DstParameters s.DSTCountry).EndMonth →
        (ntp_dst_settings s).DSTEnd < (ntp_dst_settings s).DSTStart
        ∧ (ntp_dst_settings s).DSTEnd + 8640000 ≤ (ntp_dst_settings s).DSTStart) := by
  obtain ⟨sd, h1, -⟩ := dst_scan_start_table s.DSTCountry s.HumanTime.Year hc
  obtain ⟨ed, h2, -⟩ := dst_scan_end_table s.DSTCountry s.HumanTime.Year hc
  obtain ⟨-, -, -, -, -, -, -, -, -, -, -, -, hsh, heh, -, hshift⟩ :=
    DstParameters_shape s.DSTCountry hc
  obtain ⟨S, E, K, f1, f2, bS, bE, -, -, hS, hE, hsd, hed⟩ :=
    dst_transition_days s hc hdelta ⟨by omega, by omega⟩ sd ed h1 h2
  obtain ⟨mn, ms⟩ := DstParameters_months s.DSTCountry hc
  obtain ⟨a1, a2⟩ := transition_order_arith K sd ed (DstParameters s.DSTCountry).StartHour
    (DstParameters s.DSTCountry).EndHour (DstParameters s.DSTCountry).ShiftMinutes _ _
    s.DeltaTime S E hsd hed hsh heh hshift hS hE
  constructor
  · intro hn
    obtain ⟨m1, m2⟩ := mn hn
    have hb := a1 (by rw [m1]; rfl) (by rcases m2 with h | h <;> rw [h] <;> decide)
    clear hS hE a1 a2 mn ms
    omega
  · intro hn
    obtain ⟨m1, m2⟩ := ms hn
    have hb := a2 (by rcases m1 with h | h <;> rw [h] <;> decide)
      (by rcases m2 with h | h <;> rw [h] <;> decide)
    clear hS hE a1 a2 mn ms
    omega

/-- Witness for C38 on the example session (North America, north style) and on the southern
example session (Australia) in 2025. -/
theorem ntp_dst_settings_order_witness :
    (1 ≤ (example_session 2025 0).DSTCountry ∧ (example_session 2025 0).DSTCountry ≤ 12)
    ∧ (DstParameters 10).StartMonth < (DstParameters 10).EndMonth
    ∧ ¬ (DstParameters 1).StartMonth < (DstParameters 1).EndMonth
    ∧ (ntp_dst_settings (example_session 2025 0)).DSTStart = 1741503600
    ∧ (ntp_dst_settings (example_session 2025 0)).DSTEnd = 1762063200
    ∧ (ntp_dst_settings (example_session 2025 0)).DSTStart
        < (ntp_dst_settings (example_session 2025 0)).DSTEnd
    ∧ (ntp_dst_settings (example_session_south 2025 0)).DSTEnd
        < (ntp_dst_settings (example_session_south 2025 0)).DSTStart :=
  ⟨by decide, by decide, by decide, by decide, by decide,
   ((ntp_dst_settings_order (example_session 2025 0) (by decide) (by decide) (by decide)).1
      (by decide)).1,
   ((ntp_dst_settings_order (example_session_south 2025 0) (by decide) (by decide)
      (by decide)).2 (by decide)).1⟩

/-- C34: the instants computed for the rule of the European Union (country code 5), whose
hours the table gives as based on UTC time.  For every session year in 2000..2100 and every
`INT16` `DeltaTime`, the scans find the last Sunday of March and the last Sunday of October,
and with `T_start` and `T_end` the Unix times of 01:00:00 UTC on those two days,
`ntp_dst_settings` yields `DSTStart = T_start - DeltaTime * 60` and
`DSTEnd = T_end - DeltaTime * 60 - 3600`: the hours are taken as local time.  So `DSTStart` is
`T_start` only for `DeltaTime = 0`, `DSTEnd` is `T_end` only for `DeltaTime = -60`, and for no
`DeltaTime` are both instants those of 01:00:00 UTC. -/
theorem eu_rule_instants (s : struct_ntp) (hc : s.DSTCountry = 5)
    (hyear : 2000 ≤ s.HumanTime.Year ∧ s.HumanTime.Year ≤ 2100)
    (hdelta : -32768 ≤ s.DeltaTime ∧ s.DeltaTime ≤ 32767) (StartDoM EndDoM : Nat)
    (h1 : dst_scan_start (DstParameters s.DSTCountry) s.HumanTime.Year = some StartDoM)
    (h2 : dst_scan_end (DstParameters s.DSTCountry) s.HumanTime.Year = some EndDoM) :
    IsLastWeekday 0 3 s.HumanTime.Year StartDoM
    ∧ IsLastWeekday 0 10 s.HumanTime.Year EndDoM
    ∧ ((ntp_dst_settings s).DSTStart : Int)
        = (ntp_convert_human_to_unix (civil_time s.HumanTime.Year 3 StartDoM 1 0 0) : Int)
          - s.DeltaTime * 60
    ∧ ((ntp_dst_settings s).DSTEnd : Int)
        = (ntp_convert_human_to_unix (civil_time s.HumanTime.Year 10 EndDoM 1 0 0) : Int)
          - s.DeltaTime * 60 - 3600
    ∧ ((ntp_dst_settings s).DSTStart
          = ntp_convert_human_to_unix (civil_time s.HumanTime.Year 3 StartDoM 1 0 0)
        ↔ s.DeltaTime = 0)
    ∧ ((ntp_dst_settings s).DSTEnd
          = ntp_convert_human_to_unix (civil_time s.HumanTime.Year 10 EndDoM 1 0 0)
        ↔ s.DeltaTime = -60)
    ∧ ¬ ((ntp_dst_settings s).DSTStart
          = ntp_convert_human_to_unix (civil_time s.HumanTime.Year 3 StartDoM 1 0 0)
        ∧ (ntp_dst_settings s).DSTEnd
          = ntp_convert_human_to_unix (civil_time s.HumanTime.Year 10 EndDoM 1 0 0)) := by
  have hc12 : 1 ≤ s.DSTCountry ∧ s.DSTCountry ≤ 12 := by omega
  obtain ⟨sd, hs1, hs2⟩ := dst_scan_start_table s.DSTCountry s.HumanTime.Year hc12
  obtain ⟨ed, he1, he2⟩ := dst_scan_end_table s.DSTCountry s.HumanTime.Year hc12
  rw [h1] at hs1
  rw [h2] at he1
  have hsd : StartDoM = sd := by simpa using hs1
  have hed : EndDoM = ed := by simpa using he1
  subst hsd hed
  obtain ⟨S, E, K, f1, f2, bS, bE, hS, hE, -, -, rsd, red⟩ :=
    dst_transition_days s hc12 hdelta ⟨by omega, by omega⟩ StartDoM EndDoM h1 h2
  rw [hc] at hS hE hs2 he2
  obtain ⟨s1, s2, s3, -⟩ := hs2
  obtain ⟨e1, e2, e3, -⟩ := he2
  have s1' : (25 : Int) ≤ StartDoM := s1
  have s2' : (StartDoM : Int) ≤ 31 := s2
  have s3' : ntp_get_day_of_week StartDoM 3 s.HumanTime.Year = 0 := s3
  have e1' : (25 : Int) ≤ EndDoM := e1
  have e2' : (EndDoM : Int) ≤ 31 := e2
  have e3' : ntp_get_day_of_week EndDoM 10 s.HumanTime.Year = 0 := e3
  have m3 : ntp_get_month_days 3 s.HumanTime.Year = 31 := by simp [ntp_get_month_days]
  have m10 : ntp_get_month_days 10 s.HumanTime.Year = 31 := by simp [ntp_get_month_days]
  have hS' : S = mktime (ntp_convert_human_to_tm (civil_time s.HumanTime.Year 3 StartDoM 1 0 0))
      - s.DeltaTime * 60 := hS
  have hE' : E = mktime (ntp_convert_human_to_tm (civil_time s.HumanTime.Year 10 EndDoM 1 0 0))
      - s.DeltaTime * 60 - 3600 := hE
  obtain ⟨-, -, ts2, ts3, -⟩ := mktime_transition s.HumanTime.Year 3 StartDoM 1 (by decide) rsd
    (by decide) (by omega)
  obtain ⟨-, -, te2, te3, -⟩ := mktime_transition s.HumanTime.Year 10 EndDoM 1 (by decide) red
    (by decide) (by omega)
  have ts := ts3 (by omega)
  have te := te3 (by omega)
  have uS : (ntp_convert_human_to_unix (civil_time s.HumanTime.Year 3 StartDoM 1 0 0) : Int)
      = mktime (ntp_convert_human_to_tm (civil_time s.HumanTime.Year 3 StartDoM 1 0 0)) :=
    toU64_of_nonneg _ (by omega) (by omega)
  have uE : (ntp_convert_human_to_unix (civil_time s.HumanTime.Year 10 EndDoM 1 0 0) : Int)
      = mktime (ntp_convert_human_to_tm (civil_time s.HumanTime.Year 10 EndDoM 1 0 0)) :=
    toU64_of_nonneg _ (by omega) (by omega)
  have gS : ((ntp_dst_settings s).DSTStart : Int)
      = (ntp_convert_human_to_unix (civil_time s.HumanTime.Year 3 StartDoM 1 0 0) : Int)
        - s.DeltaTime * 60 := by rw [f1, hS', uS]
  have gE : ((ntp_dst_settings s).DSTEnd : Int)
      = (ntp_convert_human_to_unix (civil_time s.HumanTime.Year 10 EndDoM 1 0 0) : Int)
        - s.DeltaTime * 60 - 3600 := by rw [f2, hE', uE]
  refine ⟨IsLastWeekday_of_match 0 3 s.HumanTime.Year StartDoM (by omega) (by omega) (by omega)
      s3',
    IsLastWeekday_of_match 0 10 s.HumanTime.Year EndDoM (by omega) (by omega) (by omega) e3',
    gS, gE, ⟨fun h => ?_, fun h => ?_⟩, ⟨fun h => ?_, fun h => ?_⟩, fun h => ?_⟩
  · rw [h] at gS
    omega
  · rw [h] at gS
    omega
  · rw [h] at gE
    omega
  · rw [h] at gE
    omega
  · rw [h.1] at gS
    rw [h.2] at gE
    omega

/-- Witness for C34 on a session of Central European Time (`DeltaTime = 60`) in 2025: the last
Sundays are 30 March and 26 October; 01:00:00 UTC on these days is 1743296400 and 1761440400,
and the instants computed are 1743292800 (00:00:00 UTC on 30 March) and 1761433200
(23:00:00 UTC on 25 October).  At 00:30:00 UTC on 30 March daylight saving time is taken as
active. -/
theorem eu_rule_instants_witness :
    (example_session_europe 2025 0).DSTCountry = 5
    ∧ dst_scan_start (DstParameters 5) 2025 = some 30
    ∧ dst_scan_end (DstParameters 5) 2025 = some 26
    ∧ ntp_convert_human_to_unix (civil_time 2025 3 30 1 0 0) = 1743296400
    ∧ ntp_convert_human_to_unix (civil_time 2025 10 26 1 0 0) = 1761440400
    ∧ (ntp_dst_settings (example_session_europe 2025 0)).DSTStart = 1743292800
    ∧ (ntp_dst_settings (example_session_europe 2025 0)).DSTEnd = 1761433200
    ∧ (ntp_dst_settings (example_session_europe 2025 1743294600)).FlagSummerTime = FLAG_ON
    ∧ ¬ ((ntp_dst_settings (example_session_europe 2025 0)).DSTStart
          = ntp_convert_human_to_unix (civil_time 2025 3 30 1 0 0)
        ∧ (ntp_dst_settings (example_session_europe 2025 0)).DSTEnd
          = ntp_convert_human_to_unix (civil_time 2025 10 26 1 0 0)) :=
  ⟨by decide, by decide, by decide, by decide, by decide, by decide, by decide, by decide,
   (eu_rule_instants (example_session_europe 2025 0) (by decide) (by decide) (by decide) 30 26
      (by decide) (by decide)).2.2.2.2.2.2⟩

/-- The `HumanTime` written by `ntp_convert_unix_time` for a Unix time of the years 2000..2100
is the civil decomposition of that Unix time: a valid date and time of day whose Unix time
(`mktime`) is the one given, with the weekday of the date. -/
theorem ntp_convert_unix_time_record (u : Int) (s : struct_ntp)
    (hu : 946684800 ≤ u ∧ u < 4133980800) :
    mktime (ntp_convert_human_to_tm (ntp_convert_unix_time u s).2.HumanTime) = u
    ∧ (2000 ≤ (ntp_convert_unix_time u s).2.HumanTime.Year
        ∧ (ntp_convert_unix_time u s).2.HumanTime.Year ≤ 2100)
    ∧ (1 ≤ (ntp_convert_unix_time u s).2.HumanTime.Month
        ∧ (ntp_convert_unix_time u s).2.HumanTime.Month ≤ 12)
    ∧ (1 ≤ (ntp_convert_unix_time u s).2.HumanTime.DayOfMonth
        ∧ (ntp_convert_unix_time u s).2.HumanTime.DayOfMonth
            ≤ ntp_get_month_days (ntp_convert_unix_time u s).2.HumanTime.Month
                (ntp_convert_unix_time u s).2.HumanTime.Year)
    ∧ (ntp_convert_unix_time u s).2.HumanTime.Hour ≤ 23
    ∧ (ntp_convert_unix_time u s).2.HumanTime.Minute ≤ 59
    ∧ (ntp_convert_unix_time u s).2.HumanTime.Second ≤ 59
    ∧ (ntp_convert_unix_time u s).2.HumanTime.DayOfWeek
        = ntp_get_day_of_week (ntp_convert_unix_time u s).2.HumanTime.DayOfMonth
            (ntp_convert_unix_time u s).2.HumanTime.Month
            (ntp_convert_unix_time u s).2.HumanTime.Year
    ∧ ((ntp_convert_unix_time u s).2.HumanTime.Hour : Int) = u % 86400 / 3600
    ∧ ((ntp_convert_unix_time u s).2.HumanTime.Minute : Int) = u % 3600 / 60
    ∧ ((ntp_convert_unix_time u s).2.HumanTime.Second : Int) = u % 60 := by
  obtain ⟨y, m, d, hy, hm, hd, he, fY, fM, fD, fW, -, -⟩ := ntp_convert_unix_time_civil u s hu
  have hH : (ntp_convert_unix_time u s).2.HumanTime.Hour = toU8 (u % 86400 / 3600) := rfl
  have hMi : (ntp_convert_unix_time u s).2.HumanTime.Minute
      = toU8 (u % 86400 % 3600 / 60) := rfl
  have hS : (ntp_convert_unix_time u s).2.HumanTime.Second = toU8 (u % 86400 % 60) := rfl
  have hw := ntp_get_day_of_week_day_number d m y ⟨by omega, by omega⟩ hm
  have hmk := mktime_human (ntp_convert_unix_time u s).2.HumanTime (by rw [fM]; exact hm)
  have hH2 : ((ntp_convert_unix_time u s).2.HumanTime.Hour : Int) = u % 86400 / 3600 := by
    rw [hH]
    unfold toU8
    omega
  have hMi2 : ((ntp_convert_unix_time u s).2.HumanTime.Minute : Int) = u % 3600 / 60 := by
    rw [hMi]
    unfold toU8
    omega
  have hS2 : ((ntp_convert_unix_time u s).2.HumanTime.Second : Int) = u % 60 := by
    rw [hS]
    unfold toU8
    omega
  rw [hmk, hH2, hMi2, hS2, fY, fM, fD, he]
  refine ⟨by omega, hy, hm, hd, ?_, ?_, ?_, ?_, rfl, rfl, rfl⟩
  · have : ((ntp_convert_unix_time u s).2.HumanTime.Hour : Int) ≤ 23 := by
      rw [hH2]
      omega
    omega
  · have : ((ntp_convert_unix_time u s).2.HumanTime.Minute : Int) ≤ 59 := by
      rw [hMi2]
      omega
    omega
  · have : ((ntp_convert_unix_time u s).2.HumanTime.Second : Int) ≤ 59 := by
      rw [hS2]
      omega
    omega
  · have hi : ((ntp_convert_unix_time u s).2.HumanTime.DayOfWeek : Int)
        = (ntp_get_day_of_week d m y : Int) := by
      rw [fW, hw, he]
    exact_mod_cast hi

/-- The local time and the civil record left by a successful `ntp_result`: they are those of
the success branch, in which the record is the conversion of the local time. -/
theorem ntp_result_success_record (now : Nat) (ts : Int) (s : struct_ntp) :
    (ntp_result now 0 (some ts) s).1.LocalTime = (ntp_result_success ts s).LocalTime
    ∧ (ntp_result now 0 (some ts) s).1.HumanTime = (ntp_result_success ts s).HumanTime
    ∧ (ntp_result now 0 (some ts) s).1.UTCTime = ts
    ∧ (ntp_result now 0 (some ts) s).1.FlagSummerTime = (ntp_result_success ts s).FlagSummerTime
    ∧ (ntp_result now 0 (some ts) s).1.ShiftMinutes = (ntp_result_success ts s).ShiftMinutes
    ∧ (ntp_result_success ts s).HumanTime
        = (ntp_convert_unix_time (ntp_result_success ts s).LocalTime s).2.HumanTime
    ∧ (ntp_result_success ts s).LocalTime
        = wrapI64 (wrapI64 (ts + s.DeltaTime * 60)
            + ((ntp_result_success ts s).FlagSummerTime : Int)
              * ((ntp_result_success ts s).ShiftMinutes * 60)) := by
  have hD : (ntp_dst_settings
      (ntp_convert_unix_time ts { s with UTCTime := ts, FlagSuccess := FLAG_ON }).2).DeltaTime
      = s.DeltaTime :=
    (ntp_dst_settings_frame
      (ntp_convert_unix_time ts { s with UTCTime := ts, FlagSuccess := FLAG_ON }).2).2.2.2.2.2.2.1
  refine ⟨?_, ?_, ?_, ?_, ?_, rfl, ?_⟩
  · unfold ntp_result
    simp only [if_true]
    split_ifs <;> rfl
  · unfold ntp_result
    simp only [if_true]
    split_ifs <;> rfl
  · have h : (ntp_result now 0 (some ts) s).1.UTCTime = (ntp_result_success ts s).UTCTime := by
      unfold ntp_result
      simp only [if_true]
      split_ifs <;> rfl
    exact h.trans (ntp_result_success_fields ts s).1
  · unfold ntp_result
    simp only [if_true]
    split_ifs <;> rfl
  · unfold ntp_result
    simp only [if_true]
    split_ifs <;> rfl
  · show wrapI64 (wrapI64 (ts + (ntp_dst_settings
      (ntp_convert_unix_time ts { s with UTCTime := ts, FlagSuccess := FLAG_ON }).2).DeltaTime
        * 60) + _) = _
    rw [hD]
    rfl

/-- The two `time_t` additions that give the local time do not wrap around when their result
is a Unix time of the years 2000..2100. -/
theorem local_time_no_wrap (ts delta b L : Int)
    (hdelta : -32768 ≤ delta ∧ delta ≤ 32767)
    (hts : -9223372036854775808 ≤ ts ∧ ts < 9223372036854775808)
    (hb : 0 ≤ b ∧ b ≤ 3600) (hL : 946684800 ≤ L ∧ L < 4133980800)
    (he : L = wrapI64 (wrapI64 (ts + delta * 60) + b)) : L = ts + delta * 60 + b := by
  unfold wrapI64 at he
  omega

/-- C33: the civil record produced by a successful cycle is local time.  For every session
(`DeltaTime` an `INT16`) and every timestamp `ts` (a `time_t`) such that the local time left by
`ntp_result(0, ts)` falls in a year in 2000..2100, the `HumanTime` on return is the conversion
(`ntp_convert_unix_time`) of the final `LocalTime`, which is `ts + DeltaTime * 60` plus
`ShiftMinutes * 60` when daylight saving time is active: `Year`, `Month`, `DayOfMonth`,
`Hour`, `Minute` and `Second` are a valid date and time of day whose Unix time is `LocalTime`,
and `DayOfWeek` is the weekday of that date.  The record is not the decomposition of the UTC
timestamp `ts` (kept in `UTCTime`) whenever the local time differs from it. -/
theorem ntp_result_civil_record (now : Nat) (ts : Int) (s : struct_ntp)
    (hdelta : -32768 ≤ s.DeltaTime ∧ s.DeltaTime ≤ 32767)
    (hts : -9223372036854775808 ≤ ts ∧ ts < 9223372036854775808)
    (hlocal : 946684800 ≤ (ntp_result now 0 (some ts) s).1.LocalTime
      ∧ (ntp_result now 0 (some ts) s).1.LocalTime < 4133980800) :
    (ntp_result now 0 (some ts) s).1.HumanTime
        = (ntp_convert_unix_time (ntp_result now 0 (some ts) s).1.LocalTime s).2.HumanTime
    ∧ (ntp_result now 0 (some ts) s).1.LocalTime
        = ts + s.DeltaTime * 60
          + (if (ntp_result now 0 (some ts) s).1.FlagSummerTime = FLAG_ON
             then (ntp_result now 0 (some ts) s).1.ShiftMinutes * 60 else 0)
    ∧ (ntp_result now 0 (some ts) s).1.UTCTime = ts
    ∧ mktime (ntp_convert_human_to_tm (ntp_result now 0 (some ts) s).1.HumanTime)
        = (ntp_result now 0 (some ts) s).1.LocalTime
    ∧ (2000 ≤ (ntp_result now 0 (some ts) s).1.HumanTime.Year
        ∧ (ntp_result now 0 (some ts) s).1.HumanTime.Year ≤ 2100)
    ∧ (1 ≤ (ntp_result now 0 (some ts) s).1.HumanTime.Month
        ∧ (ntp_result now 0 (some ts) s).1.HumanTime.Month ≤ 12)
    ∧ (1 ≤ (ntp_result now 0 (some ts) s).1.HumanTime.DayOfMonth
        ∧ (ntp_result now 0 (some ts) s).1.HumanTime.DayOfMonth
            ≤ ntp_get_month_days (ntp_result now 0 (some ts) s).1.HumanTime.Month
                (ntp_result now 0 (some ts) s).1.HumanTime.Year)
    ∧ (ntp_result now 0 (some ts) s).1.HumanTime.Hour ≤ 23
    ∧ (ntp_result now 0 (some ts) s).1.HumanTime.Minute ≤ 59
    ∧ (ntp_result now 0 (some ts) s).1.HumanTime.Second ≤ 59
    ∧ (ntp_result now 0 (some ts) s).1.HumanTime.DayOfWeek
        = ntp_get_day_of_week (ntp_result now 0 (some ts) s).1.HumanTime.DayOfMonth
            (ntp_result now 0 (some ts) s).1.HumanTime.Month
            (ntp_result now 0 (some ts) s).1.HumanTime.Year
    ∧ ((ntp_result now 0 (some ts) s).1.HumanTime.Hour : Int)
        = (ntp_result now 0 (some ts) s).1.LocalTime % 86400 / 3600
    ∧ ((ntp_result now 0 (some ts) s).1.HumanTime.Minute : Int)
        = (ntp_result now 0 (some ts) s).1.LocalTime % 3600 / 60
    ∧ ((ntp_result now 0 (some ts) s).1.HumanTime.Second : Int)
        = (ntp_result now 0 (some ts) s).1.LocalTime % 60
    ∧ ((ntp_result now 0 (some ts) s).1.LocalTime ≠ ts →
        mktime (ntp_convert_human_to_tm (ntp_result now 0 (some ts) s).1.HumanTime) ≠ ts) := by
  obtain ⟨rL, rH, rU, rF, rS, hH, hL⟩ := ntp_result_success_record now ts s
  have e : (ntp_result now 0 (some ts) s).1.HumanTime
      = (ntp_convert_unix_time (ntp_result now 0 (some ts) s).1.LocalTime s).2.HumanTime := by
    rw [rH, hH, rL]
  obtain ⟨g1, g2, g3⟩ := ntp_dst_settings_generic
    (ntp_convert_unix_time ts { s with UTCTime := ts, FlagSuccess := FLAG_ON }).2
  have hF := (ntp_result_success_fields ts s).2.2.2.2.2.2.1
  have hSh : (ntp_result_success ts s).ShiftMinutes
      = (ntp_dst_settings
          (ntp_convert_unix_time ts
            { s with UTCTime := ts, FlagSuccess := FLAG_ON }).2).ShiftMinutes := rfl
  rw [← hF] at g2 g3
  rw [← hSh] at g3
  have hloc : (ntp_result now 0 (some ts) s).1.LocalTime
      = ts + s.DeltaTime * 60
        + (if (ntp_result now 0 (some ts) s).1.FlagSummerTime = FLAG_ON
           then (ntp_result now 0 (some ts) s).1.ShiftMinutes * 60 else 0) := by
    rw [rF, rS]
    rw [rL] at hlocal
    rw [rL]
    rcases g2 with h | h
    · obtain ⟨hc, hsh⟩ := g3 h
      obtain ⟨-, -, -, -, -, -, -, -, -, -, -, -, -, -, hshift⟩ :=
        DstParameters_shape s.DSTCountry hc
      have hc' : (ntp_convert_unix_time ts
          { s with UTCTime := ts, FlagSuccess := FLAG_ON }).2.DSTCountry = s.DSTCountry := rfl
      rw [hc'] at hsh
      rw [if_pos h]
      rw [h, hsh] at hL
      rw [hsh]
      exact local_time_no_wrap ts s.DeltaTime _ _ hdelta hts
        ⟨by omega, by omega⟩ hlocal (by rw [hL]; unfold FLAG_ON; push_cast; ring_nf)
    · rw [if_neg (by rw [h]; decide)]
      rw [h] at hL
      exact local_time_no_wrap ts s.DeltaTime 0 _ hdelta hts ⟨by omega, by omega⟩ hlocal
        (by rw [hL]; unfold FLAG_OFF; push_cast; ring_nf)
  obtain ⟨c1, c2, c3, c4, c5, c6, c7, c8, c9, c10, c11⟩ :=
    ntp_convert_unix_time_record (ntp_result now 0 (some ts) s).1.LocalTime s hlocal
  rw [← e] at c1 c2 c3 c4 c5 c6 c7 c8 c9 c10 c11
  exact ⟨e, hloc, rU, c1, c2, c3, c4, c5, c6, c7, c8, c9, c10, c11,
    fun hne => by rw [c1]; exact hne⟩

/-- Witness for C33 on the example session (North America, `DeltaTime = -300`) with the
timestamp 2025-07-01 00:00:00 UTC: the local time is 2025-06-30 20:00:00 (daylight saving
time active), a Monday, and that is what the civil record holds. -/
theorem ntp_result_civil_record_witness :
    (ntp_result 0 0 (some 1751328000) (example_session 2025 0)).1.LocalTime = 1751313600
    ∧ (ntp_result 0 0 (some 1751328000) (example_session 2025 0)).1.HumanTime
        = { FlagDst := 0, Hour := 20, Minute := 0, Second := 0, DayOfWeek := 1
            DayOfMonth := 30, Month := 6, Year := 2025, DayOfYear := 180 }
    ∧ mktime (ntp_convert_human_to_tm
        (ntp_result 0 0 (some 1751328000) (example_session 2025 0)).1.HumanTime)
        = (ntp_result 0 0 (some 1751328000) (example_session 2025 0)).1.LocalTime
    ∧ (ntp_result 0 0 (some 1751328000) (example_session 2025 0)).1.HumanTime.DayOfWeek
        = ntp_get_day_of_week
            (ntp_result 0 0 (some 1751328000) (example_session 2025 0)).1.HumanTime.DayOfMonth
            (ntp_result 0 0 (some 1751328000) (example_session 2025 0)).1.HumanTime.Month
            (ntp_result 0 0 (some 1751328000) (example_session 2025 0)).1.HumanTime.Year :=
  ⟨by decide, by decide,
   (ntp_result_civil_record 0 1751328000 (example_session 2025 0) (by decide) (by decide)
      (by decide)).2.2.2.1,
   (ntp_result_civil_record 0 1751328000 (example_session 2025 0) (by decide) (by decide)
      (by decide)).2.2.2.2.2.2.2.2.2.2.1⟩

/-- The scan count after `ntp_get_time`: on a poll it is increased by one from a value below
`NTP_SCAN_FACTOR`; otherwise the read cycle is taken and it is set to 1. -/
theorem ntp_get_time_scan_count (h : get_time_host) (s : struct_ntp) :
    (ntp_get_time_is_poll s →
        (ntp_get_time h s).1.ScanCount = s.ScanCount + 1 ∧ s.ScanCount < 24)
    ∧ (¬ ntp_get_time_is_poll s →
        (ntp_get_time h s).1.ScanCount = 1
        ∧ (ntp_get_time h s).1.ReadCycles = (s.ReadCycles + 1) % 4294967296
        ∧ (ntp_get_time h s).1.PollCycles = s.PollCycles) := by
  constructor
  · intro hp
    have hc : s.FlagHealth ≠ 0 ∧ s.ScanCount < NTP_SCAN_FACTOR ∧ ¬ s.UpdateTime = 0 := hp
    have h24 : s.ScanCount < 24 := hc.2.1
    rw [ntp_get_time_of_poll h s hc]
    refine ⟨?_, h24⟩
    show (s.ScanCount + 1) % 256 = s.ScanCount + 1
    omega
  · intro hn
    have hc : ¬ (s.FlagHealth ≠ 0 ∧ s.ScanCount < NTP_SCAN_FACTOR ∧ ¬ s.UpdateTime = 0) := hn
    rw [ntp_get_time_of_read h s hc]
    by_cases h0 : h.ReturnCode = 0
    · rw [if_pos h0]
      exact ⟨rfl, rfl, rfl⟩
    · rw [if_neg h0]
      by_cases h5 : h.ReturnCode = ERR_INPROGRESS
      · rw [if_pos h5]
        obtain ⟨-, -, f3, f4, f5, -⟩ := ntp_result_client_frame h.now_result (-1) none
          (ntp_get_time_read h s)
        exact ⟨f5, f3, f4⟩
      · rw [if_neg h5]
        exact ⟨rfl, rfl, rfl⟩

/-- Every operation of the client other than `ntp_get_time` leaves the scan count as it is. -/
theorem client_step_scan_count (op : client_operation) (s : struct_ntp) :
    (∃ h, op = client_operation.get_time h) ∨ (client_step op s).ScanCount = s.ScanCount := by
  cases op with
  | get_time h => exact Or.inl ⟨h, rfl⟩
  | dns_found send_time now_result ipaddr =>
    right
    cases ipaddr with
    | none => exact (ntp_result_client_frame now_result (-1) none s).2.2.2.2.1
    | some a => rfl
  | recv recv_time now_result p IPAddress port =>
    right
    show (ntp_recv recv_time now_result p IPAddress port s).1.ScanCount = _
    by_cases hv : ntp_recv_valid p IPAddress port s
    · rw [ntp_recv_of_valid recv_time now_result p IPAddress port s hv]
      exact (ntp_result_client_frame now_result 0 (some (ntp_recv_unix_time p))
        { s with
          Receive := recv_time % 4294967296
          Latency := wrapI32 (((recv_time % 4294967296 : Nat) : Int) - (s.Send : Int)) }).2.2.2.2.1
    · rw [ntp_recv_of_invalid recv_time now_result p IPAddress port s hv]
      exact (ntp_result_client_frame now_result (-1) none
        { s with Receive := recv_time % 4294967296 }).2.2.2.2.1
  | result now ResultStatus UnixTime =>
    exact Or.inr (ntp_result_client_frame now ResultStatus UnixTime s).2.2.2.2.1
  | request send_time => exact Or.inr rfl
  | failed_handler now_result =>
    exact Or.inr (ntp_result_client_frame now_result (-1) none s).2.2.2.2.1
  | dst_settings => exact Or.inr (ntp_dst_settings_frame s).2.2.2.2.1
  | convert_unix_time UnixTime => exact Or.inr rfl

/-- Every event other than a call of `ntp_get_time` leaves the scan count as it is. -/
theorem session_step_scan_count (e : session_event) (s : struct_ntp) :
    (∃ h, e = session_event.client (client_operation.get_time h))
    ∨ (session_step e s).ScanCount = s.ScanCount := by
  cases e with
  | client op =>
    rcases client_step_scan_count op s with ⟨h, hop⟩ | hk
    · exact Or.inl ⟨h, by rw [hop]⟩
    · exact Or.inr hk
  | main_success =>
    right
    show (main_on_success s).ScanCount = _
    unfold main_on_success
    split_ifs <;> rfl
  | main_failure => exact Or.inr rfl

/-- An event keeps the scan count at most `NTP_SCAN_FACTOR`. -/
theorem session_step_scan_count_le (e : session_event) (s : struct_ntp)
    (hs : s.ScanCount ≤ 24) : (session_step e s).ScanCount ≤ 24 := by
  rcases session_step_scan_count e s with ⟨h, he⟩ | hk
  · rw [he]
    show (ntp_get_time h s).1.ScanCount ≤ 24
    obtain ⟨a1, a2⟩ := ntp_get_time_scan_count h s
    by_cases hp : ntp_get_time_is_poll s
    · obtain ⟨b1, b2⟩ := a1 hp
      omega
    · obtain ⟨b1, -⟩ := a2 hp
      omega
  · omega

/-- A sequence of events keeps the scan count at most `NTP_SCAN_FACTOR`. -/
theorem session_steps_scan_count_le (es : List session_event) :
    ∀ s : struct_ntp, s.ScanCount ≤ 24 → (session_steps es s).ScanCount ≤ 24 := by
  induction es with
  | nil => exact fun s hs => hs
  | cons e rest ih =>
    intro s hs
    have he : session_steps (e :: rest) s = session_steps rest (session_step e s) := rfl
    rw [he]
    exact ih (session_step e s) (session_step_scan_count_le e s hs)

/-- In a run of events in which every call of `ntp_get_time` is a poll, the scan count is
increased by one by each call and by nothing else. -/
theorem polls_only_scan_count (es : List session_event) :
    ∀ s : struct_ntp, polls_only es s = true →
      (session_steps es s).ScanCount = s.ScanCount + get_time_calls es := by
  induction es with
  | nil => exact fun s _ => rfl
  | cons e rest ih =>
    intro s hp
    have he : session_steps (e :: rest) s = session_steps rest (session_step e s) := rfl
    have hk := session_step_scan_count e s
    rw [he]
    cases e with
    | client op =>
      cases op with
      | get_time h =>
        have hp2 : (decide (ntp_get_time_is_poll s) && polls_only rest (ntp_get_time h s).1)
            = true := hp
        rw [Bool.and_eq_true, decide_eq_true_eq] at hp2
        have hc : get_time_calls (session_event.client (client_operation.get_time h) :: rest)
            = get_time_calls rest + 1 := rfl
        have hstep : session_step (session_event.client (client_operation.get_time h)) s
            = (ntp_get_time h s).1 := rfl
        rw [hc, hstep, ih _ hp2.2, ((ntp_get_time_scan_count h s).1 hp2.1).1]
        omega
      | _ =>
        rcases hk with ⟨h, hh⟩ | hk
        · cases hh
        · rw [ih _ hp, hk]
          rfl
    | _ =>
      rcases hk with ⟨h, hh⟩ | hk
      · cases hh
      · rw [ih _ hp, hk]
        rfl

/-- C39: scan-count invariant.  In every session state reached from `ntp_init` by any sequence
of events (operations of the client: `ntp_get_time`, `ntp_dns_found`, `ntp_recv`, the timer
call-back, `ntp_result`, ...; and the handling of a success or a failure by the driving loop),
`ScanCount <= 24` (`NTP_SCAN_FACTOR`); after any call of `ntp_get_time` in such a state
`1 <= ScanCount <= 24`; after `ntp_init` and any operations of the client the poll test fails,
so the first `ntp_get_time` after `ntp_init` is a resync (`ScanCount = 1`, `ReadCycles`
increased); and in a run of events that follows a call of `ntp_get_time`, if every call of
`ntp_get_time` in the run is a poll then the run has at most 23 such calls (at most 24 from
any reached state). -/
theorem scan_count_invariant (Pcb : Nat) (s0 : struct_ntp) (es : List session_event) :
    (session_steps es (ntp_init Pcb s0).1.1).ScanCount ≤ 24
    ∧ (∀ h : get_time_host,
        1 ≤ (ntp_get_time h (session_steps es (ntp_init Pcb s0).1.1)).1.ScanCount
        ∧ (ntp_get_time h (session_steps es (ntp_init Pcb s0).1.1)).1.ScanCount ≤ 24)
    ∧ (∀ (ops : List client_operation) (h : get_time_host),
        ¬ ntp_get_time_is_poll (client_steps ops (ntp_init Pcb s0).1.1)
        ∧ (ntp_get_time h (client_steps ops (ntp_init Pcb s0).1.1)).1.ScanCount = 1
        ∧ (ntp_get_time h (client_steps ops (ntp_init Pcb s0).1.1)).1.ReadCycles
            = ((client_steps ops (ntp_init Pcb s0).1.1).ReadCycles + 1) % 4294967296
        ∧ (ntp_get_time h (client_steps ops (ntp_init Pcb s0).1.1)).1.PollCycles
            = (client_steps ops (ntp_init Pcb s0).1.1).PollCycles)
    ∧ (∀ (h : get_time_host) (run : List session_event),
        polls_only run (ntp_get_time h (session_steps es (ntp_init Pcb s0).1.1)).1 = true →
        get_time_calls run ≤ 23)
    ∧ (∀ run : List session_event,
        polls_only run (session_steps es (ntp_init Pcb s0).1.1) = true →
        get_time_calls run ≤ 24) := by
  obtain ⟨i1, i2, -, -, -⟩ := ntp_init_session Pcb s0
  have hinv : (session_steps es (ntp_init Pcb s0).1.1).ScanCount ≤ 24 :=
    session_steps_scan_count_le es _ (by omega)
  have hget : ∀ h : get_time_host,
      1 ≤ (ntp_get_time h (session_steps es (ntp_init Pcb s0).1.1)).1.ScanCount
      ∧ (ntp_get_time h (session_steps es (ntp_init Pcb s0).1.1)).1.ScanCount ≤ 24 := by
    intro h
    obtain ⟨a1, a2⟩ := ntp_get_time_scan_count h (session_steps es (ntp_init Pcb s0).1.1)
    by_cases hp : ntp_get_time_is_poll (session_steps es (ntp_init Pcb s0).1.1)
    · obtain ⟨b1, b2⟩ := a1 hp
      omega
    · obtain ⟨b1, -⟩ := a2 hp
      omega
  refine ⟨hinv, hget, fun ops h => ?_, fun h run hp => ?_, fun run hp => ?_⟩
  · have hn : ¬ ntp_get_time_is_poll (client_steps ops (ntp_init Pcb s0).1.1) := by
      intro hp
      have hf := (client_steps_frame ops (ntp_init Pcb s0).1.1).2
      rw [i2] at hf
      exact hp.1 hf
    exact ⟨hn, (ntp_get_time_scan_count h _).2 hn⟩
  · have hc := polls_only_scan_count run _ hp
    have hle := session_steps_scan_count_le run _ (hget h).2
    have h1 := (hget h).1
    omega
  · have hc := polls_only_scan_count run _ hp
    have hle := session_steps_scan_count_le run _ hinv
    omega

/-- Witness for C39: after `ntp_init`, a first read cycle, an accepted reply and the handling of
the success (scan count 1), 23 calls of `ntp_get_time` in a row are polls and bring the scan
count to 24; the next call is a resync. -/
theorem scan_count_invariant_witness :
    example_session_synced.ScanCount = 1
    ∧ polls_only (List.replicate 23 (session_event.client
          (client_operation.get_time example_host_cached))) example_session_synced = true
    ∧ get_time_calls (session_event.client
          (client_operation.recv 5030000 5030100 (example_reply 2) 16909060 123)
        :: session_event.main_success
        :: List.replicate 23 (session_event.client
            (client_operation.get_time example_host_cached))) ≤ 23
    ∧ (session_steps (List.replicate 23 (session_event.client
          (client_operation.get_time example_host_cached))) example_session_synced).ScanCount
        = 24
    ∧ ¬ ntp_get_time_is_poll (session_steps (List.replicate 23 (session_event.client
          (client_operation.get_time example_host_cached))) example_session_synced)
    ∧ (session_steps (example_first_cycle ++ List.replicate 23 (session_event.client
          (client_operation.get_time example_host_cached)))
        (ntp_init 1 (example_session 1970 0)).1.1).ScanCount ≤ 24 :=
  ⟨by decide, by decide,
   (scan_count_invariant 1 (example_session 1970 0) []).2.2.2.1 example_host_cached
      (session_event.client
          (client_operation.recv 5030000 5030100 (example_reply 2) 16909060 123)
        :: session_event.main_success
        :: List.replicate 23 (session_event.client
            (client_operation.get_time example_host_cached))) (by decide),
   by decide, by decide,
   (scan_count_invariant 1 (example_session 1970 0)
      (example_first_cycle ++ List.replicate 23 (session_event.client
          (client_operation.get_time example_host_cached)))).1⟩

end PicoNTP
